import Mathlib

/-!
Verification development for the riscv-asm-analyzer backend.

The TypeScript backend is shallowly embedded: JavaScript 32-bit integer
semantics are modelled on `Int`/`Nat` (`toInt32`, `toUint32`, `jsShl`, …),
thrown errors become `Except` values, and the declarative instruction table
is transcribed record by record.  `assembler.ts` (the standalone assembler)
and the richer assembler concatenated into `disassembler.ts` (pseudo
expansion, XLEN tracking, float/vector support) are both embedded, in the
namespaces `V1` and `Full` respectively; the disassembler follows the
current version at the top of `disassembler.ts`.
-/

namespace Riscv

/-! ## JavaScript number semantics

All arithmetic in the backend happens on JavaScript numbers; the bitwise
operators (`&`, `|`, `<<`, `>>`, `>>>`) coerce through ToInt32/ToUint32.
Integer literals appearing in the analyzer stay far below 2^53, so plain
`Int` arithmetic is exact wherever the source uses `+`, `-`, `*`.
-/

def toUint32 (n : Int) : Nat := (n % 4294967296).toNat

def toInt32 (n : Int) : Int :=
  if n % 4294967296 < 2147483648 then n % 4294967296 else n % 4294967296 - 4294967296

/-- JavaScript `a & b`. -/
def jsAnd (a b : Int) : Int := toInt32 (((toUint32 a) &&& (toUint32 b) : Nat) : Int)

/-- JavaScript `a | b`. -/
def jsOr (a b : Int) : Int := toInt32 (((toUint32 a) ||| (toUint32 b) : Nat) : Int)

/-- JavaScript `a << b` (left shift on ToInt32, result as int32). -/
def jsShl (a b : Int) : Int := toInt32 (((toUint32 a) <<< ((toUint32 b) % 32) : Nat) : Int)

/-- JavaScript `a >> b` (sign-propagating right shift; floor division). -/
def jsShr (a b : Int) : Int := Int.fdiv (toInt32 a) ((2 : Int) ^ ((toUint32 b) % 32))

/-- JavaScript `a >>> b` (zero-fill right shift, returns a uint32 value). -/
def jsShrU (a b : Int) : Int := (((toUint32 a) >>> ((toUint32 b) % 32) : Nat) : Int)

/-! ## String helpers mirroring the JavaScript string methods used -/

def isJsWhitespace (c : Char) : Bool :=
  c = ' ' || c = '\t' || c = '\r' || c = '\n'

/-- JavaScript `String.prototype.trim` (ASCII whitespace suffices here). -/
def jsTrim (s : String) : String :=
  String.mk (((s.toList.dropWhile isJsWhitespace).reverse.dropWhile isJsWhitespace).reverse)

def toLowerChar (c : Char) : Char :=
  if 'A' ≤ c ∧ c ≤ 'Z' then Char.ofNat (c.toNat + 32) else c

/-- JavaScript `String.prototype.toLowerCase` (ASCII range). -/
def jsToLower (s : String) : String := String.mk (s.toList.map toLowerChar)

/-- Split a character list at every occurrence of `c`, keeping empty pieces,
as JavaScript `split` does. -/
def splitCharAux (c : Char) : List Char → List Char → List (List Char)
  | [], acc => [acc.reverse]
  | x :: xs, acc =>
      if x = c then acc.reverse :: splitCharAux c xs []
      else splitCharAux c xs (x :: acc)

def splitChar (l : List Char) (c : Char) : List (List Char) := splitCharAux c l []

/-- JavaScript `source.split(/\r?\n/)`. -/
def splitLines (source : String) : List String :=
  (splitChar source.toList '\n').map fun l =>
    String.mk (if l.getLast? = some '\r' then l.dropLast else l)

/-- Index of the first occurrence of character `c` (JavaScript `indexOf`). -/
def charIdx (l : List Char) (c : Char) : Option Nat :=
  match l with
  | [] => none
  | x :: xs => if x = c then some 0 else (charIdx xs c).map (· + 1)

/-- Index of the first occurrence of the two-character pattern `c₁c₂`. -/
def twoCharIdx (l : List Char) (c₁ c₂ : Char) : Option Nat :=
  match l with
  | [] => none
  | [_] => none
  | x :: y :: xs =>
      if x = c₁ ∧ y = c₂ then some 0 else (twoCharIdx (y :: xs) c₁ c₂).map (· + 1)

/-- Index of the first occurrence of `c` at or after position `from0`
(JavaScript `indexOf(c, from0)`). -/
def charIdxFrom (l : List Char) (c : Char) (from0 : Nat) : Option Nat :=
  (charIdx (l.drop from0) c).map (· + from0)

def padStartZero (s : String) (len : Nat) : String :=
  String.mk (List.replicate (len - s.toList.length) '0' ++ s.toList)

def hexDigitChar (n : Nat) : Char :=
  if n < 10 then Char.ofNat (48 + n) else Char.ofNat (87 + n)

/-- Hexadecimal digits of `n`, least significant first.  The recursion is
bounded by a digit-count fuel; 12 digits cover every value the analyzer
formats (all are ToUint32 images, hence below 16^8). -/
def hexDigitsRevAux : Nat → Nat → List Char
  | 0, _ => []
  | fuel + 1, n =>
      if n = 0 then [] else hexDigitChar (n % 16) :: hexDigitsRevAux fuel (n / 16)

def hexDigitsRev (n : Nat) : List Char := hexDigitsRevAux 12 n

/-- JavaScript `n.toString(16)` for a nonnegative integer. -/
def natToHexStr (n : Nat) : String :=
  if n = 0 then "0" else String.mk (hexDigitsRev n).reverse

/-! ## errors.ts

`AnalyzerError` prepends `Line N: ` to its message whenever a line number is
supplied (line numbers are 1-based, so the JavaScript falsy check on `line`
behaves like an option test).  Errors thrown as plain `Error` (by
`registers.ts`) are modelled by the `plain` constructor.
-/

inductive JsError where
  | analyzer (msg : String) (line : Option Nat)
  | plain (msg : String)
deriving DecidableEq, Repr

def JsError.message : JsError → String
  | .analyzer msg (some n) => s!"Line {n}: {msg}"
  | .analyzer msg none => msg
  | .plain msg => msg

def JsError.line : JsError → Option Nat
  | .analyzer _ l => l
  | .plain _ => none

abbrev Res (α : Type) := Except JsError α

/-! ## utils.ts -/

def signExtend (value : Int) (bits : Int) : Int :=
  let shift := 32 - bits
  jsShr (jsShl value shift) shift

def isDecDigit (c : Char) : Bool := '0' ≤ c ∧ c ≤ '9'

def isLowerHexDigit (c : Char) : Bool := isDecDigit c || ('a' ≤ c ∧ c ≤ 'f')

def isBinDigit (c : Char) : Bool := c = '0' || c = '1'

def decDigitVal (c : Char) : Nat := c.toNat - 48

def hexDigitVal (c : Char) : Nat :=
  if isDecDigit c then c.toNat - 48 else c.toNat - 87

def digitsToNat (base : Nat) (digitVal : Char → Nat) (l : List Char) : Nat :=
  l.foldl (fun acc c => acc * base + digitVal c) 0

def matchesHexLiteral (l : List Char) : Bool :=
  match l with
  | '0' :: 'x' :: rest => rest ≠ [] && rest.all isLowerHexDigit
  | _ => false

def matchesBinLiteral (l : List Char) : Bool :=
  match l with
  | '0' :: 'b' :: rest => rest ≠ [] && rest.all isBinDigit
  | _ => false

def matchesDecLiteral (l : List Char) : Bool :=
  match l with
  | '-' :: rest => rest ≠ [] && rest.all isDecDigit
  | l => l ≠ [] && l.all isDecDigit

def parseNumericLiteral (token : String) (line : Option Nat) (label : String := "value") :
    Res Int :=
  let cleaned := (token.toList.filter (· ≠ '_')).map toLowerChar
  if matchesHexLiteral cleaned then
    .ok (digitsToNat 16 hexDigitVal (cleaned.drop 2) : Nat)
  else if matchesBinLiteral cleaned then
    .ok (digitsToNat 2 decDigitVal (cleaned.drop 2) : Nat)
  else if matchesDecLiteral cleaned then
    match cleaned with
    | '-' :: rest => .ok (-(digitsToNat 10 decDigitVal rest : Nat) : Int)
    | l => .ok (digitsToNat 10 decDigitVal l : Nat)
  else
    .error (.analyzer s!"Invalid {label} '{token}'" line)

def outOfRangeMessage (label : String) (value : Int) (bits : Nat) (signed : Bool) : String :=
  let kind := if signed then "signed" else "unsigned"
  s!"Out of range {label} '{value}' for {bits}-bit {kind} field"

def validateImmediateRange (value : Int) (bits : Nat) (signed : Bool)
    (line : Option Nat) (label : String := "immediate") : Res Unit :=
  let max : Int := if signed then jsShl 1 ((bits : Int) - 1) - 1 else jsShl 1 (bits : Int) - 1
  let min : Int := if signed then -(jsShl 1 ((bits : Int) - 1)) else 0
  if value < min ∨ value > max then
    .error (.analyzer (outOfRangeMessage label value bits signed) line)
  else
    .ok ()

structure ImmediateOpts where
  bits : Nat
  signed : Bool := true
  line : Option Nat := none
  label : String := "immediate"

def parseImmediate (token : String) (opts : ImmediateOpts) : Res Int := do
  let sanitized := jsTrim token
  if sanitized = "" then
    throw (.analyzer s!"Missing {opts.label}" opts.line)
  let value ← parseNumericLiteral sanitized opts.line opts.label
  validateImmediateRange value opts.bits opts.signed opts.line opts.label
  return value

def formatHex (value : Int) : String :=
  let normalized := toUint32 value
  "0x" ++ padStartZero (natToHexStr normalized) 8

inductive NumberBase where
  | hex
  | dec
deriving DecidableEq, Repr

/-- Modelled from the spec: `formatNumber` is imported by the disassembler
and the full assembler from `./utils`, but no definition of it exists under
src.  Spec §6 fixes the machine-word output format as `0x` followed by 8
zero-padded lowercase hexadecimal digits and says `numberBase`
(`'hex' | 'dec'`, default `'hex'`) governs numeric formatting; `hex`
therefore renders the ToUint32 image in that 0x-padded form and `dec`
renders the signed decimal value. -/
def formatNumber (value : Int) (base : NumberBase := .hex) : String :=
  match base with
  | .dec => toString value
  | .hex => "0x" ++ padStartZero (natToHexStr (toUint32 value)) 8

/-! ## registers.ts -/

def canonicalNames : List String :=
  ["zero", "ra", "sp", "gp", "tp", "t0", "t1", "t2", "s0", "s1", "a0", "a1",
   "a2", "a3", "a4", "a5", "a6", "a7", "s2", "s3", "s4", "s5", "s6", "s7",
   "s8", "s9", "s10", "s11", "t3", "t4", "t5", "t6"]

def eCanonicalNames : List String :=
  ["zero", "ra", "sp", "gp", "tp", "t0", "t1", "t2", "s0", "s1", "a0", "a1",
   "a2", "a3", "a4", "a5"]

def aliasEntries (names : List String) : List (String × Nat) :=
  names.enum.flatMap fun p => [(p.2, p.1), ("x" ++ toString p.1, p.1)]

/-- JavaScript `Map.get` over insertion-ordered entries (later keys win). -/
def mapGet (entries : List (String × Nat)) (key : String) : Option Nat :=
  entries.foldl (fun acc p => if p.1 = key then some p.2 else acc) none

def aliasToNumber : List (String × Nat) := aliasEntries canonicalNames

def eAliasToNumber : List (String × Nat) := aliasEntries eCanonicalNames

def parseRegister (token : String) (isEmbedded : Bool := false) : Res Nat :=
  let normalized := jsToLower (jsTrim token)
  if normalized = "" then
    .error (.plain "Missing register operand")
  else
    let aliasMap := if isEmbedded then eAliasToNumber else aliasToNumber
    match mapGet aliasMap normalized with
    | some value => .ok value
    | none => .error (.plain s!"Unknown register '{token}'")

def formatRegister (register : Int) (isEmbedded : Bool := false) : String :=
  if 0 ≤ register ∧ register < 32 then s!"x{register}"
  else s!"x{jsAnd register (if isEmbedded then 15 else 31)}"

/-- Maximal leading decimal-digit run (JavaScript `parseInt(s, 10)` on the
inputs occurring here: `none` models `NaN`). -/
def parseIntPrefix (l : List Char) : Option Int :=
  match l with
  | '-' :: rest =>
      let digits := rest.takeWhile isDecDigit
      if digits = [] then none else some (-(digitsToNat 10 decDigitVal digits : Nat) : Int)
  | l =>
      let digits := l.takeWhile isDecDigit
      if digits = [] then none else some (digitsToNat 10 decDigitVal digits : Nat)

def parseFloatRegister (token : String) : Res Nat :=
  let normalized := jsToLower (jsTrim token)
  if normalized = "" then
    .error (.plain "Missing float register operand")
  else
    match normalized.toList with
    | 'f' :: rest =>
        match parseIntPrefix rest with
        | some num =>
            if 0 ≤ num ∧ num < 32 then .ok num.toNat
            else .error (.plain s!"Unknown float register '{token}'")
        | none => .error (.plain s!"Unknown float register '{token}'")
    | _ => .error (.plain s!"Unknown float register '{token}'")

def formatFloatRegister (register : Int) : String :=
  if 0 ≤ register ∧ register < 32 then s!"f{register}"
  else s!"f{jsAnd register 31}"

def parseVectorRegister (token : String) : Res Nat :=
  let trimmed := jsTrim token
  match trimmed.toList with
  | 'v' :: rest =>
      if rest ≠ [] ∧ rest.all isDecDigit then
        let regNum := digitsToNat 10 decDigitVal rest
        if regNum > 31 then
          .error (.plain s!"Vector register number {regNum} out of range (0-31)")
        else .ok regNum
      else .error (.plain s!"Invalid vector register '{token}'")
  | _ => .error (.plain s!"Invalid vector register '{token}'")

def formatVectorRegister (register : Int) : String :=
  if 0 ≤ register ∧ register < 32 then s!"v{register}"
  else s!"v{jsAnd register 31}"


/-! ## instruction-types.ts / instruction-set.ts

One record per mnemonic, transcribed field by field from the per-extension
tables under src.  `format` and `operandPattern` keep their literal string
tags.  The rv32e, rv64e and rvc tables are imported by instruction-set.ts
but their files are absent from src; spec §3 states that extension variants
with identical mnemonics do not coexist and the compressed synthetic opcode
keys (low two bits ≠ 11) never collide with standard 7-bit opcodes, so they
are modelled as empty lists.
-/

structure InstructionSpec where
  name : String
  format : String
  opcode : Nat
  funct2 : Option Nat := none
  funct3 : Option Nat := none
  funct4 : Option Nat := none
  funct6 : Option Nat := none
  funct7 : Option Nat := none
  operandPattern : String
  immBits : Option Nat := none
  unsignedImmediate : Option Bool := none
  fixedImmediate : Option Nat := none
  minXlen : Option Nat := none
  vm : Option Bool := none
deriving DecidableEq, Repr

def rv32iInstructions : List InstructionSpec := [
  { name := "add", format := "R", opcode := 51, funct3 := some 0, funct7 := some 0, operandPattern := "rd_rs1_rs2" },
  { name := "sub", format := "R", opcode := 51, funct3 := some 0, funct7 := some 32, operandPattern := "rd_rs1_rs2" },
  { name := "sll", format := "R", opcode := 51, funct3 := some 1, funct7 := some 0, operandPattern := "rd_rs1_rs2" },
  { name := "slt", format := "R", opcode := 51, funct3 := some 2, funct7 := some 0, operandPattern := "rd_rs1_rs2" },
  { name := "sltu", format := "R", opcode := 51, funct3 := some 3, funct7 := some 0, operandPattern := "rd_rs1_rs2" },
  { name := "xor", format := "R", opcode := 51, funct3 := some 4, funct7 := some 0, operandPattern := "rd_rs1_rs2" },
  { name := "srl", format := "R", opcode := 51, funct3 := some 5, funct7 := some 0, operandPattern := "rd_rs1_rs2" },
  { name := "sra", format := "R", opcode := 51, funct3 := some 5, funct7 := some 32, operandPattern := "rd_rs1_rs2" },
  { name := "or", format := "R", opcode := 51, funct3 := some 6, funct7 := some 0, operandPattern := "rd_rs1_rs2" },
  { name := "and", format := "R", opcode := 51, funct3 := some 7, funct7 := some 0, operandPattern := "rd_rs1_rs2" },
  { name := "addi", format := "I", opcode := 19, funct3 := some 0, operandPattern := "rd_rs1_imm12" },
  { name := "slti", format := "I", opcode := 19, funct3 := some 2, operandPattern := "rd_rs1_imm12" },
  { name := "sltiu", format := "I", opcode := 19, funct3 := some 3, operandPattern := "rd_rs1_imm12" },
  { name := "xori", format := "I", opcode := 19, funct3 := some 4, operandPattern := "rd_rs1_imm12" },
  { name := "ori", format := "I", opcode := 19, funct3 := some 6, operandPattern := "rd_rs1_imm12" },
  { name := "andi", format := "I", opcode := 19, funct3 := some 7, operandPattern := "rd_rs1_imm12" },
  { name := "slli", format := "I", opcode := 19, funct3 := some 1, funct7 := some 0, operandPattern := "rd_rs1_imm12", immBits := some 5, unsignedImmediate := some true },
  { name := "srli", format := "I", opcode := 19, funct3 := some 5, funct7 := some 0, operandPattern := "rd_rs1_imm12", immBits := some 5, unsignedImmediate := some true },
  { name := "srai", format := "I", opcode := 19, funct3 := some 5, funct7 := some 32, operandPattern := "rd_rs1_imm12", immBits := some 5, unsignedImmediate := some true },
  { name := "jalr", format := "I", opcode := 103, funct3 := some 0, operandPattern := "rd_rs1_imm12" },
  { name := "lb", format := "I", opcode := 3, funct3 := some 0, operandPattern := "rd_mem" },
  { name := "lh", format := "I", opcode := 3, funct3 := some 1, operandPattern := "rd_mem" },
  { name := "lw", format := "I", opcode := 3, funct3 := some 2, operandPattern := "rd_mem" },
  { name := "lbu", format := "I", opcode := 3, funct3 := some 4, operandPattern := "rd_mem" },
  { name := "lhu", format := "I", opcode := 3, funct3 := some 5, operandPattern := "rd_mem" },
  { name := "sb", format := "S", opcode := 35, funct3 := some 0, operandPattern := "rs2_mem" },
  { name := "sh", format := "S", opcode := 35, funct3 := some 1, operandPattern := "rs2_mem" },
  { name := "sw", format := "S", opcode := 35, funct3 := some 2, operandPattern := "rs2_mem" },
  { name := "beq", format := "B", opcode := 99, funct3 := some 0, operandPattern := "rs1_rs2_branch", immBits := some 13 },
  { name := "bne", format := "B", opcode := 99, funct3 := some 1, operandPattern := "rs1_rs2_branch", immBits := some 13 },
  { name := "blt", format := "B", opcode := 99, funct3 := some 4, operandPattern := "rs1_rs2_branch", immBits := some 13 },
  { name := "bge", format := "B", opcode := 99, funct3 := some 5, operandPattern := "rs1_rs2_branch", immBits := some 13 },
  { name := "bltu", format := "B", opcode := 99, funct3 := some 6, operandPattern := "rs1_rs2_branch", immBits := some 13 },
  { name := "bgeu", format := "B", opcode := 99, funct3 := some 7, operandPattern := "rs1_rs2_branch", immBits := some 13 },
  { name := "fence", format := "I", opcode := 15, funct3 := some 0, operandPattern := "fence", immBits := some 12, unsignedImmediate := some true },
  { name := "fence.i", format := "I", opcode := 15, funct3 := some 1, operandPattern := "none", immBits := some 12, unsignedImmediate := some true, fixedImmediate := some 256 },
  { name := "ecall", format := "I", opcode := 115, funct3 := some 0, operandPattern := "none", immBits := some 12, fixedImmediate := some 0 },
  { name := "ebreak", format := "I", opcode := 115, funct3 := some 0, operandPattern := "none", immBits := some 12, fixedImmediate := some 1 },
  { name := "csrrw", format := "I", opcode := 115, funct3 := some 1, operandPattern := "rd_csr_rs1" },
  { name := "csrrs", format := "I", opcode := 115, funct3 := some 2, operandPattern := "rd_csr_rs1" },
  { name := "csrrc", format := "I", opcode := 115, funct3 := some 3, operandPattern := "rd_csr_rs1" },
  { name := "csrrwi", format := "I", opcode := 115, funct3 := some 5, operandPattern := "rd_csr_imm5", immBits := some 12, unsignedImmediate := some true },
  { name := "csrrsi", format := "I", opcode := 115, funct3 := some 6, operandPattern := "rd_csr_imm5", immBits := some 12, unsignedImmediate := some true },
  { name := "csrrci", format := "I", opcode := 115, funct3 := some 7, operandPattern := "rd_csr_imm5", immBits := some 12, unsignedImmediate := some true },
  { name := "lui", format := "U", opcode := 55, operandPattern := "rd_imm20", immBits := some 20 },
  { name := "auipc", format := "U", opcode := 23, operandPattern := "rd_imm20", immBits := some 20 },
  { name := "jal", format := "J", opcode := 111, operandPattern := "rd_jump", immBits := some 21 }
]

def rv32mInstructions : List InstructionSpec := [
  { name := "mul", format := "R", opcode := 51, funct3 := some 0, funct7 := some 1, operandPattern := "rd_rs1_rs2" },
  { name := "mulh", format := "R", opcode := 51, funct3 := some 1, funct7 := some 1, operandPattern := "rd_rs1_rs2" },
  { name := "mulhsu", format := "R", opcode := 51, funct3 := some 2, funct7 := some 1, operandPattern := "rd_rs1_rs2" },
  { name := "mulhu", format := "R", opcode := 51, funct3 := some 3, funct7 := some 1, operandPattern := "rd_rs1_rs2" },
  { name := "div", format := "R", opcode := 51, funct3 := some 4, funct7 := some 1, operandPattern := "rd_rs1_rs2" },
  { name := "divu", format := "R", opcode := 51, funct3 := some 5, funct7 := some 1, operandPattern := "rd_rs1_rs2" },
  { name := "rem", format := "R", opcode := 51, funct3 := some 6, funct7 := some 1, operandPattern := "rd_rs1_rs2" },
  { name := "remu", format := "R", opcode := 51, funct3 := some 7, funct7 := some 1, operandPattern := "rd_rs1_rs2" }
]

def rv64mInstructions : List InstructionSpec := [
  { name := "mulw", format := "R", opcode := 59, funct3 := some 0, funct7 := some 1, operandPattern := "rd_rs1_rs2", minXlen := some 64 },
  { name := "divw", format := "R", opcode := 59, funct3 := some 4, funct7 := some 1, operandPattern := "rd_rs1_rs2", minXlen := some 64 },
  { name := "divuw", format := "R", opcode := 59, funct3 := some 5, funct7 := some 1, operandPattern := "rd_rs1_rs2", minXlen := some 64 },
  { name := "remw", format := "R", opcode := 59, funct3 := some 6, funct7 := some 1, operandPattern := "rd_rs1_rs2", minXlen := some 64 },
  { name := "remuw", format := "R", opcode := 59, funct3 := some 7, funct7 := some 1, operandPattern := "rd_rs1_rs2", minXlen := some 64 }
]

def rv64iInstructions : List InstructionSpec := [
  { name := "addiw", format := "I", opcode := 27, funct3 := some 0, operandPattern := "rd_rs1_imm12", minXlen := some 64 },
  { name := "slliw", format := "I", opcode := 27, funct3 := some 1, funct7 := some 0, operandPattern := "rd_rs1_imm12", immBits := some 5, unsignedImmediate := some true, minXlen := some 64 },
  { name := "srliw", format := "I", opcode := 27, funct3 := some 5, funct7 := some 0, operandPattern := "rd_rs1_imm12", immBits := some 5, unsignedImmediate := some true, minXlen := some 64 },
  { name := "sraiw", format := "I", opcode := 27, funct3 := some 5, funct7 := some 32, operandPattern := "rd_rs1_imm12", immBits := some 5, unsignedImmediate := some true, minXlen := some 64 },
  { name := "addw", format := "R", opcode := 59, funct3 := some 0, funct7 := some 0, operandPattern := "rd_rs1_rs2", minXlen := some 64 },
  { name := "subw", format := "R", opcode := 59, funct3 := some 0, funct7 := some 32, operandPattern := "rd_rs1_rs2", minXlen := some 64 },
  { name := "sllw", format := "R", opcode := 59, funct3 := some 1, funct7 := some 0, operandPattern := "rd_rs1_rs2", minXlen := some 64 },
  { name := "srlw", format := "R", opcode := 59, funct3 := some 5, funct7 := some 0, operandPattern := "rd_rs1_rs2", minXlen := some 64 },
  { name := "sraw", format := "R", opcode := 59, funct3 := some 5, funct7 := some 32, operandPattern := "rd_rs1_rs2", minXlen := some 64 },
  { name := "lwu", format := "I", opcode := 3, funct3 := some 6, operandPattern := "rd_mem", minXlen := some 64 },
  { name := "ld", format := "I", opcode := 3, funct3 := some 3, operandPattern := "rd_mem", minXlen := some 64 },
  { name := "sd", format := "S", opcode := 35, funct3 := some 3, operandPattern := "rs2_mem", minXlen := some 64 }
]

def rvbInstructions : List InstructionSpec := [
  { name := "clz", format := "I", opcode := 19, funct3 := some 1, operandPattern := "rd_rs1", fixedImmediate := some 1536 },
  { name := "ctz", format := "I", opcode := 19, funct3 := some 1, operandPattern := "rd_rs1_imm12", fixedImmediate := some 1537 },
  { name := "cpop", format := "I", opcode := 19, funct3 := some 1, operandPattern := "rd_rs1_imm12", fixedImmediate := some 1538 },
  { name := "sext.b", format := "I", opcode := 19, funct3 := some 1, operandPattern := "rd_rs1_imm12", fixedImmediate := some 1540 },
  { name := "sext.h", format := "I", opcode := 19, funct3 := some 1, operandPattern := "rd_rs1_imm12", fixedImmediate := some 1541 },
  { name := "clzw", format := "I", opcode := 27, funct3 := some 1, operandPattern := "rd_rs1_imm12", fixedImmediate := some 1536, minXlen := some 64 },
  { name := "ctzw", format := "I", opcode := 27, funct3 := some 1, operandPattern := "rd_rs1_imm12", fixedImmediate := some 1537, minXlen := some 64 },
  { name := "cpopw", format := "I", opcode := 27, funct3 := some 1, operandPattern := "rd_rs1_imm12", fixedImmediate := some 1538, minXlen := some 64 },
  { name := "andn", format := "R", opcode := 51, funct3 := some 7, funct7 := some 32, operandPattern := "rd_rs1_rs2" },
  { name := "orn", format := "R", opcode := 51, funct3 := some 6, funct7 := some 32, operandPattern := "rd_rs1_rs2" },
  { name := "xnor", format := "R", opcode := 51, funct3 := some 4, funct7 := some 32, operandPattern := "rd_rs1_rs2" },
  { name := "rol", format := "R", opcode := 51, funct3 := some 1, funct7 := some 48, operandPattern := "rd_rs1_rs2" },
  { name := "ror", format := "R", opcode := 51, funct3 := some 5, funct7 := some 48, operandPattern := "rd_rs1_rs2" },
  { name := "rolw", format := "R", opcode := 59, funct3 := some 1, funct7 := some 48, operandPattern := "rd_rs1_rs2", minXlen := some 64 },
  { name := "rorw", format := "R", opcode := 59, funct3 := some 5, funct7 := some 48, operandPattern := "rd_rs1_rs2", minXlen := some 64 },
  { name := "rori", format := "I", opcode := 19, funct3 := some 5, funct7 := some 48, operandPattern := "rd_rs1_imm6", immBits := some 6 },
  { name := "roriw", format := "I", opcode := 27, funct3 := some 5, funct7 := some 48, operandPattern := "rd_rs1_imm6", immBits := some 5, minXlen := some 64 },
  { name := "bset", format := "R", opcode := 51, funct3 := some 1, funct7 := some 16, operandPattern := "rd_rs1_rs2" },
  { name := "bclr", format := "R", opcode := 51, funct3 := some 1, funct7 := some 32, operandPattern := "rd_rs1_rs2" },
  { name := "binv", format := "R", opcode := 51, funct3 := some 1, funct7 := some 48, operandPattern := "rd_rs1_rs2" },
  { name := "bext", format := "R", opcode := 51, funct3 := some 5, funct7 := some 32, operandPattern := "rd_rs1_rs2" },
  { name := "bseti", format := "I", opcode := 19, funct3 := some 1, funct7 := some 16, operandPattern := "rd_rs1_imm6", immBits := some 6 },
  { name := "bclri", format := "I", opcode := 19, funct3 := some 5, funct7 := some 16, operandPattern := "rd_rs1_imm6", immBits := some 6 },
  { name := "binvi", format := "I", opcode := 19, funct3 := some 5, funct7 := some 48, operandPattern := "rd_rs1_imm6", immBits := some 6 },
  { name := "bexti", format := "I", opcode := 19, funct3 := some 5, funct7 := some 32, operandPattern := "rd_rs1_imm6", immBits := some 6 }
]

def rvfInstructions : List InstructionSpec := [
  { name := "flw", format := "FI", opcode := 7, funct3 := some 2, operandPattern := "fd_rs1", minXlen := some 32 },
  { name := "fsw", format := "FS", opcode := 39, funct3 := some 2, operandPattern := "fs2_fs1_rs1", minXlen := some 32 },
  { name := "fadd.s", format := "FR", opcode := 83, funct3 := some 0, funct7 := some 0, operandPattern := "fd_fs1_fs2", minXlen := some 32 },
  { name := "fsub.s", format := "FR", opcode := 83, funct3 := some 0, funct7 := some 4, operandPattern := "fd_fs1_fs2", minXlen := some 32 },
  { name := "fmul.s", format := "FR", opcode := 83, funct3 := some 0, funct7 := some 8, operandPattern := "fd_fs1_fs2", minXlen := some 32 },
  { name := "fdiv.s", format := "FR", opcode := 83, funct3 := some 0, funct7 := some 12, operandPattern := "fd_fs1_fs2", minXlen := some 32 },
  { name := "fsqrt.s", format := "FR", opcode := 83, funct3 := some 0, funct7 := some 44, operandPattern := "fd_fs1", minXlen := some 32 },
  { name := "fmin.s", format := "FR", opcode := 83, funct3 := some 0, funct7 := some 20, operandPattern := "fd_fs1_fs2", minXlen := some 32 },
  { name := "fmax.s", format := "FR", opcode := 83, funct3 := some 1, funct7 := some 20, operandPattern := "fd_fs1_fs2", minXlen := some 32 },
  { name := "feq.s", format := "FR", opcode := 83, funct3 := some 2, funct7 := some 80, operandPattern := "rd_fs1_fs2", minXlen := some 32 },
  { name := "flt.s", format := "FR", opcode := 83, funct3 := some 1, funct7 := some 80, operandPattern := "rd_fs1_fs2", minXlen := some 32 },
  { name := "fle.s", format := "FR", opcode := 83, funct3 := some 0, funct7 := some 80, operandPattern := "rd_fs1_fs2", minXlen := some 32 },
  { name := "fcvt.w.s", format := "FR", opcode := 83, funct3 := some 0, funct7 := some 96, operandPattern := "rd_fs1", minXlen := some 32 },
  { name := "fcvt.wu.s", format := "FR", opcode := 83, funct3 := some 1, funct7 := some 96, operandPattern := "rd_fs1", minXlen := some 32 },
  { name := "fcvt.s.w", format := "FR", opcode := 83, funct3 := some 0, funct7 := some 104, operandPattern := "fd_rs1", minXlen := some 32 },
  { name := "fcvt.s.wu", format := "FR", opcode := 83, funct3 := some 1, funct7 := some 104, operandPattern := "fd_rs1", minXlen := some 32 },
  { name := "fmv.x.w", format := "FR", opcode := 83, funct3 := some 0, funct7 := some 112, operandPattern := "rd_fs1", minXlen := some 32 },
  { name := "fmv.w.x", format := "FR", opcode := 83, funct3 := some 0, funct7 := some 120, operandPattern := "fd_rs1", minXlen := some 32 },
  { name := "fclass.s", format := "FR", opcode := 83, funct3 := some 1, funct7 := some 112, operandPattern := "rd_fs1", minXlen := some 32 }
]

def rvdInstructions : List InstructionSpec := [
  { name := "fld", format := "FI", opcode := 7, funct3 := some 3, operandPattern := "rd_mem", minXlen := some 32 },
  { name := "fsd", format := "FS", opcode := 39, funct3 := some 3, operandPattern := "rs2_mem", minXlen := some 32 },
  { name := "fadd.d", format := "FR", opcode := 83, funct3 := some 0, funct7 := some 1, operandPattern := "fd_fs1_fs2", minXlen := some 32 },
  { name := "fsub.d", format := "FR", opcode := 83, funct3 := some 0, funct7 := some 5, operandPattern := "fd_fs1_fs2", minXlen := some 32 },
  { name := "fmul.d", format := "FR", opcode := 83, funct3 := some 0, funct7 := some 9, operandPattern := "fd_fs1_fs2", minXlen := some 32 },
  { name := "fdiv.d", format := "FR", opcode := 83, funct3 := some 0, funct7 := some 13, operandPattern := "fd_fs1_fs2", minXlen := some 32 },
  { name := "fsqrt.d", format := "FR", opcode := 83, funct3 := some 0, funct7 := some 45, operandPattern := "fd_fs1", minXlen := some 32 },
  { name := "fsgnj.d", format := "FR", opcode := 83, funct3 := some 0, funct7 := some 17, operandPattern := "fd_fs1_fs2", minXlen := some 32 },
  { name := "fsgnjn.d", format := "FR", opcode := 83, funct3 := some 1, funct7 := some 17, operandPattern := "fd_fs1_fs2", minXlen := some 32 },
  { name := "fsgnjx.d", format := "FR", opcode := 83, funct3 := some 2, funct7 := some 17, operandPattern := "fd_fs1_fs2", minXlen := some 32 },
  { name := "fmin.d", format := "FR", opcode := 83, funct3 := some 0, funct7 := some 21, operandPattern := "fd_fs1_fs2", minXlen := some 32 },
  { name := "fmax.d", format := "FR", opcode := 83, funct3 := some 1, funct7 := some 21, operandPattern := "fd_fs1_fs2", minXlen := some 32 },
  { name := "feq.d", format := "FR", opcode := 83, funct3 := some 2, funct7 := some 81, operandPattern := "rd_fs1_fs2", minXlen := some 32 },
  { name := "flt.d", format := "FR", opcode := 83, funct3 := some 1, funct7 := some 81, operandPattern := "rd_fs1_fs2", minXlen := some 32 },
  { name := "fle.d", format := "FR", opcode := 83, funct3 := some 0, funct7 := some 81, operandPattern := "rd_fs1_fs2", minXlen := some 32 },
  { name := "fcvt.w.d", format := "FR", opcode := 83, funct3 := some 0, funct7 := some 97, operandPattern := "rd_fs1", minXlen := some 32 },
  { name := "fcvt.wu.d", format := "FR", opcode := 83, funct3 := some 1, funct7 := some 97, operandPattern := "rd_fs1", minXlen := some 32 },
  { name := "fcvt.d.w", format := "FR", opcode := 83, funct3 := some 0, funct7 := some 105, operandPattern := "fd_rs1", minXlen := some 32 },
  { name := "fcvt.d.wu", format := "FR", opcode := 83, funct3 := some 1, funct7 := some 105, operandPattern := "fd_rs1", minXlen := some 32 },
  { name := "fcvt.l.d", format := "FR", opcode := 83, funct3 := some 2, funct7 := some 97, operandPattern := "rd_fs1", minXlen := some 64 },
  { name := "fcvt.lu.d", format := "FR", opcode := 83, funct3 := some 3, funct7 := some 97, operandPattern := "rd_fs1", minXlen := some 64 },
  { name := "fcvt.d.l", format := "FR", opcode := 83, funct3 := some 2, funct7 := some 105, operandPattern := "fd_rs1", minXlen := some 64 },
  { name := "fcvt.d.lu", format := "FR", opcode := 83, funct3 := some 3, funct7 := some 105, operandPattern := "fd_rs1", minXlen := some 64 },
  { name := "fcvt.s.d", format := "FR", opcode := 83, funct3 := some 1, funct7 := some 32, operandPattern := "fd_fs1", minXlen := some 32 },
  { name := "fcvt.d.s", format := "FR", opcode := 83, funct3 := some 0, funct7 := some 33, operandPattern := "fd_fs1", minXlen := some 32 },
  { name := "fmv.x.d", format := "FR", opcode := 83, funct3 := some 0, funct7 := some 113, operandPattern := "rd_fs1", minXlen := some 64 },
  { name := "fmv.d.x", format := "FR", opcode := 83, funct3 := some 0, funct7 := some 121, operandPattern := "fd_rs1", minXlen := some 64 },
  { name := "fclass.d", format := "FR", opcode := 83, funct3 := some 1, funct7 := some 113, operandPattern := "rd_fs1", minXlen := some 32 }
]

def rvqInstructions : List InstructionSpec := [
  { name := "flq", format := "FI", opcode := 7, funct3 := some 4, operandPattern := "rd_mem", minXlen := some 32 },
  { name := "fsq", format := "FS", opcode := 39, funct3 := some 4, operandPattern := "rs2_mem", minXlen := some 32 },
  { name := "fadd.q", format := "FR", opcode := 83, funct3 := some 0, funct7 := some 3, operandPattern := "fd_fs1_fs2", minXlen := some 32 },
  { name := "fsub.q", format := "FR", opcode := 83, funct3 := some 0, funct7 := some 7, operandPattern := "fd_fs1_fs2", minXlen := some 32 },
  { name := "fmul.q", format := "FR", opcode := 83, funct3 := some 0, funct7 := some 11, operandPattern := "fd_fs1_fs2", minXlen := some 32 },
  { name := "fdiv.q", format := "FR", opcode := 83, funct3 := some 0, funct7 := some 15, operandPattern := "fd_fs1_fs2", minXlen := some 32 },
  { name := "fsqrt.q", format := "FR", opcode := 83, funct3 := some 0, funct7 := some 47, operandPattern := "fd_fs1", minXlen := some 32 },
  { name := "fsgnj.q", format := "FR", opcode := 83, funct3 := some 0, funct7 := some 19, operandPattern := "fd_fs1_fs2", minXlen := some 32 },
  { name := "fsgnjn.q", format := "FR", opcode := 83, funct3 := some 1, funct7 := some 19, operandPattern := "fd_fs1_fs2", minXlen := some 32 },
  { name := "fsgnjx.q", format := "FR", opcode := 83, funct3 := some 2, funct7 := some 19, operandPattern := "fd_fs1_fs2", minXlen := some 32 },
  { name := "fmin.q", format := "FR", opcode := 83, funct3 := some 0, funct7 := some 23, operandPattern := "fd_fs1_fs2", minXlen := some 32 },
  { name := "fmax.q", format := "FR", opcode := 83, funct3 := some 1, funct7 := some 23, operandPattern := "fd_fs1_fs2", minXlen := some 32 },
  { name := "fmadd.q", format := "FR4", opcode := 67, funct2 := some 3, operandPattern := "fd_fs1_fs2_fs3", minXlen := some 32 },
  { name := "fmsub.q", format := "FR4", opcode := 71, funct2 := some 3, operandPattern := "fd_fs1_fs2_fs3", minXlen := some 32 },
  { name := "fnmsub.q", format := "FR4", opcode := 75, funct2 := some 3, operandPattern := "fd_fs1_fs2_fs3", minXlen := some 32 },
  { name := "fnmadd.q", format := "FR4", opcode := 79, funct2 := some 3, operandPattern := "fd_fs1_fs2_fs3", minXlen := some 32 },
  { name := "feq.q", format := "FR", opcode := 83, funct3 := some 2, funct7 := some 83, operandPattern := "rd_fs1_fs2", minXlen := some 32 },
  { name := "flt.q", format := "FR", opcode := 83, funct3 := some 1, funct7 := some 83, operandPattern := "rd_fs1_fs2", minXlen := some 32 },
  { name := "fle.q", format := "FR", opcode := 83, funct3 := some 0, funct7 := some 83, operandPattern := "rd_fs1_fs2", minXlen := some 32 },
  { name := "fcvt.w.q", format := "FR", opcode := 83, funct3 := some 0, funct7 := some 99, operandPattern := "rd_fs1", minXlen := some 32 },
  { name := "fcvt.wu.q", format := "FR", opcode := 83, funct3 := some 1, funct7 := some 99, operandPattern := "rd_fs1", minXlen := some 32 },
  { name := "fcvt.q.w", format := "FR", opcode := 83, funct3 := some 0, funct7 := some 107, operandPattern := "fd_rs1", minXlen := some 32 },
  { name := "fcvt.q.wu", format := "FR", opcode := 83, funct3 := some 1, funct7 := some 107, operandPattern := "fd_rs1", minXlen := some 32 },
  { name := "fcvt.l.q", format := "FR", opcode := 83, funct3 := some 2, funct7 := some 99, operandPattern := "rd_fs1", minXlen := some 64 },
  { name := "fcvt.lu.q", format := "FR", opcode := 83, funct3 := some 3, funct7 := some 99, operandPattern := "rd_fs1", minXlen := some 64 },
  { name := "fcvt.q.l", format := "FR", opcode := 83, funct3 := some 2, funct7 := some 107, operandPattern := "fd_rs1", minXlen := some 64 },
  { name := "fcvt.q.lu", format := "FR", opcode := 83, funct3 := some 3, funct7 := some 107, operandPattern := "fd_rs1", minXlen := some 64 },
  { name := "fcvt.s.q", format := "FR", opcode := 83, funct3 := some 3, funct7 := some 32, operandPattern := "fd_fs1", minXlen := some 32 },
  { name := "fcvt.q.s", format := "FR", opcode := 83, funct3 := some 0, funct7 := some 35, operandPattern := "fd_fs1", minXlen := some 32 },
  { name := "fcvt.d.q", format := "FR", opcode := 83, funct3 := some 3, funct7 := some 33, operandPattern := "fd_fs1", minXlen := some 32 },
  { name := "fcvt.q.d", format := "FR", opcode := 83, funct3 := some 1, funct7 := some 35, operandPattern := "fd_fs1", minXlen := some 32 },
  { name := "fmv.x.q", format := "FR", opcode := 83, funct3 := some 0, funct7 := some 115, operandPattern := "rd_fs1", minXlen := some 64 },
  { name := "fmv.q.x", format := "FR", opcode := 83, funct3 := some 0, funct7 := some 123, operandPattern := "fd_rs1", minXlen := some 64 },
  { name := "fclass.q", format := "FR", opcode := 83, funct3 := some 1, funct7 := some 115, operandPattern := "rd_fs1", minXlen := some 32 }
]

def rv128iInstructions : List InstructionSpec := [
  { name := "lq", format := "I", opcode := 3, funct3 := some 2, operandPattern := "rd_mem", minXlen := some 128 },
  { name := "sq", format := "S", opcode := 35, funct3 := some 2, operandPattern := "rs2_mem", minXlen := some 128 }
]

def rvaInstructions : List InstructionSpec := [
  { name := "lr.w", format := "R", opcode := 47, funct3 := some 2, funct7 := some 2, operandPattern := "rd_rs1", minXlen := some 32 },
  { name := "lr.d", format := "R", opcode := 47, funct3 := some 3, funct7 := some 2, operandPattern := "rd_rs1", minXlen := some 64 },
  { name := "sc.w", format := "R", opcode := 47, funct3 := some 2, funct7 := some 3, operandPattern := "rd_rs1_rs2", minXlen := some 32 },
  { name := "sc.d", format := "R", opcode := 47, funct3 := some 3, funct7 := some 3, operandPattern := "rd_rs1_rs2", minXlen := some 64 },
  { name := "amoswap.w", format := "R", opcode := 47, funct3 := some 2, funct7 := some 1, operandPattern := "rd_rs1_rs2", minXlen := some 32 },
  { name := "amoswap.d", format := "R", opcode := 47, funct3 := some 3, funct7 := some 1, operandPattern := "rd_rs1_rs2", minXlen := some 64 },
  { name := "amoadd.w", format := "R", opcode := 47, funct3 := some 2, funct7 := some 0, operandPattern := "rd_rs1_rs2", minXlen := some 32 },
  { name := "amoadd.d", format := "R", opcode := 47, funct3 := some 3, funct7 := some 0, operandPattern := "rd_rs1_rs2", minXlen := some 64 },
  { name := "amoand.w", format := "R", opcode := 47, funct3 := some 2, funct7 := some 12, operandPattern := "rd_rs1_rs2", minXlen := some 32 },
  { name := "amoand.d", format := "R", opcode := 47, funct3 := some 3, funct7 := some 12, operandPattern := "rd_rs1_rs2", minXlen := some 64 },
  { name := "amoor.w", format := "R", opcode := 47, funct3 := some 2, funct7 := some 8, operandPattern := "rd_rs1_rs2", minXlen := some 32 },
  { name := "amoor.d", format := "R", opcode := 47, funct3 := some 3, funct7 := some 8, operandPattern := "rd_rs1_rs2", minXlen := some 64 },
  { name := "amoxor.w", format := "R", opcode := 47, funct3 := some 2, funct7 := some 4, operandPattern := "rd_rs1_rs2", minXlen := some 32 },
  { name := "amoxor.d", format := "R", opcode := 47, funct3 := some 3, funct7 := some 4, operandPattern := "rd_rs1_rs2", minXlen := some 64 },
  { name := "amomin.w", format := "R", opcode := 47, funct3 := some 2, funct7 := some 16, operandPattern := "rd_rs1_rs2", minXlen := some 32 },
  { name := "amomin.d", format := "R", opcode := 47, funct3 := some 3, funct7 := some 16, operandPattern := "rd_rs1_rs2", minXlen := some 64 },
  { name := "amomax.w", format := "R", opcode := 47, funct3 := some 2, funct7 := some 20, operandPattern := "rd_rs1_rs2", minXlen := some 32 },
  { name := "amomax.d", format := "R", opcode := 47, funct3 := some 3, funct7 := some 20, operandPattern := "rd_rs1_rs2", minXlen := some 64 },
  { name := "amominu.w", format := "R", opcode := 47, funct3 := some 2, funct7 := some 24, operandPattern := "rd_rs1_rs2", minXlen := some 32 },
  { name := "amominu.d", format := "R", opcode := 47, funct3 := some 3, funct7 := some 24, operandPattern := "rd_rs1_rs2", minXlen := some 64 },
  { name := "amomaxu.w", format := "R", opcode := 47, funct3 := some 2, funct7 := some 28, operandPattern := "rd_rs1_rs2", minXlen := some 32 },
  { name := "amomaxu.d", format := "R", opcode := 47, funct3 := some 3, funct7 := some 28, operandPattern := "rd_rs1_rs2", minXlen := some 64 }
]

def rvvInstructions : List InstructionSpec := [
  { name := "vsetvli", format := "V", opcode := 87, funct3 := some 7, operandPattern := "rd_rs1_imm", minXlen := some 32 },
  { name := "vsetvl", format := "R", opcode := 87, funct3 := some 7, operandPattern := "rd_rs1_rs2", minXlen := some 32 },
  { name := "vadd.vv", format := "V", opcode := 87, funct3 := some 0, funct6 := some 0, operandPattern := "vd_vs1_vs2", minXlen := some 32, vm := some true },
  { name := "vadd.vv.mask", format := "V", opcode := 87, funct3 := some 0, funct6 := some 0, operandPattern := "vd_vs1_vs2_vm", minXlen := some 32, vm := some false },
  { name := "vsub.vv", format := "V", opcode := 87, funct3 := some 0, funct6 := some 2, operandPattern := "vd_vs1_vs2", minXlen := some 32, vm := some true },
  { name := "vmin.vv", format := "V", opcode := 87, funct3 := some 0, funct6 := some 5, operandPattern := "vd_vs1_vs2", minXlen := some 32, vm := some true },
  { name := "vmax.vv", format := "V", opcode := 87, funct3 := some 0, funct6 := some 7, operandPattern := "vd_vs1_vs2", minXlen := some 32, vm := some true },
  { name := "vmul.vv", format := "V", opcode := 87, funct3 := some 0, funct6 := some 37, operandPattern := "vd_vs1_vs2", minXlen := some 32, vm := some true },
  { name := "vdiv.vv", format := "V", opcode := 87, funct3 := some 0, funct6 := some 32, operandPattern := "vd_vs1_vs2", minXlen := some 32, vm := some true },
  { name := "vrem.vv", format := "V", opcode := 87, funct3 := some 0, funct6 := some 33, operandPattern := "vd_vs1_vs2", minXlen := some 32, vm := some true },
  { name := "vadd.vx", format := "V", opcode := 87, funct3 := some 4, funct6 := some 0, operandPattern := "vd_vs1_rs2", minXlen := some 32, vm := some true },
  { name := "vsub.vx", format := "V", opcode := 87, funct3 := some 4, funct6 := some 2, operandPattern := "vd_vs1_rs2", minXlen := some 32, vm := some true },
  { name := "vmul.vx", format := "V", opcode := 87, funct3 := some 4, funct6 := some 37, operandPattern := "vd_vs1_rs2", minXlen := some 32, vm := some true },
  { name := "vadd.vi", format := "V", opcode := 87, funct3 := some 3, funct6 := some 0, operandPattern := "vd_vs1_imm", minXlen := some 32, vm := some true },
  { name := "vand.vv", format := "V", opcode := 87, funct3 := some 0, funct6 := some 9, operandPattern := "vd_vs1_vs2", minXlen := some 32, vm := some true },
  { name := "vor.vv", format := "V", opcode := 87, funct3 := some 0, funct6 := some 10, operandPattern := "vd_vs1_vs2", minXlen := some 32, vm := some true },
  { name := "vxor.vv", format := "V", opcode := 87, funct3 := some 0, funct6 := some 11, operandPattern := "vd_vs1_vs2", minXlen := some 32, vm := some true },
  { name := "vand.vx", format := "V", opcode := 87, funct3 := some 4, funct6 := some 9, operandPattern := "vd_vs1_rs2", minXlen := some 32, vm := some true },
  { name := "vor.vx", format := "V", opcode := 87, funct3 := some 4, funct6 := some 10, operandPattern := "vd_vs1_rs2", minXlen := some 32, vm := some true },
  { name := "vxor.vx", format := "V", opcode := 87, funct3 := some 4, funct6 := some 11, operandPattern := "vd_vs1_rs2", minXlen := some 32, vm := some true },
  { name := "vsll.vv", format := "V", opcode := 87, funct3 := some 0, funct6 := some 37, operandPattern := "vd_vs1_vs2", minXlen := some 32, vm := some true },
  { name := "vsrl.vv", format := "V", opcode := 87, funct3 := some 0, funct6 := some 40, operandPattern := "vd_vs1_vs2", minXlen := some 32, vm := some true },
  { name := "vsra.vv", format := "V", opcode := 87, funct3 := some 0, funct6 := some 41, operandPattern := "vd_vs1_vs2", minXlen := some 32, vm := some true },
  { name := "vsll.vx", format := "V", opcode := 87, funct3 := some 4, funct6 := some 37, operandPattern := "vd_vs1_rs2", minXlen := some 32, vm := some true },
  { name := "vsrl.vx", format := "V", opcode := 87, funct3 := some 4, funct6 := some 40, operandPattern := "vd_vs1_rs2", minXlen := some 32, vm := some true },
  { name := "vsra.vx", format := "V", opcode := 87, funct3 := some 4, funct6 := some 41, operandPattern := "vd_vs1_rs2", minXlen := some 32, vm := some true },
  { name := "vmseq.vv", format := "V", opcode := 87, funct3 := some 0, funct6 := some 24, operandPattern := "vd_vs1_vs2", minXlen := some 32, vm := some true },
  { name := "vmsne.vv", format := "V", opcode := 87, funct3 := some 0, funct6 := some 25, operandPattern := "vd_vs1_vs2", minXlen := some 32, vm := some true },
  { name := "vmslt.vv", format := "V", opcode := 87, funct3 := some 0, funct6 := some 27, operandPattern := "vd_vs1_vs2", minXlen := some 32, vm := some true },
  { name := "vmsle.vv", format := "V", opcode := 87, funct3 := some 0, funct6 := some 29, operandPattern := "vd_vs1_vs2", minXlen := some 32, vm := some true },
  { name := "vmseq.vx", format := "V", opcode := 87, funct3 := some 4, funct6 := some 24, operandPattern := "vd_vs1_rs2", minXlen := some 32, vm := some true },
  { name := "vmsne.vx", format := "V", opcode := 87, funct3 := some 4, funct6 := some 25, operandPattern := "vd_vs1_rs2", minXlen := some 32, vm := some true },
  { name := "vle8.v", format := "VL", opcode := 7, funct3 := some 0, operandPattern := "vd_mem", minXlen := some 32 },
  { name := "vle16.v", format := "VL", opcode := 7, funct3 := some 5, operandPattern := "vd_mem", minXlen := some 32 },
  { name := "vle32.v", format := "VL", opcode := 7, funct3 := some 6, operandPattern := "vd_mem", minXlen := some 32 },
  { name := "vle64.v", format := "VL", opcode := 7, funct3 := some 7, operandPattern := "vd_mem", minXlen := some 64 },
  { name := "vse8.v", format := "VS", opcode := 39, funct3 := some 0, operandPattern := "vs_mem", minXlen := some 32 },
  { name := "vse16.v", format := "VS", opcode := 39, funct3 := some 5, operandPattern := "vs_mem", minXlen := some 32 },
  { name := "vse32.v", format := "VS", opcode := 39, funct3 := some 6, operandPattern := "vs_mem", minXlen := some 32 },
  { name := "vse64.v", format := "VS", opcode := 39, funct3 := some 7, operandPattern := "vs_mem", minXlen := some 64 },
  { name := "vredsum.vs", format := "V", opcode := 87, funct3 := some 2, funct6 := some 0, operandPattern := "vd_vs1_vs2", minXlen := some 32, vm := some true },
  { name := "vredmax.vs", format := "V", opcode := 87, funct3 := some 2, funct6 := some 7, operandPattern := "vd_vs1_vs2", minXlen := some 32, vm := some true },
  { name := "vredmin.vs", format := "V", opcode := 87, funct3 := some 2, funct6 := some 5, operandPattern := "vd_vs1_vs2", minXlen := some 32, vm := some true }
]

/-- Modelled from the spec: the rv32e table file is missing from src; §3's
name-uniqueness invariant implies it adds no record shadowing an existing
mnemonic, and no claim depends on an E-specific record. -/
def rv32eInstructions : List InstructionSpec := []

/-- Modelled from the spec: the rv64e table file is missing from src (same
grounds as rv32e). -/
def rv64eInstructions : List InstructionSpec := []

/-- Modelled from the spec: the rvc table file is missing from src; its
synthetic compressed opcode keys satisfy `key % 4 ≠ 3` and therefore never
enter a standard 7-bit opcode group. -/
def rvcInstructions : List InstructionSpec := []

def instructionGroups : List (List InstructionSpec) :=
  [rv32iInstructions, rv32mInstructions, rv64iInstructions, rv64mInstructions,
   rvbInstructions, rvfInstructions, rvdInstructions, rvqInstructions,
   rv128iInstructions, rv32eInstructions, rv64eInstructions, rvaInstructions,
   rvcInstructions, rvvInstructions]

def instructionSet : List InstructionSpec := instructionGroups.flatten

/-- JavaScript `Map` built from name/spec pairs: the last record for a name
wins (names are in fact unique across the table). -/
def instructionsByName (name : String) : Option InstructionSpec :=
  instructionSet.foldl (fun acc s => if s.name = name then some s else acc) none

/-- Opcode index: the list of specs sharing an opcode, in insertion order;
an absent opcode yields the empty list, which the callers treat as the
missing-key case. -/
def instructionsByOpcode (opcode : Nat) : List InstructionSpec :=
  instructionSet.filter (fun s => s.opcode = opcode)

/-- Effective minimum XLEN (`spec.minXlen ?? 32`). -/
def minXlenD (spec : InstructionSpec) : Nat := spec.minXlen.getD 32

inductive XLenMode where
  | auto
  | fixed (n : Nat)
deriving DecidableEq, Repr



/-! ## disassembler.ts (current version): matching, decoding, tokenizing -/

def isInstructionAllowed (mode : XLenMode) (spec : InstructionSpec) : Bool :=
  match mode with
  | .auto => true
  | .fixed m => minXlenD spec ≤ m

def recordInstruction (mode : XLenMode) (detected : Nat) (spec : InstructionSpec) : Nat :=
  match mode with
  | .auto => if minXlenD spec > detected then minXlenD spec else detected
  | .fixed _ => detected

/-- Stable insertion for the JavaScript
`sort((a, b) => (b.minXlen ?? 32) - (a.minXlen ?? 32))` call: an element is
placed before the first strictly smaller key, keeping insertion order among
equal keys (ECMAScript sorts are stable). -/
def insertByXlenDesc (x : InstructionSpec) : List InstructionSpec → List InstructionSpec
  | [] => [x]
  | y :: ys => if minXlenD y < minXlenD x then x :: y :: ys else y :: insertByXlenDesc x ys

def sortByXlenDesc (l : List InstructionSpec) : List InstructionSpec :=
  l.foldl (fun acc x => insertByXlenDesc x acc) []

/-- JavaScript `Math.min(...)` over a nonempty list (the callers only reach
it with nonempty candidate lists). -/
def minList (l : List Nat) : Nat :=
  match l with
  | [] => 0
  | h :: t => t.foldl Nat.min h

def matchesSpec (spec : InstructionSpec) (word : Nat) : Bool :=
  let funct3 := jsAnd (jsShr (word : Int) 12) 7
  let funct7 := jsAnd (jsShr (word : Int) 25) 127
  if spec.funct3.isSome ∧ (spec.funct3.getD 0 : Int) ≠ funct3 then false
  else if spec.format = "R" ∧ spec.funct7.isSome ∧ (spec.funct7.getD 0 : Int) ≠ funct7 then
    false
  else if spec.format = "I" ∧ spec.funct7.isSome ∧
      spec.immBits.any (fun b => b ≠ 0 && b < 12) then
    (spec.funct7.getD 0 : Int) = funct7
  else
    match spec.fixedImmediate with
    | some fi =>
        let imm := jsAnd (jsShr (word : Int) 20) 0xfff
        let mask := jsShl 1 (spec.immBits.getD 12 : Int) - 1
        ¬(jsAnd imm mask ≠ jsAnd (fi : Int) mask)
    | none => true

def matchesCR (spec : InstructionSpec) (word : Nat) : Bool :=
  let funct4 := jsAnd (jsShr (word : Int) 12) 15
  spec.funct4.isSome ∧ (spec.funct4.getD 0 : Int) = funct4

def matchesCI (spec : InstructionSpec) (word : Nat) : Bool :=
  let funct3 := jsAnd (jsShr (word : Int) 13) 7
  spec.funct3.isSome ∧ (spec.funct3.getD 0 : Int) = funct3

def matchesCSS (spec : InstructionSpec) (word : Nat) : Bool :=
  let funct3 := jsAnd (jsShr (word : Int) 13) 7
  spec.funct3.isSome ∧ (spec.funct3.getD 0 : Int) = funct3

def matchesCIW (spec : InstructionSpec) (word : Nat) : Bool :=
  let funct3 := jsAnd (jsShr (word : Int) 13) 7
  spec.funct3.isSome ∧ (spec.funct3.getD 0 : Int) = funct3

def matchesCL (spec : InstructionSpec) (word : Nat) : Bool :=
  let funct3 := jsAnd (jsShr (word : Int) 13) 7
  spec.funct3.isSome ∧ (spec.funct3.getD 0 : Int) = funct3

def matchesCS (spec : InstructionSpec) (word : Nat) : Bool :=
  let funct3 := jsAnd (jsShr (word : Int) 13) 7
  spec.funct3.isSome ∧ (spec.funct3.getD 0 : Int) = funct3

def matchesCA (spec : InstructionSpec) (word : Nat) : Bool :=
  let funct6 := jsAnd (jsShr (word : Int) 10) 63
  let funct2 := jsAnd (jsShr (word : Int) 5) 3
  (spec.funct6.isSome ∧ (spec.funct6.getD 0 : Int) = funct6) ∧
    (spec.funct2.isSome ∧ (spec.funct2.getD 0 : Int) = funct2)

def matchesCB (spec : InstructionSpec) (word : Nat) : Bool :=
  let funct3 := jsAnd (jsShr (word : Int) 13) 7
  let funct2 := jsAnd (jsShr (word : Int) 10) 3
  (spec.funct3.isSome ∧ (spec.funct3.getD 0 : Int) = funct3) ∧
    (spec.funct2.isSome ∧ (spec.funct2.getD 0 : Int) = funct2)

def matchesCJ (spec : InstructionSpec) (word : Nat) : Bool :=
  let funct3 := jsAnd (jsShr (word : Int) 13) 7
  spec.funct3.isSome ∧ (spec.funct3.getD 0 : Int) = funct3

def matchesCompressedSpec (spec : InstructionSpec) (word : Nat) : Bool :=
  if spec.format = "CR" then matchesCR spec word
  else if spec.format = "CI" then matchesCI spec word
  else if spec.format = "CSS" then matchesCSS spec word
  else if spec.format = "CIW" then matchesCIW spec word
  else if spec.format = "CL" then matchesCL spec word
  else if spec.format = "CS" then matchesCS spec word
  else if spec.format = "CA" then matchesCA spec word
  else if spec.format = "CB" then matchesCB spec word
  else if spec.format = "CJ" then matchesCJ spec word
  else false

def decodeRType (spec : InstructionSpec) (word : Nat) : String :=
  let rd := jsAnd (jsShr (word : Int) 7) 31
  let rs1 := jsAnd (jsShr (word : Int) 15) 31
  let rs2 := jsAnd (jsShr (word : Int) 20) 31
  if spec.operandPattern = "rd_rs1" then
    s!"{spec.name} {formatRegister rd}, {formatRegister rs1}"
  else
    s!"{spec.name} {formatRegister rd}, {formatRegister rs1}, {formatRegister rs2}"

def decodeFloatRType (spec : InstructionSpec) (word : Nat) : String :=
  let fd := jsAnd (jsShr (word : Int) 7) 31
  let fs1 := jsAnd (jsShr (word : Int) 15) 31
  let fs2 := jsAnd (jsShr (word : Int) 20) 31
  if spec.operandPattern = "fd_fs1_fs2" then
    s!"{spec.name} {formatFloatRegister fd}, {formatFloatRegister fs1}, {formatFloatRegister fs2}"
  else if spec.operandPattern = "fd_fs1" then
    s!"{spec.name} {formatFloatRegister fd}, {formatFloatRegister fs1}"
  else if spec.operandPattern = "fd_rs1" then
    s!"{spec.name} {formatFloatRegister fd}, {formatRegister fs1}"
  else if spec.operandPattern = "rd_fs1" then
    s!"{spec.name} {formatRegister fd}, {formatFloatRegister fs1}"
  else if spec.operandPattern = "rd_fs1_fs2" then
    s!"{spec.name} {formatRegister fd}, {formatFloatRegister fs1}, {formatFloatRegister fs2}"
  else
    s!"{spec.name} <unsupported float operands>"

def decodeFloatR4Type (spec : InstructionSpec) (word : Nat) : String :=
  let fd := jsAnd (jsShr (word : Int) 7) 31
  let fs1 := jsAnd (jsShr (word : Int) 15) 31
  let fs2 := jsAnd (jsShr (word : Int) 20) 31
  let fs3 := jsAnd (jsShr (word : Int) 27) 31
  s!"{spec.name} {formatFloatRegister fd}, {formatFloatRegister fs1}, {formatFloatRegister fs2}, {formatFloatRegister fs3}"

def decodeFloatIType (base : NumberBase) (spec : InstructionSpec) (word : Nat) : String :=
  let fd := jsAnd (jsShr (word : Int) 7) 31
  let rs1 := jsAnd (jsShr (word : Int) 15) 31
  let imm := signExtend (jsAnd (jsShr (word : Int) 20) 0xfff) 12
  s!"{spec.name} {formatFloatRegister fd}, {formatNumber imm base}({formatRegister rs1})"

def decodeFloatSType (base : NumberBase) (spec : InstructionSpec) (word : Nat) : String :=
  let fs2 := jsAnd (jsShr (word : Int) 20) 31
  let rs1 := jsAnd (jsShr (word : Int) 15) 31
  let imm7 := jsAnd (jsShr (word : Int) 25) 127
  let imm5 := jsAnd (jsShr (word : Int) 7) 31
  let imm := signExtend (jsOr (jsShl imm7 5) imm5) 12
  s!"{spec.name} {formatFloatRegister fs2}, {formatNumber imm base}({formatRegister rs1})"

def decodeIType (base : NumberBase) (spec : InstructionSpec) (word : Nat) : String :=
  let rd := jsAnd (jsShr (word : Int) 7) 31
  let rs1 := jsAnd (jsShr (word : Int) 15) 31
  let immRaw := jsAnd (jsShr (word : Int) 20) 0xfff
  let imm :=
    if spec.immBits.isSome ∧ spec.immBits.getD 12 < 12 then
      let mask := jsShl 1 (spec.immBits.getD 12 : Int) - 1
      jsAnd immRaw mask
    else if spec.unsignedImmediate.getD false then immRaw
    else signExtend immRaw (spec.immBits.getD 12 : Int)
  if spec.fixedImmediate.isSome then
    s!"{spec.name} {formatRegister rd}, {formatRegister rs1}"
  else
    s!"{spec.name} {formatRegister rd}, {formatRegister rs1}, {formatNumber imm base}"

def decodeLoad (base : NumberBase) (spec : InstructionSpec) (word : Nat) : String :=
  let rd := jsAnd (jsShr (word : Int) 7) 31
  let rs1 := jsAnd (jsShr (word : Int) 15) 31
  let immRaw := jsAnd (jsShr (word : Int) 20) 0xfff
  let offset := signExtend immRaw 12
  let isFloat := spec.format = "FI"
  let rdStr := if isFloat then formatFloatRegister rd else formatRegister rd
  s!"{spec.name} {rdStr}, {formatNumber offset base}({formatRegister rs1})"

def decodeStore (base : NumberBase) (spec : InstructionSpec) (word : Nat) : String :=
  let rs2 := jsAnd (jsShr (word : Int) 20) 31
  let rs1 := jsAnd (jsShr (word : Int) 15) 31
  let immRaw := jsOr (jsShl (jsShr (word : Int) 25) 5) (jsAnd (jsShr (word : Int) 7) 31)
  let offset := signExtend immRaw 12
  let isFloat := spec.format = "FS"
  let rs2Str := if isFloat then formatFloatRegister rs2 else formatRegister rs2
  s!"{spec.name} {rs2Str}, {formatNumber offset base}({formatRegister rs1})"

def decodeBranch (base : NumberBase) (spec : InstructionSpec) (word : Nat) : String :=
  let rs1 := jsAnd (jsShr (word : Int) 15) 31
  let rs2 := jsAnd (jsShr (word : Int) 20) 31
  let imm12 := jsAnd (jsShr (word : Int) 31) 1
  let imm11 := jsAnd (jsShr (word : Int) 7) 1
  let imm10_5 := jsAnd (jsShr (word : Int) 25) 63
  let imm4_1 := jsAnd (jsShr (word : Int) 8) 15
  let imm0 := jsOr (jsOr (jsOr (jsShl imm12 12) (jsShl imm11 11)) (jsShl imm10_5 5)) (jsShl imm4_1 1)
  let imm := signExtend imm0 13
  s!"{spec.name} {formatRegister rs1}, {formatRegister rs2}, {formatNumber imm base}"

def decodeUType (base : NumberBase) (spec : InstructionSpec) (word : Nat) : String :=
  let rd := jsAnd (jsShr (word : Int) 7) 31
  let imm := signExtend (jsShr (word : Int) 12) (spec.immBits.getD 20 : Int)
  s!"{spec.name} {formatRegister rd}, {formatNumber imm base}"

def decodeJump (base : NumberBase) (spec : InstructionSpec) (word : Nat) : String :=
  let rd := jsAnd (jsShr (word : Int) 7) 31
  let imm20 := jsAnd (jsShr (word : Int) 31) 1
  let imm10_1 := jsAnd (jsShr (word : Int) 21) 1023
  let imm11 := jsAnd (jsShr (word : Int) 20) 1
  let imm19_12 := jsAnd (jsShr (word : Int) 12) 255
  let imm0 := jsOr (jsOr (jsOr (jsShl imm20 20) (jsShl imm19_12 12)) (jsShl imm11 11)) (jsShl imm10_1 1)
  let imm := signExtend imm0 (spec.immBits.getD 21 : Int)
  s!"{spec.name} {formatRegister rd}, {formatNumber imm base}"

def decodeZeroOperand (spec : InstructionSpec) : String := spec.name

def formatFenceMask (mask : Int) : String :=
  if mask = 0 then "0"
  else
    [(8, "i"), (4, "o"), (2, "r"), (1, "w")].foldl
      (fun result p => if jsAnd mask (p.1 : Int) ≠ 0 then result ++ p.2 else result) ""

def decodeFence (spec : InstructionSpec) (word : Nat) : String :=
  let imm := jsAnd (jsShr (word : Int) 20) 0xfff
  let pred := jsAnd imm 15
  let succ0 := jsAnd (jsShr imm 4) 15
  let fm := jsAnd (jsShr imm 8) 7
  let predStr := formatFenceMask pred
  let succStr := formatFenceMask succ0
  if pred = 15 ∧ succ0 = 15 ∧ fm = jsShr (spec.fixedImmediate.getD 0 : Int) 8 then
    s!"{spec.name}"
  else
    s!"{spec.name} {predStr}, {succStr}"

def decodeCsrRegister (base : NumberBase) (spec : InstructionSpec) (word : Nat) : String :=
  let rd := jsAnd (jsShr (word : Int) 7) 31
  let rs1 := jsAnd (jsShr (word : Int) 15) 31
  let csr := jsAnd (jsShr (word : Int) 20) 0xfff
  s!"{spec.name} {formatRegister rd}, {formatNumber csr base}, {formatRegister rs1}"

def decodeCsrImmediate (base : NumberBase) (spec : InstructionSpec) (word : Nat) : String :=
  let rd := jsAnd (jsShr (word : Int) 7) 31
  let zimm := jsAnd (jsShr (word : Int) 15) 31
  let csr := jsAnd (jsShr (word : Int) 20) 0xfff
  s!"{spec.name} {formatRegister rd}, {formatNumber csr base}, {formatNumber zimm base}"

def decodeCRType (spec : InstructionSpec) (word : Nat) : String :=
  let rd := jsAnd (jsShr (word : Int) 7) 31
  let rs2 := jsAnd (jsShr (word : Int) 2) 31
  if spec.operandPattern = "rd_rs2" then
    s!"{spec.name} {formatRegister rd}, {formatRegister rs2}"
  else if spec.operandPattern = "rs1" then
    s!"{spec.name} {formatRegister rd}"
  else spec.name

def decodeCIType (base : NumberBase) (spec : InstructionSpec) (word : Nat) : String :=
  let rd := jsAnd (jsShr (word : Int) 7) 31
  let imm := signExtend (jsOr (jsAnd (jsShr (word : Int) 2) 31) (jsShl (jsAnd (jsShr (word : Int) 12) 1) 5)) 6
  if spec.operandPattern = "rd_rs1_nzimm6" then
    s!"{spec.name} {formatRegister rd}, {formatRegister rd}, {formatNumber imm base}"
  else if spec.operandPattern = "rd_nzimm6" then
    s!"{spec.name} {formatRegister rd}, {formatNumber imm base}"
  else spec.name

def decodeCSSType (base : NumberBase) (spec : InstructionSpec) (word : Nat) : String :=
  let rs2 := jsAnd (jsShr (word : Int) 2) 31
  let imm := jsOr (jsAnd (jsShr (word : Int) 7) 3) (jsShl (jsAnd (jsShr (word : Int) 10) 15) 2)
  s!"{spec.name} {formatRegister rs2}, {formatNumber imm base}"

def decodeCIWType (base : NumberBase) (spec : InstructionSpec) (word : Nat) : String :=
  let rd := jsAnd (jsShr (word : Int) 2) 7 + 8
  let imm := jsOr (jsOr (jsOr (jsAnd (jsShr (word : Int) 5) 1) (jsShl (jsAnd (jsShr (word : Int) 6) 3) 1))
    (jsShl (jsAnd (jsShr (word : Int) 10) 3) 3)) (jsShl (jsAnd (jsShr (word : Int) 12) 1) 5)
  s!"{spec.name} {formatRegister rd}, {formatNumber imm base}"

def decodeCLType (base : NumberBase) (spec : InstructionSpec) (word : Nat) : String :=
  let rd := jsAnd (jsShr (word : Int) 2) 7 + 8
  let rs1 := jsAnd (jsShr (word : Int) 7) 7 + 8
  let imm := jsOr (jsAnd (jsShr (word : Int) 5) 1) (jsShl (jsAnd (jsShr (word : Int) 10) 7) 1)
  s!"{spec.name} {formatRegister rd}, {formatNumber imm base}({formatRegister rs1})"

def decodeCSType (base : NumberBase) (spec : InstructionSpec) (word : Nat) : String :=
  let rs2 := jsAnd (jsShr (word : Int) 2) 7 + 8
  let rs1 := jsAnd (jsShr (word : Int) 7) 7 + 8
  let imm := jsOr (jsAnd (jsShr (word : Int) 5) 1) (jsShl (jsAnd (jsShr (word : Int) 10) 7) 1)
  s!"{spec.name} {formatRegister rs2}, {formatNumber imm base}({formatRegister rs1})"

def decodeCAType (spec : InstructionSpec) (word : Nat) : String :=
  let rd := jsAnd (jsShr (word : Int) 2) 7 + 8
  let rs2 := jsAnd (jsShr (word : Int) 5) 7 + 8
  s!"{spec.name} {formatRegister rd}, {formatRegister rs2}"

def decodeCBType (base : NumberBase) (spec : InstructionSpec) (word : Nat) : String :=
  let rs1 := jsAnd (jsShr (word : Int) 2) 7 + 8
  let imm := signExtend (jsOr (jsOr (jsOr (jsAnd (jsShr (word : Int) 3) 1)
    (jsShl (jsAnd (jsShr (word : Int) 5) 3) 1)) (jsShl (jsAnd (jsShr (word : Int) 10) 3) 3))
    (jsShl (jsAnd (jsShr (word : Int) 12) 1) 5)) 6
  if spec.operandPattern = "rd_rs1_nzimm5" then
    s!"{spec.name} {formatRegister rs1}, {formatRegister rs1}, {formatNumber imm base}"
  else if spec.operandPattern = "rs1_nzimm5" then
    s!"{spec.name} {formatRegister rs1}, {formatNumber imm base}"
  else spec.name

def decodeCJType (base : NumberBase) (spec : InstructionSpec) (word : Nat) : String :=
  let imm := signExtend (jsOr (jsOr (jsOr (jsOr (jsOr (jsOr
    (jsAnd (jsShr (word : Int) 2) 1)
    (jsShl (jsAnd (jsShr (word : Int) 3) 7) 1))
    (jsShl (jsAnd (jsShr (word : Int) 6) 3) 4))
    (jsShl (jsAnd (jsShr (word : Int) 8) 1) 6))
    (jsShl (jsAnd (jsShr (word : Int) 9) 3) 7))
    (jsShl (jsAnd (jsShr (word : Int) 11) 1) 9))
    (jsShl (jsAnd (jsShr (word : Int) 12) 1) 10)) 11
  s!"{spec.name} {formatNumber imm base}"

def decodeVType (base : NumberBase) (spec : InstructionSpec) (word : Nat) : String :=
  let vd := jsAnd (jsShr (word : Int) 7) 31
  let vs1 := jsAnd (jsShr (word : Int) 15) 31
  let vs2 := jsAnd (jsShr (word : Int) 20) 31
  let vm := jsAnd (jsShr (word : Int) 25) 1
  let operands? : Option String :=
    if spec.operandPattern = "vd_vs1_vs2" ∨ spec.operandPattern = "vd_vs1_vs2_vm" then
      some s!"{formatVectorRegister vd}, {formatVectorRegister vs1}, {formatVectorRegister vs2}"
    else if spec.operandPattern = "vd_vs1_rs2" ∨ spec.operandPattern = "vd_vs1_rs2_vm" then
      some s!"{formatVectorRegister vd}, {formatVectorRegister vs1}, {formatRegister vs2}"
    else if spec.operandPattern = "vd_vs1_imm" ∨ spec.operandPattern = "vd_vs1_imm_vm" then
      let imm := signExtend vs1 5
      some s!"{formatVectorRegister vd}, {formatVectorRegister (if jsShr vs1 5 ≠ 0 then vs1 else 0)}, {formatNumber imm base}"
    else if spec.operandPattern = "vd_rs1" ∨ spec.operandPattern = "vd_rs1_vm" then
      some s!"{formatVectorRegister vd}, {formatRegister vs1}"
    else if spec.operandPattern = "vd_vs1" ∨ spec.operandPattern = "vd_vs1_vm" then
      some s!"{formatVectorRegister vd}, {formatVectorRegister vs1}"
    else none
  match operands? with
  | none => spec.name
  | some operands =>
      let operands :=
        if (spec.operandPattern.splitOn "_vm").length > 1 ∧ vm = 0 then operands ++ ", v0.t"
        else operands
      s!"{spec.name} {operands}"

def decodeVLoad (base : NumberBase) (spec : InstructionSpec) (word : Nat) : String :=
  let vd := jsAnd (jsShr (word : Int) 7) 31
  let rs1 := jsAnd (jsShr (word : Int) 15) 31
  let imm := signExtend (jsAnd (jsShr (word : Int) 20) 0xfff) 12
  s!"{spec.name} {formatVectorRegister vd}, {formatNumber imm base}({formatRegister rs1})"

def decodeVStore (base : NumberBase) (spec : InstructionSpec) (word : Nat) : String :=
  let vs3 := jsAnd (jsShr (word : Int) 7) 31
  let rs1 := jsAnd (jsShr (word : Int) 15) 31
  let vs2 := jsAnd (jsShr (word : Int) 20) 31
  let imm := signExtend (jsOr (jsShl (jsAnd (jsShr (word : Int) 25) 127) 5) vs3) 12
  s!"{spec.name} {formatVectorRegister vs2}, {formatNumber imm base}({formatRegister rs1})"

/-- Candidate resolution of the compressed path of `disassembleWord`:
synthetic opcode, legality filter, stable descending-minXlen sort, first
match. -/
def selectCompressedSpec (mode : XLenMode) (word : Nat) (line : Nat) :
    Res InstructionSpec := do
  let opcode := jsAnd (word : Int) 3
  let funct3 := jsAnd (jsShr (word : Int) 13) 7
  let fullOpcode : Int ←
    if opcode = 0 then pure (jsOr 0 (jsShl funct3 2))
    else if opcode = 1 then pure (jsOr 1 (jsShl funct3 2))
    else if opcode = 2 then pure (jsOr 2 (jsShl funct3 2))
    else throw (.analyzer "Invalid compressed instruction encoding" (some line))
  let candidates := instructionsByOpcode (toUint32 fullOpcode)
  if candidates = [] then
    throw (.analyzer s!"Unknown compressed opcode {formatNumber fullOpcode}" (some line))
  let filtered := sortByXlenDesc (candidates.filter (isInstructionAllowed mode))
  if filtered = [] then
    throw (.analyzer "Unsupported compressed instruction encoding" (some line))
  match filtered.find? (fun c => matchesCompressedSpec c word) with
  | none => throw (.analyzer "Unsupported compressed instruction encoding" (some line))
  | some spec => return spec

/-- Operand-pattern dispatch of the compressed path. -/
def decodeCompressedOperands (base : NumberBase) (spec : InstructionSpec) (word : Nat)
    (line : Nat) : Res String :=
  let p := spec.operandPattern
  if p = "rd_rs2" then .ok (decodeCRType spec word)
  else if p = "rd_rs1_nzimm6" ∨ p = "rd_nzimm6" then .ok (decodeCIType base spec word)
  else if p = "rs2_nzimm6" then .ok (decodeCSSType base spec word)
  else if p = "rd_nzuimm6" then .ok (decodeCIWType base spec word)
  else if p = "rd_rs1_nzuimm6" then .ok (decodeCLType base spec word)
  else if p = "rs2_rs1_nzuimm6" then .ok (decodeCSType base spec word)
  else if p = "rd_rs1_rs2" then .ok (decodeCAType spec word)
  else if p = "rd_rs1_nzimm5" ∨ p = "rs1_nzimm5" then .ok (decodeCBType base spec word)
  else if p = "rd_nzimm11" then .ok (decodeCJType base spec word)
  else if p = "rs1" then .ok (decodeCRType spec word)
  else if p = "none" then .ok (decodeZeroOperand spec)
  else .error (.analyzer s!"Unhandled compressed operand pattern for '{spec.name}'" (some line))

def disassembleCompressedWord (mode : XLenMode) (detected : Nat) (base : NumberBase)
    (word : Nat) (line : Nat) : Res (String × Nat) := do
  let spec ← selectCompressedSpec mode word line
  let text ← decodeCompressedOperands base spec word line
  return (text, recordInstruction mode detected spec)

/-- Candidate resolution of the 32-bit path of `disassembleWord`: opcode
group lookup, legality filter, stable descending-minXlen sort, first
match. -/
def selectSpec (mode : XLenMode) (word : Nat) (line : Nat) : Res InstructionSpec :=
  let opcode := jsAnd (word : Int) 127
  let candidates := instructionsByOpcode (toUint32 opcode)
  if candidates = [] then
    .error (.analyzer s!"Unknown opcode {formatNumber opcode}" (some line))
  else
    let filtered := sortByXlenDesc (candidates.filter (isInstructionAllowed mode))
    if filtered = [] then
      let required := minList (candidates.map minXlenD)
      match mode with
      | .fixed m =>
          .error (.analyzer
            s!"Instruction requires XLEN ≥ {required}, but current mode is XLEN={m}" (some line))
      | .auto => .error (.analyzer "Unsupported instruction encoding" (some line))
    else
      match filtered.find? (fun c => matchesSpec c word) with
      | none => .error (.analyzer "Unsupported instruction encoding" (some line))
      | some spec => .ok spec

/-- Operand-pattern dispatch of the 32-bit path. -/
def decodeOperands (base : NumberBase) (spec : InstructionSpec) (word : Nat)
    (line : Nat) : Res String :=
  let p := spec.operandPattern
  if p = "rd_rs1_rs2" then .ok (decodeRType spec word)
  else if p = "rd_rs1" then
    .ok (if spec.format = "I" then decodeIType base spec word else decodeRType spec word)
  else if p = "rd_rs1_imm12" then .ok (decodeIType base spec word)
  else if p = "rd_mem" then .ok (decodeLoad base spec word)
  else if p = "rs2_mem" then .ok (decodeStore base spec word)
  else if p = "rs1_rs2_branch" then .ok (decodeBranch base spec word)
  else if p = "rd_imm20" then .ok (decodeUType base spec word)
  else if p = "rd_jump" then .ok (decodeJump base spec word)
  else if p = "none" then .ok (decodeZeroOperand spec)
  else if p = "fence" then .ok (decodeFence spec word)
  else if p = "rd_csr_rs1" then .ok (decodeCsrRegister base spec word)
  else if p = "rd_csr_imm5" then .ok (decodeCsrImmediate base spec word)
  else if p = "rd_rs1_imm6" then .ok (decodeIType base spec word)
  else if p = "fd_rs1_imm" then .ok (decodeFloatIType base spec word)
  else if p = "fs2_fs1_rs1" then .ok (decodeFloatSType base spec word)
  else if p = "fd_fs1_fs2" ∨ p = "fd_fs1" ∨ p = "fd_rs1" ∨ p = "rd_fs1" ∨ p = "rd_fs1_fs2" then
    .ok (decodeFloatRType spec word)
  else if p = "fd_fs1_fs2_fs3" then .ok (decodeFloatR4Type spec word)
  else if p = "vd_vs1_vs2" ∨ p = "vd_vs1_vs2_vm" ∨ p = "vd_vs1_rs2" ∨ p = "vd_vs1_rs2_vm" ∨
      p = "vd_vs1_imm" ∨ p = "vd_vs1_imm_vm" ∨ p = "vd_rs1" ∨ p = "vd_rs1_vm" ∨
      p = "vd_vs1" ∨ p = "vd_vs1_vm" then
    .ok (decodeVType base spec word)
  else if p = "vd_mem" then .ok (decodeVLoad base spec word)
  else if p = "vs_mem" then .ok (decodeVStore base spec word)
  else .error (.analyzer s!"Unhandled operand pattern for '{spec.name}'" (some line))

/-- Standard 32-bit decode path of `disassembleWord` (the body of its
`else` branch in the source). -/
def standardDecodeWord (mode : XLenMode) (detected : Nat) (base : NumberBase)
    (word : Nat) (line : Nat) : Res (String × Nat) := do
  let spec ← selectSpec mode word line
  let text ← decodeOperands base spec word line
  return (text, recordInstruction mode detected spec)

def disassembleWord (mode : XLenMode) (detected : Nat) (base : NumberBase)
    (word : Nat) (line : Nat) : Res (String × Nat) :=
  if jsAnd (word : Int) 3 ≠ 3 then
    disassembleCompressedWord mode detected base word line
  else
    standardDecodeWord mode detected base word line

/-! ## disassembler.ts: tokenizer and driver -/

structure MachineWordToken where
  value : Nat
  line : Nat
deriving DecidableEq, Repr

def stripComment (value : String) : String :=
  let l := value.toList
  let indices := [charIdx l '#', twoCharIdx l '/' '/', charIdx l ';'].filterMap id
  match indices with
  | [] => value
  | h :: t => String.mk (l.take (t.foldl Nat.min h))

def parseMachineWord (token : String) (line : Nat) : Res Nat := do
  let normalized := (token.toList.filter (· ≠ '_')).map toLowerChar
  let value : Int ←
    if matchesHexLiteral normalized then
      pure ((digitsToNat 16 hexDigitVal (normalized.drop 2) : Nat) : Int)
    else if matchesBinLiteral normalized then
      pure ((digitsToNat 2 decDigitVal (normalized.drop 2) : Nat) : Int)
    else if normalized.length = 8 ∧ normalized.all isLowerHexDigit then
      pure ((digitsToNat 16 hexDigitVal normalized : Nat) : Int)
    else
      parseNumericLiteral (String.mk normalized) (some line) "machine word"
  if value < 0 ∨ value > 0xffffffff then
    throw (.analyzer s!"Invalid machine word '{token}'" (some line))
  return toUint32 value

def lineParts (line : String) : List String :=
  ((splitChar (line.toList.map (fun c => if c = ',' ∨ c = '\t' then ' ' else c)) ' ').map
    (fun p => jsTrim (String.mk p))).filter (· ≠ "")

/-- Inner loop of `tokenize`: parse each part of one line into a token
carrying that line number; the first failing part aborts. -/
def tokenizeParts (parts : List String) (lineNumber : Nat) : Res (List MachineWordToken) :=
  match parts with
  | [] => .ok []
  | part :: rest => do
      let value ← parseMachineWord part lineNumber
      let others ← tokenizeParts rest lineNumber
      return { value := value, line := lineNumber } :: others

/-- Outer loop of `tokenize` over the enumerated (0-based) source lines. -/
def tokenizeLines (enumLines : List (Nat × String)) : Res (List MachineWordToken) :=
  match enumLines with
  | [] => .ok []
  | p :: rest => do
      let line := jsTrim (stripComment p.2)
      if line = "" then
        tokenizeLines rest
      else
        let toks ← tokenizeParts (lineParts line) (p.1 + 1)
        let others ← tokenizeLines rest
        return toks ++ others

def tokenize (source : String) : Res (List MachineWordToken) :=
  tokenizeLines (splitLines source).enum

/-- Loop of `disassembleDetailed` over the tokens, threading the
detected-XLEN state. -/
def disasmLoop (mode : XLenMode) (base : NumberBase) (detected : Nat)
    (tokens : List MachineWordToken) : Res (List String × Nat) :=
  match tokens with
  | [] => .ok ([], detected)
  | token :: rest => do
      let (line, d) ← disassembleWord mode detected base token.value token.line
      let (lines, dfin) ← disasmLoop mode base d rest
      return (line :: lines, dfin)

def disassembleTokens (mode : XLenMode) (base : NumberBase)
    (tokens : List MachineWordToken) : Res (List String × Nat) := do
  let start : Nat := match mode with | .auto => 32 | .fixed m => m
  let (lines, detected) ← disasmLoop mode base start tokens
  let final := match mode with | .auto => detected | .fixed m => m
  return (lines, final)

structure AnalyzerOptions where
  xlen : XLenMode := .auto
  isEmbedded : Bool := false
  numberBase : NumberBase := .hex
deriving Repr

structure DisassembleDetailedResult where
  lines : List String
  output : String
  detectedXlen : Nat
  mode : XLenMode
deriving DecidableEq, Repr

def disassembleDetailed (source : String) (options : AnalyzerOptions := {}) :
    Res DisassembleDetailedResult := do
  let tokens ← tokenize source
  let mode := options.xlen
  let numberBase := options.numberBase
  let (lines, detectedXlen) ← disassembleTokens mode numberBase tokens
  return { lines := lines, output := String.intercalate "\n" lines,
           detectedXlen := detectedXlen, mode := mode }

def disassemble (source : String) (options : AnalyzerOptions := {}) : Res String := do
  return (← disassembleDetailed source options).output



/-! ## Shared line parsing (verbatim in assembler.ts and both assembler
versions inside disassembler.ts) -/

def parseLine (line : String) (lineNumber : Nat) : Res (String × List String) :=
  match lineParts line with
  | [] => .error (.analyzer "Empty instruction." (some lineNumber))
  | m :: ops => .ok (jsToLower m, ops)

def ensureOperandCount (operands : List String) (expected : Nat) (line : Nat)
    (description : String) : Res Unit :=
  if operands.length ≠ expected then
    .error (.analyzer
      s!"Expected {expected} operand(s) for {description}, received {operands.length}"
      (some line))
  else .ok ()

/-! ## assembler.ts (the standalone assembler file) -/

namespace V1

def parseRegisterOperand (token : String) (role : String) (line : Nat) : Res Nat :=
  match parseRegister token with
  | .ok v => .ok v
  | .error (.analyzer m l) => .error (.analyzer m l)
  | .error (.plain _) => .error (.analyzer s!"Invalid {role} register '{token}'" (some line))

def assembleRType (spec : InstructionSpec) (operands : List String) (line : Nat) : Res Int := do
  ensureOperandCount operands 3 line spec.name
  let rd ← parseRegisterOperand (operands.getD 0 "") "rd" line
  let rs1 ← parseRegisterOperand (operands.getD 1 "") "rs1" line
  let rs2 ← parseRegisterOperand (operands.getD 2 "") "rs2" line
  if spec.funct3 = none ∨ spec.funct7 = none then
    throw (.analyzer s!"Missing funct fields for '{spec.name}'" (some line))
  return jsOr (jsOr (jsOr (jsOr (jsOr
    (jsShl (jsAnd (spec.funct7.getD 0 : Int) 127) 25)
    (jsShl (jsAnd (rs2 : Int) 31) 20))
    (jsShl (jsAnd (rs1 : Int) 31) 15))
    (jsShl (jsAnd (spec.funct3.getD 0 : Int) 7) 12))
    (jsShl (jsAnd (rd : Int) 31) 7))
    (jsAnd (spec.opcode : Int) 127)

def assembleIType (spec : InstructionSpec) (operands : List String) (line : Nat) : Res Int := do
  ensureOperandCount operands 3 line spec.name
  let rd ← parseRegisterOperand (operands.getD 0 "") "rd" line
  let rs1 ← parseRegisterOperand (operands.getD 1 "") "rs1" line
  let imm ← parseImmediate (operands.getD 2 "")
    { bits := spec.immBits.getD 12, signed := ¬(spec.unsignedImmediate.getD false),
      line := some line, label := "immediate" }
  let immMask := jsShl 1 (spec.immBits.getD 12 : Int) - 1
  return jsOr (jsOr (jsOr (jsOr
    (jsShl (jsAnd imm immMask) 20)
    (jsShl (jsAnd (rs1 : Int) 31) 15))
    (jsShl (jsAnd (spec.funct3.getD 0 : Int) 7) 12))
    (jsShl (jsAnd (rd : Int) 31) 7))
    (jsAnd (spec.opcode : Int) 127)

def parseMemoryOperand (token : String) (line : Nat) : Res (Nat × Int) := do
  let trimmed := jsTrim token
  let l := trimmed.toList
  let openI : Int := (charIdx l '(').elim (-1) (fun i => (i : Int))
  let closeI : Int := (charIdxFrom l ')' (openI + 1).toNat).elim (-1) (fun i => (i : Int))
  if openI ≤ 0 ∨ closeI ≠ (l.length : Int) - 1 then
    throw (.analyzer s!"Invalid memory operand '{token}'" (some line))
  let offsetToken := String.mk (l.take openI.toNat)
  let offsetToken := if offsetToken = "" then "0" else offsetToken
  let baseToken := String.mk ((l.take closeI.toNat).drop (openI.toNat + 1))
  let offset ← parseImmediate offsetToken
    { bits := 12, signed := true, line := some line, label := "offset" }
  let base ← parseRegisterOperand baseToken "base" line
  return (base, offset)

def assembleLoad (spec : InstructionSpec) (operands : List String) (line : Nat) : Res Int := do
  ensureOperandCount operands 2 line spec.name
  let rd ← parseRegisterOperand (operands.getD 0 "") "rd" line
  let (base, offset) ← parseMemoryOperand (operands.getD 1 "") line
  let immMask := jsShl 1 12 - 1
  return jsOr (jsOr (jsOr (jsOr
    (jsShl (jsAnd offset immMask) 20)
    (jsShl (jsAnd (base : Int) 31) 15))
    (jsShl (jsAnd (spec.funct3.getD 0 : Int) 7) 12))
    (jsShl (jsAnd (rd : Int) 31) 7))
    (jsAnd (spec.opcode : Int) 127)

def assembleStore (spec : InstructionSpec) (operands : List String) (line : Nat) : Res Int := do
  ensureOperandCount operands 2 line spec.name
  let rs2 ← parseRegisterOperand (operands.getD 0 "") "rs2" line
  let (base, offset) ← parseMemoryOperand (operands.getD 1 "") line
  let immMask := jsShl 1 12 - 1
  let imm := jsAnd offset immMask
  let immHi := jsAnd (jsShr imm 5) 127
  let immLo := jsAnd imm 31
  return jsOr (jsOr (jsOr (jsOr (jsOr
    (jsShl immHi 25)
    (jsShl (jsAnd (rs2 : Int) 31) 20))
    (jsShl (jsAnd (base : Int) 31) 15))
    (jsShl (jsAnd (spec.funct3.getD 0 : Int) 7) 12))
    (jsShl immLo 7))
    (jsAnd (spec.opcode : Int) 127)

def assembleBranch (spec : InstructionSpec) (operands : List String) (line : Nat) : Res Int := do
  ensureOperandCount operands 3 line spec.name
  let rs1 ← parseRegisterOperand (operands.getD 0 "") "rs1" line
  let rs2 ← parseRegisterOperand (operands.getD 1 "") "rs2" line
  let imm ← parseImmediate (operands.getD 2 "")
    { bits := spec.immBits.getD 13, signed := true, line := some line, label := "branch offset" }
  if jsAnd imm 1 ≠ 0 then
    throw (.analyzer "Branch offset must be aligned to 2 bytes" (some line))
  let imm12 := jsAnd (jsShr imm 12) 1
  let imm11 := jsAnd (jsShr imm 11) 1
  let imm10_5 := jsAnd (jsShr imm 5) 63
  let imm4_1 := jsAnd (jsShr imm 1) 15
  return jsOr (jsOr (jsOr (jsOr (jsOr (jsOr (jsOr
    (jsShl imm12 31)
    (jsShl imm10_5 25))
    (jsShl (jsAnd (rs2 : Int) 31) 20))
    (jsShl (jsAnd (rs1 : Int) 31) 15))
    (jsShl (jsAnd (spec.funct3.getD 0 : Int) 7) 12))
    (jsShl imm4_1 8))
    (jsShl imm11 7))
    (jsAnd (spec.opcode : Int) 127)

def assembleUType (spec : InstructionSpec) (operands : List String) (line : Nat) : Res Int := do
  ensureOperandCount operands 2 line spec.name
  let rd ← parseRegisterOperand (operands.getD 0 "") "rd" line
  let imm ← parseImmediate (operands.getD 1 "")
    { bits := spec.immBits.getD 20, signed := true, line := some line, label := "immediate" }
  let immMask := jsShl 1 (spec.immBits.getD 20 : Int) - 1
  return jsOr (jsOr
    (jsShl (jsAnd imm immMask) 12)
    (jsShl (jsAnd (rd : Int) 31) 7))
    (jsAnd (spec.opcode : Int) 127)

def assembleJump (spec : InstructionSpec) (operands : List String) (line : Nat) : Res Int := do
  ensureOperandCount operands 2 line spec.name
  let rd ← parseRegisterOperand (operands.getD 0 "") "rd" line
  let imm ← parseImmediate (operands.getD 1 "")
    { bits := spec.immBits.getD 21, signed := true, line := some line, label := "jump offset" }
  if jsAnd imm 1 ≠ 0 then
    throw (.analyzer "Jump offset must be aligned to 2 bytes" (some line))
  let imm20 := jsAnd (jsShr imm 20) 1
  let imm19_12 := jsAnd (jsShr imm 12) 255
  let imm11 := jsAnd (jsShr imm 11) 1
  let imm10_1 := jsAnd (jsShr imm 1) 1023
  return jsOr (jsOr (jsOr (jsOr (jsOr
    (jsShl imm20 31)
    (jsShl imm10_1 21))
    (jsShl imm11 20))
    (jsShl imm19_12 12))
    (jsShl (jsAnd (rd : Int) 31) 7))
    (jsAnd (spec.opcode : Int) 127)

def assembleInstruction (mnemonic : String) (operands : List String) (line : Nat) : Res Int := do
  match instructionsByName mnemonic with
  | none => throw (.analyzer s!"Unsupported instruction '{mnemonic}'" (some line))
  | some spec =>
      let p := spec.operandPattern
      if p = "rd_rs1_rs2" then assembleRType spec operands line
      else if p = "rd_rs1_imm12" then assembleIType spec operands line
      else if p = "rd_mem" then assembleLoad spec operands line
      else if p = "rs2_mem" then assembleStore spec operands line
      else if p = "rs1_rs2_branch" then assembleBranch spec operands line
      else if p = "rd_imm20" then assembleUType spec operands line
      else if p = "rd_jump" then assembleJump spec operands line
      else throw (.analyzer s!"Unhandled operand pattern for '{spec.name}'" (some line))

/-- Loop of the standalone assembler over the enumerated source lines. -/
def assembleLines (enumLines : List (Nat × String)) : Res (List Nat) :=
  match enumLines with
  | [] => .ok []
  | p :: rest => do
      let line := stripComment p.2
      if jsTrim line = "" then
        assembleLines rest
      else
        let (mnemonic, operands) ← parseLine line (p.1 + 1)
        let word ← assembleInstruction mnemonic operands (p.1 + 1)
        let others ← assembleLines rest
        return toUint32 word :: others

def assembleCore (source : String) : Res (List Nat) :=
  assembleLines (splitLines source).enum

def assemble (source : String) : Res String := do
  let words ← assembleCore source
  return String.intercalate "\n" (words.map (fun w => formatHex (w : Int)))

end V1


/-! ## The full assembler concatenated into disassembler.ts (pseudo
expansion, XLEN tracking, float/vector support) -/

/-- JavaScript `String.prototype.includes`. -/
def strIncludes (s sub : String) : Bool := (s.splitOn sub).length > 1

namespace Full

def parseRegisterOperand (token : String) (role : String) (line : Nat)
    (isEmbedded : Bool) : Res Nat :=
  match parseRegister token isEmbedded with
  | .ok v => .ok v
  | .error (.analyzer m l) => .error (.analyzer m l)
  | .error (.plain _) => .error (.analyzer s!"Invalid {role} register '{token}'" (some line))

def parseFloatRegisterOperand (token : String) (role : String) (line : Nat) : Res Nat :=
  match parseFloatRegister token with
  | .ok v => .ok v
  | .error (.analyzer m l) => .error (.analyzer m l)
  | .error (.plain _) => .error (.analyzer s!"Invalid {role} float register '{token}'" (some line))

def assembleRType (spec : InstructionSpec) (operands : List String) (line : Nat)
    (isEmbedded : Bool) : Res Int := do
  let (rd, rs1, rs2) ←
    if spec.operandPattern = "rd_rs1" then do
      ensureOperandCount operands 2 line spec.name
      let rd ← parseRegisterOperand (operands.getD 0 "") "rd" line isEmbedded
      let rs1 ← parseRegisterOperand (operands.getD 1 "") "rs1" line isEmbedded
      pure (rd, rs1, 0)
    else do
      ensureOperandCount operands 3 line spec.name
      let rd ← parseRegisterOperand (operands.getD 0 "") "rd" line isEmbedded
      let rs1 ← parseRegisterOperand (operands.getD 1 "") "rs1" line isEmbedded
      let rs2 ← parseRegisterOperand (operands.getD 2 "") "rs2" line isEmbedded
      pure (rd, rs1, rs2)
  if spec.funct3 = none ∨ spec.funct7 = none then
    throw (.analyzer s!"Missing funct fields for '{spec.name}'" (some line))
  return jsOr (jsOr (jsOr (jsOr (jsOr
    (jsShl (jsAnd (spec.funct7.getD 0 : Int) 127) 25)
    (jsShl (jsAnd (rs2 : Int) 31) 20))
    (jsShl (jsAnd (rs1 : Int) 31) 15))
    (jsShl (jsAnd (spec.funct3.getD 0 : Int) 7) 12))
    (jsShl (jsAnd (rd : Int) 31) 7))
    (jsAnd (spec.opcode : Int) 127)

def assembleFloatRType (spec : InstructionSpec) (operands : List String) (line : Nat) :
    Res Int := do
  let (fd, fs1, fs2, _rs1, rd) ←
    if spec.operandPattern = "fd_fs1_fs2" then do
      ensureOperandCount operands 3 line spec.name
      let fd ← parseFloatRegisterOperand (operands.getD 0 "") "fd" line
      let fs1 ← parseFloatRegisterOperand (operands.getD 1 "") "fs1" line
      let fs2 ← parseFloatRegisterOperand (operands.getD 2 "") "fs2" line
      pure (fd, fs1, fs2, 0, 0)
    else if spec.operandPattern = "fd_fs1" then do
      ensureOperandCount operands 2 line spec.name
      let fd ← parseFloatRegisterOperand (operands.getD 0 "") "fd" line
      let fs1 ← parseFloatRegisterOperand (operands.getD 1 "") "fs1" line
      pure (fd, fs1, 0, 0, 0)
    else if spec.operandPattern = "fd_rs1" then do
      ensureOperandCount operands 2 line spec.name
      let fd ← parseFloatRegisterOperand (operands.getD 0 "") "fd" line
      let rs1 ← parseRegisterOperand (operands.getD 1 "") "rs1" line false
      pure (fd, 0, 0, rs1, 0)
    else if spec.operandPattern = "rd_fs1" then do
      ensureOperandCount operands 2 line spec.name
      let rd ← parseRegisterOperand (operands.getD 0 "") "rd" line false
      let fs1 ← parseFloatRegisterOperand (operands.getD 1 "") "fs1" line
      pure (0, fs1, 0, 0, rd)
    else if spec.operandPattern = "rd_fs1_fs2" then do
      ensureOperandCount operands 3 line spec.name
      let rd ← parseRegisterOperand (operands.getD 0 "") "rd" line false
      let fs1 ← parseFloatRegisterOperand (operands.getD 1 "") "fs1" line
      let fs2 ← parseFloatRegisterOperand (operands.getD 2 "") "fs2" line
      pure (0, fs1, fs2, 0, rd)
    else
      throw (.analyzer s!"Unsupported float operand pattern for '{spec.name}'" (some line))
  if spec.funct3 = none ∨ spec.funct7 = none then
    throw (.analyzer s!"Missing funct fields for '{spec.name}'" (some line))
  return jsOr (jsOr (jsOr (jsOr (jsOr
    (jsShl (jsAnd (spec.funct7.getD 0 : Int) 127) 25)
    (jsShl (jsAnd (fs2 : Int) 31) 20))
    (jsShl (jsAnd (fs1 : Int) 31) 15))
    (jsShl (jsAnd (spec.funct3.getD 0 : Int) 7) 12))
    (jsShl (jsAnd (jsOr (rd : Int) (fd : Int)) 31) 7))
    (jsAnd (spec.opcode : Int) 127)

def assembleFloatR4Type (spec : InstructionSpec) (operands : List String) (line : Nat) :
    Res Int := do
  if operands.length ≠ 4 then
    throw (.analyzer s!"Expected 4 operands, got {operands.length}" (some line))
  let fd ← parseFloatRegister (operands.getD 0 "")
  let fs1 ← parseFloatRegister (operands.getD 1 "")
  let fs2 ← parseFloatRegister (operands.getD 2 "")
  let fs3 ← parseFloatRegister (operands.getD 3 "")
  return jsOr (jsOr (jsOr (jsOr (jsOr
    (spec.opcode : Int)
    (jsShl (fd : Int) 7))
    (jsShl (spec.funct2.getD 0 : Int) 12))
    (jsShl (fs1 : Int) 15))
    (jsShl (fs2 : Int) 20))
    (jsShl (fs3 : Int) 27)

def assembleIType (spec : InstructionSpec) (operands : List String) (line : Nat)
    (isEmbedded : Bool) : Res Int := do
  let hasFixedImm := spec.fixedImmediate.isSome
  let expectedOperands := if hasFixedImm then 2 else 3
  ensureOperandCount operands expectedOperands line spec.name
  let rd ← parseRegisterOperand (operands.getD 0 "") "rd" line isEmbedded
  let rs1 ← parseRegisterOperand (operands.getD 1 "") "rs1" line isEmbedded
  let imm : Int ←
    if hasFixedImm then pure (spec.fixedImmediate.getD 0 : Int)
    else
      parseImmediate (operands.getD 2 "")
        { bits := spec.immBits.getD 12, signed := ¬(spec.unsignedImmediate.getD false),
          line := some line, label := "immediate" }
  let immMask := jsShl 1 (spec.immBits.getD 12 : Int) - 1
  let word := jsOr (jsOr (jsOr (jsOr
    (jsShl (jsAnd imm immMask) 20)
    (jsShl (jsAnd (rs1 : Int) 31) 15))
    (jsShl (jsAnd (spec.funct3.getD 0 : Int) 7) 12))
    (jsShl (jsAnd (rd : Int) 31) 7))
    (jsAnd (spec.opcode : Int) 127)
  match spec.funct7 with
  | some f7 => return jsOr word (jsShl (jsAnd (f7 : Int) 127) 25)
  | none => return word

def parseMemoryOperand (token : String) (line : Nat) (isEmbedded : Bool) :
    Res (Nat × Int) := do
  let trimmed := jsTrim token
  let l := trimmed.toList
  let openI : Int := (charIdx l '(').elim (-1) (fun i => (i : Int))
  let closeI : Int := (charIdxFrom l ')' (openI + 1).toNat).elim (-1) (fun i => (i : Int))
  if openI ≤ 0 ∨ closeI ≠ (l.length : Int) - 1 then
    throw (.analyzer s!"Invalid memory operand '{token}'" (some line))
  let offsetToken := String.mk (l.take openI.toNat)
  let offsetToken := if offsetToken = "" then "0" else offsetToken
  let baseToken := String.mk ((l.take closeI.toNat).drop (openI.toNat + 1))
  let offset ← parseImmediate offsetToken
    { bits := 12, signed := true, line := some line, label := "offset" }
  let base ← parseRegisterOperand baseToken "base" line isEmbedded
  return (base, offset)

def assembleLoad (spec : InstructionSpec) (operands : List String) (line : Nat)
    (isEmbedded : Bool) : Res Int := do
  ensureOperandCount operands 2 line spec.name
  let isFloat := spec.format = "FI"
  let rd ←
    if isFloat then parseFloatRegisterOperand (operands.getD 0 "") "rd" line
    else parseRegisterOperand (operands.getD 0 "") "rd" line isEmbedded
  let (base, offset) ← parseMemoryOperand (operands.getD 1 "") line isEmbedded
  let immMask := jsShl 1 12 - 1
  return jsOr (jsOr (jsOr (jsOr
    (jsShl (jsAnd offset immMask) 20)
    (jsShl (jsAnd (base : Int) 31) 15))
    (jsShl (jsAnd (spec.funct3.getD 0 : Int) 7) 12))
    (jsShl (jsAnd (rd : Int) 31) 7))
    (jsAnd (spec.opcode : Int) 127)

def assembleStore (spec : InstructionSpec) (operands : List String) (line : Nat)
    (isEmbedded : Bool) : Res Int := do
  ensureOperandCount operands 2 line spec.name
  let isFloat := spec.format = "FS"
  let rs2 ←
    if isFloat then parseFloatRegisterOperand (operands.getD 0 "") "rs2" line
    else parseRegisterOperand (operands.getD 0 "") "rs2" line isEmbedded
  let (base, offset) ← parseMemoryOperand (operands.getD 1 "") line isEmbedded
  let immMask := jsShl 1 12 - 1
  let imm := jsAnd offset immMask
  let immHi := jsAnd (jsShr imm 5) 127
  let immLo := jsAnd imm 31
  return jsOr (jsOr (jsOr (jsOr (jsOr
    (jsShl immHi 25)
    (jsShl (jsAnd (rs2 : Int) 31) 20))
    (jsShl (jsAnd (base : Int) 31) 15))
    (jsShl (jsAnd (spec.funct3.getD 0 : Int) 7) 12))
    (jsShl immLo 7))
    (jsAnd (spec.opcode : Int) 127)

def assembleBranch (spec : InstructionSpec) (operands : List String) (line : Nat)
    (isEmbedded : Bool) : Res Int := do
  ensureOperandCount operands 3 line spec.name
  let rs1 ← parseRegisterOperand (operands.getD 0 "") "rs1" line isEmbedded
  let rs2 ← parseRegisterOperand (operands.getD 1 "") "rs2" line isEmbedded
  let imm ← parseImmediate (operands.getD 2 "")
    { bits := spec.immBits.getD 13, signed := true, line := some line, label := "branch offset" }
  if jsAnd imm 1 ≠ 0 then
    throw (.analyzer "Branch offset must be aligned to 2 bytes" (some line))
  let imm12 := jsAnd (jsShr imm 12) 1
  let imm11 := jsAnd (jsShr imm 11) 1
  let imm10_5 := jsAnd (jsShr imm 5) 63
  let imm4_1 := jsAnd (jsShr imm 1) 15
  return jsOr (jsOr (jsOr (jsOr (jsOr (jsOr (jsOr
    (jsShl imm12 31)
    (jsShl imm10_5 25))
    (jsShl (jsAnd (rs2 : Int) 31) 20))
    (jsShl (jsAnd (rs1 : Int) 31) 15))
    (jsShl (jsAnd (spec.funct3.getD 0 : Int) 7) 12))
    (jsShl imm4_1 8))
    (jsShl imm11 7))
    (jsAnd (spec.opcode : Int) 127)

def assembleUType (spec : InstructionSpec) (operands : List String) (line : Nat)
    (isEmbedded : Bool) : Res Int := do
  ensureOperandCount operands 2 line spec.name
  let rd ← parseRegisterOperand (operands.getD 0 "") "rd" line isEmbedded
  let imm ← parseImmediate (operands.getD 1 "")
    { bits := spec.immBits.getD 20, signed := true, line := some line, label := "immediate" }
  let immMask := jsShl 1 (spec.immBits.getD 20 : Int) - 1
  return jsOr (jsOr
    (jsShl (jsAnd imm immMask) 12)
    (jsShl (jsAnd (rd : Int) 31) 7))
    (jsAnd (spec.opcode : Int) 127)

def assembleJump (spec : InstructionSpec) (operands : List String) (line : Nat)
    (isEmbedded : Bool) : Res Int := do
  ensureOperandCount operands 2 line spec.name
  let rd ← parseRegisterOperand (operands.getD 0 "") "rd" line isEmbedded
  let imm ← parseImmediate (operands.getD 1 "")
    { bits := spec.immBits.getD 21, signed := true, line := some line, label := "jump offset" }
  if jsAnd imm 1 ≠ 0 then
    throw (.analyzer "Jump offset must be aligned to 2 bytes" (some line))
  let imm20 := jsAnd (jsShr imm 20) 1
  let imm19_12 := jsAnd (jsShr imm 12) 255
  let imm11 := jsAnd (jsShr imm 11) 1
  let imm10_1 := jsAnd (jsShr imm 1) 1023
  return jsOr (jsOr (jsOr (jsOr (jsOr
    (jsShl imm20 31)
    (jsShl imm10_1 21))
    (jsShl imm11 20))
    (jsShl imm19_12 12))
    (jsShl (jsAnd (rd : Int) 31) 7))
    (jsAnd (spec.opcode : Int) 127)

def assembleZeroOperand (spec : InstructionSpec) (operands : List String) (line : Nat) :
    Res Int := do
  ensureOperandCount operands 0 line spec.name
  let immBits := spec.immBits.getD 12
  let immMask := jsShl 1 (immBits : Int) - 1
  let imm := jsAnd (spec.fixedImmediate.getD 0 : Int) immMask
  return jsOr (jsOr
    (jsShl imm 20)
    (jsShl (jsAnd (spec.funct3.getD 0 : Int) 7) 12))
    (jsAnd (spec.opcode : Int) 127)

def parseFenceMask (token : String) (line : Nat) : Res Int := do
  let normalized := jsToLower (jsTrim token)
  if normalized = "0" then
    return 0
  let mut mask : Int := 0
  for ch in normalized.toList do
    if ch = 'i' then mask := jsOr mask 8
    else if ch = 'o' then mask := jsOr mask 4
    else if ch = 'r' then mask := jsOr mask 2
    else if ch = 'w' then mask := jsOr mask 1
    else throw (.analyzer s!"Invalid fence operand '{token}'" (some line))
  return mask

def assembleFence (spec : InstructionSpec) (operands : List String) (line : Nat) :
    Res Int := do
  if operands.length ≠ 0 ∧ operands.length ≠ 2 then
    throw (.analyzer
      s!"Expected 0 or 2 operand(s) for {spec.name}, received {operands.length}" (some line))
  let (predMask, succMask) ←
    if operands.length = 2 then do
      let p ← parseFenceMask (operands.getD 0 "") line
      let s ← parseFenceMask (operands.getD 1 "") line
      pure (p, s)
    else pure ((15 : Int), (15 : Int))
  let immBits := spec.immBits.getD 12
  let immMask := jsShl 1 (immBits : Int) - 1
  let baseImm := (spec.fixedImmediate.getD 0 : Int)
  let imm := jsAnd (jsOr (jsOr baseImm (jsShl (jsAnd succMask 15) 4)) (jsAnd predMask 15)) immMask
  return jsOr (jsOr
    (jsShl imm 20)
    (jsShl (jsAnd (spec.funct3.getD 0 : Int) 7) 12))
    (jsAnd (spec.opcode : Int) 127)

def assembleCsrRegister (spec : InstructionSpec) (operands : List String) (line : Nat)
    (isEmbedded : Bool) : Res Int := do
  ensureOperandCount operands 3 line spec.name
  let rd ← parseRegisterOperand (operands.getD 0 "") "rd" line isEmbedded
  let csr ← parseImmediate (operands.getD 1 "")
    { bits := 12, signed := false, line := some line, label := "csr" }
  let rs1 ← parseRegisterOperand (operands.getD 2 "") "rs1" line isEmbedded
  return jsOr (jsOr (jsOr (jsOr
    (jsShl (jsAnd csr 0xfff) 20)
    (jsShl (jsAnd (rs1 : Int) 31) 15))
    (jsShl (jsAnd (spec.funct3.getD 0 : Int) 7) 12))
    (jsShl (jsAnd (rd : Int) 31) 7))
    (jsAnd (spec.opcode : Int) 127)

def assembleCsrImmediate (spec : InstructionSpec) (operands : List String) (line : Nat)
    (isEmbedded : Bool) : Res Int := do
  ensureOperandCount operands 3 line spec.name
  let rd ← parseRegisterOperand (operands.getD 0 "") "rd" line isEmbedded
  let csr ← parseImmediate (operands.getD 1 "")
    { bits := 12, signed := false, line := some line, label := "csr" }
  let zimm ← parseImmediate (operands.getD 2 "")
    { bits := 5, signed := false, line := some line, label := "immediate" }
  return jsOr (jsOr (jsOr (jsOr
    (jsShl (jsAnd csr 0xfff) 20)
    (jsShl (jsAnd zimm 31) 15))
    (jsShl (jsAnd (spec.funct3.getD 0 : Int) 7) 12))
    (jsShl (jsAnd (rd : Int) 31) 7))
    (jsAnd (spec.opcode : Int) 127)

def assembleVType (spec : InstructionSpec) (operands : List String) (line : Nat) :
    Res Int := do
  let p := spec.operandPattern
  let (vd, vs1, _vs2, rs2, imm, vm) ←
    if p = "vd_vs1_vs2" ∨ p = "vd_vs1_vs2_vm" then do
      ensureOperandCount operands 3 line spec.name
      let vd ← parseVectorRegister (operands.getD 0 "")
      let vs1 ← parseVectorRegister (operands.getD 1 "")
      let vs2 ← parseVectorRegister (operands.getD 2 "")
      pure (vd, vs1, vs2, 0, (0 : Int), if p = "vd_vs1_vs2_vm" then 0 else 1)
    else if p = "vd_vs1_rs2" ∨ p = "vd_vs1_rs2_vm" then do
      ensureOperandCount operands 3 line spec.name
      let vd ← parseVectorRegister (operands.getD 0 "")
      let vs1 ← parseVectorRegister (operands.getD 1 "")
      let rs2 ← parseRegister (operands.getD 2 "") false
      pure (vd, vs1, 0, rs2, (0 : Int), if p = "vd_vs1_rs2_vm" then 0 else 1)
    else if p = "vd_vs1_imm" ∨ p = "vd_vs1_imm_vm" then do
      ensureOperandCount operands 3 line spec.name
      let vd ← parseVectorRegister (operands.getD 0 "")
      let vs1 ← parseVectorRegister (operands.getD 1 "")
      let imm ← parseImmediate (operands.getD 2 "")
        { bits := 5, signed := true, line := some line, label := "immediate" }
      pure (vd, vs1, 0, 0, imm, if p = "vd_vs1_imm_vm" then 0 else 1)
    else if p = "vd_rs1" ∨ p = "vd_rs1_vm" then do
      ensureOperandCount operands 2 line spec.name
      let vd ← parseVectorRegister (operands.getD 0 "")
      let rs2 ← parseRegister (operands.getD 1 "") false
      pure (vd, 0, 0, rs2, (0 : Int), if p = "vd_rs1_vm" then 0 else 1)
    else if p = "vd_vs1" ∨ p = "vd_vs1_vm" then do
      ensureOperandCount operands 2 line spec.name
      let vd ← parseVectorRegister (operands.getD 0 "")
      let vs1 ← parseVectorRegister (operands.getD 1 "")
      pure (vd, vs1, 0, 0, (0 : Int), if p = "vd_vs1_vm" then 0 else 1)
    else
      throw (.analyzer s!"Unsupported vector operand pattern '{p}'" (some line))
  let word := jsAnd (spec.opcode : Int) 127
  let word := jsOr word (jsShl (jsAnd (vm : Int) 1) 25)
  let word := jsOr word (jsShl (jsAnd (_vs2 : Int) 31) 20)
  let rs1Field : Int := if strIncludes p "rs2" then (rs2 : Int) else (vs1 : Int)
  let word := jsOr word (jsShl (jsAnd rs1Field 31) 15)
  let word := jsOr word (jsShl (jsAnd (spec.funct3.getD 0 : Int) 7) 12)
  let word := jsOr word (jsShl (jsAnd (vd : Int) 31) 7)
  let word := jsOr word (jsShl (jsAnd (spec.funct6.getD 0 : Int) 63) 26)
  let word := if strIncludes p "imm" then jsOr word (jsShl (jsAnd imm 31) 15) else word
  return word

def assembleVLoad (spec : InstructionSpec) (operands : List String) (line : Nat) :
    Res Int := do
  ensureOperandCount operands 2 line spec.name
  let vd ← parseVectorRegister (operands.getD 0 "")
  let (base, offset) ← parseMemoryOperand (operands.getD 1 "") line false
  return jsOr (jsOr (jsOr (jsOr
    (jsShl (jsAnd offset 0xfff) 20)
    (jsShl (jsAnd (base : Int) 31) 15))
    (jsShl (jsAnd (spec.funct3.getD 0 : Int) 7) 12))
    (jsShl (jsAnd (vd : Int) 31) 7))
    (jsAnd (spec.opcode : Int) 127)

def assembleVStore (spec : InstructionSpec) (operands : List String) (line : Nat) :
    Res Int := do
  ensureOperandCount operands 2 line spec.name
  let vs ← parseVectorRegister (operands.getD 0 "")
  let (base, offset) ← parseMemoryOperand (operands.getD 1 "") line false
  return jsOr (jsOr (jsOr (jsOr (jsOr
    (jsShl (jsAnd (jsShr offset 5) 127) 25)
    (jsShl (jsAnd (vs : Int) 31) 20))
    (jsShl (jsAnd (base : Int) 31) 15))
    (jsShl (jsAnd (spec.funct3.getD 0 : Int) 7) 12))
    (jsShl (jsAnd offset 31) 7))
    (jsAnd (spec.opcode : Int) 127)

def fitsSigned (value : Int) (bits : Nat) : Bool :=
  let min := -(jsShl 1 ((bits : Int) - 1))
  let max := jsShl 1 ((bits : Int) - 1) - 1
  min ≤ value ∧ value ≤ max

/-- Expanded pseudo-instruction: mnemonic plus operand tokens. -/
abbrev ExpandedInst := String × List String

def expandPseudo (mnemonic : String) (operands : List String) (line : Nat)
    (_isEmbedded : Bool) (_mode : XLenMode) (_detectedXlen : Nat) :
    Res (Option (List ExpandedInst)) := do
  let m := jsToLower mnemonic
  if m = "nop" then do
    ensureOperandCount operands 0 line "nop"
    return some [("addi", ["x0", "x0", "0"])]
  else if m = "mv" then do
    ensureOperandCount operands 2 line "mv"
    return some [("addi", [operands.getD 0 "", operands.getD 1 "", "0"])]
  else if m = "not" then do
    ensureOperandCount operands 2 line "not"
    return some [("xori", [operands.getD 0 "", operands.getD 1 "", "-1"])]
  else if m = "neg" then do
    ensureOperandCount operands 2 line "neg"
    return some [("sub", [operands.getD 0 "", "x0", operands.getD 1 ""])]
  else if m = "negw" then do
    ensureOperandCount operands 2 line "negw"
    return some [("subw", [operands.getD 0 "", "x0", operands.getD 1 ""])]
  else if m = "sext.w" then do
    ensureOperandCount operands 2 line "sext.w"
    return some [("addiw", [operands.getD 0 "", operands.getD 1 "", "0"])]
  else if m = "seqz" then do
    ensureOperandCount operands 2 line "seqz"
    return some [("sltiu", [operands.getD 0 "", operands.getD 1 "", "1"])]
  else if m = "snez" then do
    ensureOperandCount operands 2 line "snez"
    return some [("sltu", [operands.getD 0 "", "x0", operands.getD 1 ""])]
  else if m = "sltz" then do
    ensureOperandCount operands 2 line "sltz"
    return some [("slt", [operands.getD 0 "", operands.getD 1 "", "x0"])]
  else if m = "sgtz" then do
    ensureOperandCount operands 2 line "sgtz"
    return some [("slt", [operands.getD 0 "", "x0", operands.getD 1 ""])]
  else if m = "beqz" then do
    ensureOperandCount operands 2 line "beqz"
    return some [("beq", [operands.getD 0 "", "x0", operands.getD 1 ""])]
  else if m = "bnez" then do
    ensureOperandCount operands 2 line "bnez"
    return some [("bne", [operands.getD 0 "", "x0", operands.getD 1 ""])]
  else if m = "blez" then do
    ensureOperandCount operands 2 line "blez"
    return some [("bge", ["x0", operands.getD 0 "", operands.getD 1 ""])]
  else if m = "bgez" then do
    ensureOperandCount operands 2 line "bgez"
    return some [("bge", [operands.getD 0 "", "x0", operands.getD 1 ""])]
  else if m = "bltz" then do
    ensureOperandCount operands 2 line "bltz"
    return some [("blt", [operands.getD 0 "", "x0", operands.getD 1 ""])]
  else if m = "bgtz" then do
    ensureOperandCount operands 2 line "bgtz"
    return some [("blt", ["x0", operands.getD 0 "", operands.getD 1 ""])]
  else if m = "j" then do
    ensureOperandCount operands 1 line "j"
    return some [("jal", ["x0", operands.getD 0 ""])]
  else if m = "jr" then do
    ensureOperandCount operands 1 line "jr"
    return some [("jalr", ["x0", operands.getD 0 "", "0"])]
  else if m = "ret" then do
    ensureOperandCount operands 0 line "ret"
    return some [("jalr", ["x0", "x1", "0"])]
  else if m = "jal" then
    if operands.length = 1 then
      return some [("jal", ["x1", operands.getD 0 ""])]
    else
      return none
  else if m = "li" then do
    ensureOperandCount operands 2 line "li"
    let dest := operands.getD 0 ""
    let imm ← parseImmediate (operands.getD 1 "")
      { bits := 32, signed := true, line := some line, label := "immediate" }
    if fitsSigned imm 12 then
      return some [("addi", [dest, "x0", toString imm])]
    else
      let upper := jsShr (imm + 0x800) 12
      let lower := imm - jsShl upper 12
      if ¬ fitsSigned lower 12 then
        throw (.analyzer s!"Cannot encode immediate {imm} in 12-bit addi after LUI" (some line))
      else if upper ≠ 0 then
        if lower ≠ 0 then
          return some [("lui", [dest, toString upper]), ("addi", [dest, dest, toString lower])]
        else
          return some [("lui", [dest, toString upper])]
      else
        return some [("addi", [dest, "x0", toString lower])]
  else
    return none

def ensureSupportedXlen (mode : XLenMode) (detected : Nat) (spec : InstructionSpec)
    (line : Nat) : Res Nat :=
  let required := minXlenD spec
  match mode with
  | .auto => .ok (if required > detected then required else detected)
  | .fixed m =>
      if required > m then
        -- The source string carries a mojibake rendering of `≥` (its UTF-8
        -- bytes re-decoded as Latin-1), reproduced verbatim here.
        .error (.analyzer
          (s!"Instruction '{spec.name}' requires XLEN " ++ "â‰¥" ++
            s!" {required}, but current mode is XLEN={m}")
          (some line))
      else .ok detected

/-- Operand-pattern dispatch of `assembleSingle`. -/
def assembleOperands (spec : InstructionSpec) (operands : List String) (line : Nat)
    (isEmbedded : Bool) : Res Int :=
  let p := spec.operandPattern
  if p = "rd_rs1_rs2" then assembleRType spec operands line isEmbedded
  else if p = "rd_rs1" then
    if spec.format = "I" then assembleIType spec operands line isEmbedded
    else assembleRType spec operands line isEmbedded
  else if p = "rd_rs1_imm12" then assembleIType spec operands line isEmbedded
  else if p = "rd_mem" then assembleLoad spec operands line isEmbedded
  else if p = "rs2_mem" then assembleStore spec operands line isEmbedded
  else if p = "rs1_rs2_branch" then assembleBranch spec operands line isEmbedded
  else if p = "rd_imm20" then assembleUType spec operands line isEmbedded
  else if p = "rd_jump" then assembleJump spec operands line isEmbedded
  else if p = "none" then assembleZeroOperand spec operands line
  else if p = "fence" then assembleFence spec operands line
  else if p = "rd_csr_rs1" then assembleCsrRegister spec operands line isEmbedded
  else if p = "rd_csr_imm5" then assembleCsrImmediate spec operands line isEmbedded
  else if p = "rd_rs1_imm6" then assembleIType spec operands line isEmbedded
  else if p = "fd_fs1_fs2" ∨ p = "fd_fs1" ∨ p = "fd_rs1" ∨ p = "rd_fs1" ∨ p = "rd_fs1_fs2" then
    assembleFloatRType spec operands line
  else if p = "fd_fs1_fs2_fs3" then assembleFloatR4Type spec operands line
  else if p = "vd_vs1_vs2" ∨ p = "vd_vs1_vs2_vm" ∨ p = "vd_vs1_rs2" ∨ p = "vd_vs1_rs2_vm" ∨
      p = "vd_vs1_imm" ∨ p = "vd_vs1_imm_vm" ∨ p = "vd_rs1" ∨ p = "vd_rs1_vm" ∨
      p = "vd_vs1" ∨ p = "vd_vs1_vm" then
    assembleVType spec operands line
  else if p = "vd_mem" then assembleVLoad spec operands line
  else if p = "vs_mem" then assembleVStore spec operands line
  else .error (.analyzer s!"Unhandled operand pattern for '{spec.name}'" (some line))

def assembleSingle (mode : XLenMode) (detected : Nat) (isEmbedded : Bool)
    (spec : InstructionSpec) (operands : List String) (line : Nat) : Res (Int × Nat) := do
  let detected ← ensureSupportedXlen mode detected spec line
  let word ← assembleOperands spec operands line isEmbedded
  return (word, detected)

/-- Loop of `assembleInstructionOrPseudo` over the instructions of a
pseudo expansion, threading the detected-XLEN state. -/
def assembleExpanded (mode : XLenMode) (detected : Nat) (isEmbedded : Bool)
    (mnemonic : String) (insts : List (String × List String)) (line : Nat) :
    Res (List Nat × Nat) :=
  match insts with
  | [] => .ok ([], detected)
  | inst :: rest =>
      match instructionsByName inst.1 with
      | none =>
          .error (.analyzer
            s!"Internal error expanding pseudo '{mnemonic}' -> '{inst.1}'" (some line))
      | some innerSpec => do
          let (word, d2) ← assembleSingle mode detected isEmbedded innerSpec inst.2 line
          let (words, dfin) ← assembleExpanded mode d2 isEmbedded mnemonic rest line
          return (toUint32 word :: words, dfin)

def assembleInstructionOrPseudo (mode : XLenMode) (detected : Nat) (isEmbedded : Bool)
    (mnemonic : String) (operands : List String) (line : Nat) : Res (List Nat × Nat) := do
  match instructionsByName mnemonic with
  | some spec =>
      let (word, detected) ← assembleSingle mode detected isEmbedded spec operands line
      return ([toUint32 word], detected)
  | none =>
      let expanded ← expandPseudo mnemonic operands line isEmbedded mode detected
      match expanded with
      | none => throw (.analyzer s!"Unsupported instruction '{mnemonic}'" (some line))
      | some insts => assembleExpanded mode detected isEmbedded mnemonic insts line

/-- Loop of `assembleCore` over the enumerated source lines, threading
the detected-XLEN state. -/
def asmLoop (mode : XLenMode) (isEmbedded : Bool) (detected : Nat)
    (enumLines : List (Nat × String)) : Res (List Nat × Nat) :=
  match enumLines with
  | [] => .ok ([], detected)
  | p :: rest => do
      let line := stripComment p.2
      if jsTrim line = "" then
        asmLoop mode isEmbedded detected rest
      else
        let (mnemonic, operands) ← parseLine line (p.1 + 1)
        let (produced, d) ← assembleInstructionOrPseudo mode detected isEmbedded mnemonic
          operands (p.1 + 1)
        let (words, dfin) ← asmLoop mode isEmbedded d rest
        return (produced ++ words, dfin)

def assembleCore (mode : XLenMode) (isEmbedded : Bool) (source : String) :
    Res (List Nat × Nat) := do
  let start : Nat := match mode with | .auto => 32 | .fixed m => m
  let (words, detected) ← asmLoop mode isEmbedded start (splitLines source).enum
  let final := match mode with | .auto => detected | .fixed m => m
  return (words, final)

structure AssembleDetailedResult where
  output : String
  words : List Nat
  detectedXlen : Nat
  mode : XLenMode
deriving DecidableEq, Repr

def assembleDetailed (source : String) (options : AnalyzerOptions := {}) :
    Res AssembleDetailedResult := do
  let mode := options.xlen
  let isEmbedded := options.isEmbedded
  let (words, detectedXlen) ← assembleCore mode isEmbedded source
  return { output := String.intercalate "\n" (words.map (fun w => formatNumber (w : Int) options.numberBase)),
           words := words, detectedXlen := detectedXlen, mode := mode }

def assemble (source : String) (options : AnalyzerOptions := {}) : Res String := do
  return (← assembleDetailed source options).output

end Full


/-! ## Arithmetic facts about the JavaScript integer operations -/

theorem lor_eq_add_of_land_eq_zero : ∀ (a b : Nat), a &&& b = 0 → a ||| b = a + b := by
  intro a
  induction a using Nat.binaryRec with
  | z => intro b _; simp
  | f ab a2 ih =>
      intro b hab
      rcases Nat.binaryRec (motive := fun b => ∃ bb b2, b = Nat.bit bb b2) ⟨false, 0, rfl⟩
        (fun bb b2 _ => ⟨bb, b2, rfl⟩) b with ⟨bb, b2, rfl⟩
      rw [Nat.land_bit] at hab
      rw [Nat.lor_bit]
      rcases Nat.bit_eq_zero_iff.mp hab with ⟨h1, h2⟩
      have hadd := ih b2 h1
      rw [Nat.bit_val, Nat.bit_val, Nat.bit_val, hadd]
      cases ab <;> cases bb <;> simp_all <;> omega

theorem lor_eq_add_of_lt (a b k : Nat) (ha : a % 2 ^ k = 0) (hb : b < 2 ^ k) :
    a ||| b = a + b := by
  apply lor_eq_add_of_land_eq_zero
  have hb2 : b &&& (2 ^ k - 1) = b := by
    rw [Nat.and_pow_two_sub_one_eq_mod]
    exact Nat.mod_eq_of_lt hb
  calc a &&& b = a &&& (b &&& (2 ^ k - 1)) := by rw [hb2]
    _ = a &&& ((2 ^ k - 1) &&& b) := by rw [Nat.land_comm b]
    _ = (a &&& (2 ^ k - 1)) &&& b := by rw [Nat.land_assoc]
    _ = 0 &&& b := by rw [Nat.and_pow_two_sub_one_eq_mod, ha]
    _ = 0 := Nat.zero_and b

theorem shiftRight_lor_distrib (a b n : Nat) : (a ||| b) >>> n = a >>> n ||| b >>> n := by
  apply Nat.eq_of_testBit_eq
  intro i
  simp [Nat.testBit_shiftRight, Nat.testBit_or]

theorem toUint32_nonneg_lt (z : Int) : 0 ≤ z % 4294967296 ∧ z % 4294967296 < 4294967296 :=
  ⟨Int.emod_nonneg z (by norm_num), Int.emod_lt_of_pos z (by norm_num)⟩

theorem toUint32_lt (z : Int) : toUint32 z < 4294967296 := by
  unfold toUint32
  have h := toUint32_nonneg_lt z
  omega

theorem toUint32_natCast (n : Nat) (h : n < 4294967296) : toUint32 (n : Int) = n := by
  unfold toUint32
  rw [Int.emod_eq_of_lt (by positivity) (by exact_mod_cast h)]
  simp

theorem toInt32_natCast_small (n : Nat) (h : n < 2147483648) : toInt32 (n : Int) = (n : Int) := by
  unfold toInt32
  rw [Int.emod_eq_of_lt (by positivity) (by exact_mod_cast by omega : (n : Int) < 4294967296)]
  simp
  omega

theorem toInt32_natCast_big (n : Nat) (h1 : 2147483648 ≤ n) (h2 : n < 4294967296) :
    toInt32 (n : Int) = (n : Int) - 4294967296 := by
  unfold toInt32
  rw [Int.emod_eq_of_lt (by positivity) (by exact_mod_cast h2)]
  simp
  omega

theorem toUint32_toInt32 (z : Int) : toUint32 (toInt32 z) = toUint32 z := by
  unfold toInt32 toUint32
  have h := toUint32_nonneg_lt z
  split
  · rw [Int.emod_emod_of_dvd _ dvd_rfl]
  · congr 1
    rw [Int.sub_emod, Int.emod_emod_of_dvd z (by norm_num)]
    norm_num

theorem toUint32_cast (z : Int) : (toUint32 z : Int) = z % 4294967296 := by
  unfold toUint32
  have h := toUint32_nonneg_lt z
  omega

theorem jsAnd_mask (z : Int) (j : Nat) (hj : j ≤ 31) :
    jsAnd z ((2 : Int) ^ j - 1) = z % (2 : Int) ^ j := by
  unfold jsAnd
  have hm : toUint32 ((2 : Int) ^ j - 1) = 2 ^ j - 1 := by
    have h1 : ((2 : Int) ^ j - 1) = ((2 ^ j - 1 : Nat) : Int) := by
      have h0 : (1 : Nat) ≤ 2 ^ j := Nat.one_le_two_pow
      push_cast [h0]
      ring
    rw [h1, toUint32_natCast]
    have hle : (2 : Nat) ^ j ≤ 2 ^ 31 := Nat.pow_le_pow_right (by norm_num) hj
    omega
  rw [hm, Nat.and_pow_two_sub_one_eq_mod]

  have hlt : toUint32 z % 2 ^ j < 2 ^ j := Nat.mod_lt _ (by positivity)
  have hsmall : toUint32 z % 2 ^ j < 2147483648 := by
    have : (2 : Nat) ^ j ≤ 2 ^ 31 := Nat.pow_le_pow_right (by norm_num) hj
    omega
  rw [toInt32_natCast_small _ hsmall]
  have hz := toUint32_cast z
  have h2 : ((toUint32 z % 2 ^ j : Nat) : Int) = (toUint32 z : Int) % (2 : Int) ^ j := by
    push_cast
    rfl
  rw [h2, hz, Int.emod_emod_of_dvd]
  have h32 : (4294967296 : Int) = 2 ^ 32 := by norm_num
  rw [h32]
  exact pow_dvd_pow 2 (by omega)

theorem toUint32_jsOr (a b : Int) : toUint32 (jsOr a b) = toUint32 a ||| toUint32 b := by
  unfold jsOr
  rw [toUint32_toInt32]
  have hlt : toUint32 a ||| toUint32 b < 4294967296 := by
    have h1 : toUint32 a < 2 ^ 32 := toUint32_lt a
    have h2 : toUint32 b < 2 ^ 32 := toUint32_lt b
    exact Nat.or_lt_two_pow h1 h2
  exact toUint32_natCast _ hlt

theorem toUint32_jsShl (a : Int) (k : Nat) (hk : k < 32) :
    toUint32 (jsShl a (k : Int)) = ((toUint32 a) <<< k) % 4294967296 := by
  unfold jsShl
  rw [toUint32_toInt32, toUint32_natCast k (by omega), Nat.mod_eq_of_lt hk]
  unfold toUint32
  omega


theorem toInt32_of_range (x : Int) (h1 : -2147483648 ≤ x) (h2 : x < 2147483648) :
    toInt32 x = x := by
  unfold toInt32
  split <;> omega

theorem jsShr_natCast_mask (w : Nat) (hw : w < 4294967296) (k j : Nat) (hk : k < 32)
    (hkj : k + j ≤ 32) (hj : j ≤ 31) :
    jsAnd (jsShr (w : Int) (k : Int)) ((2 : Int) ^ j - 1) = ((w / 2 ^ k % 2 ^ j : Nat) : Int) := by
  have hsh : toUint32 (k : Int) % 32 = k := by
    rw [toUint32_natCast k (by omega)]
    exact Nat.mod_eq_of_lt hk
  have hpow : (0 : Int) < 2 ^ k := by positivity
  rw [jsAnd_mask _ j hj]
  unfold jsShr
  rw [hsh]
  rw [Int.fdiv_eq_ediv _ (by positivity)]
  have hcast : ∀ q : Int, q % (2 : Int) ^ j = ((w / 2 ^ k % 2 ^ j : Nat) : Int) →
      q % (2 : Int) ^ j = ((w / 2 ^ k % 2 ^ j : Nat) : Int) := fun _ h => h
  by_cases hbig : w < 2147483648
  · rw [toInt32_natCast_small w hbig]
    have hdiv : (w : Int) / (2 : Int) ^ k = ((w / 2 ^ k : Nat) : Int) := by
      push_cast
      rfl
    rw [hdiv]
    push_cast
    rfl
  · rw [toInt32_natCast_big w (by omega) hw]
    have hstep : ((w : Int) - 4294967296) = (w : Int) + (-(2 ^ (32 - k) : Int)) * 2 ^ k := by
      have hp : ((2 : Int) ^ (32 - k)) * 2 ^ k = 2 ^ 32 := by
        rw [← pow_add]
        congr 1
        omega
      rw [neg_mul, hp]
      norm_num
      omega
    rw [hstep, Int.add_mul_ediv_right _ _ (by positivity : (0:Int) < 2 ^ k).ne.symm]
    have hdiv : (w : Int) / (2 : Int) ^ k = ((w / 2 ^ k : Nat) : Int) := by
      push_cast
      rfl
    rw [hdiv]
    obtain ⟨c, hc⟩ : ((2 : Int) ^ j) ∣ (2 : Int) ^ (32 - k) := pow_dvd_pow 2 (by omega)
    rw [hc, neg_mul_eq_mul_neg, mul_comm ((2:Int)^j), Int.add_mul_emod_self]
    push_cast
    rfl


theorem signExtend_unfold_twelve (v : Int) : signExtend v 12 = jsShr (jsShl v 20) 20 := by
  unfold signExtend
  norm_num

theorem signExtend_twelve (v : Int) (h0 : 0 ≤ v) (h1 : v < 4096) :
    signExtend v 12 = if v < 2048 then v else v - 4096 := by
  rw [signExtend_unfold_twelve]
  have hn : toUint32 v = v.toNat := by
    unfold toUint32
    rw [Int.emod_eq_of_lt h0 (by omega)]
  have hn2 : ((v.toNat : Int)) = v := Int.toNat_of_nonneg h0
  have h20 : toUint32 (20 : Int) % 32 = 20 := by decide
  unfold jsShl
  rw [h20, hn]
  have hshl : (v.toNat <<< 20 : Nat) = v.toNat * 1048576 := by
    rw [Nat.shiftLeft_eq]
  by_cases hc : v < 2048
  · have hsmall : v.toNat <<< 20 < 2147483648 := by
      rw [hshl]
      omega
    rw [toInt32_natCast_small _ hsmall]
    unfold jsShr
    rw [h20]
    rw [toInt32_of_range _ (by omega) (by exact_mod_cast hsmall)]
    rw [Int.fdiv_eq_ediv _ (by norm_num)]
    rw [if_pos hc]
    push_cast [hshl]
    rw [mul_comm]
    rw [Int.mul_ediv_cancel_left _ (by norm_num : (1048576 : Int) ≠ 0)]
    exact hn2
  · have hbig : 2147483648 ≤ v.toNat <<< 20 := by
      rw [hshl]
      omega
    have hlt : v.toNat <<< 20 < 4294967296 := by
      rw [hshl]
      omega
    rw [toInt32_natCast_big _ hbig hlt]
    unfold jsShr
    rw [h20]
    rw [toInt32_of_range _ (by push_cast [hshl]; omega) (by push_cast [hshl]; omega)]
    rw [Int.fdiv_eq_ediv _ (by norm_num)]
    rw [if_neg hc]
    push_cast [hshl]
    have hexp : (v.toNat : Int) * 1048576 - 4294967296 = (v.toNat - 4096 : Int) * 1048576 := by
      ring
    rw [hexp, Int.mul_ediv_cancel _ (by norm_num : (1048576 : Int) ≠ 0)]
    omega


set_option maxRecDepth 8000

theorem validate32_always_fails (v : Int) :
    validateImmediateRange v 32 true (some 1) "immediate" =
      .error (.analyzer (outOfRangeMessage "immediate" v 32 true) (some 1)) := by
  have hmin : -(jsShl 1 (((32 : Nat) : Int) - 1)) = 2147483648 := by decide
  have hmax : jsShl 1 (((32 : Nat) : Int) - 1) - 1 = -2147483649 := by decide
  unfold validateImmediateRange
  dsimp only
  rw [if_pos]
  rw [hmin, hmax]
  show v < 2147483648 ∨ v > -2147483649
  omega

theorem validate12_ok (v : Int) (h1 : -2048 ≤ v) (h2 : v ≤ 2047) :
    validateImmediateRange v 12 true (some 1) "immediate" = .ok () := by
  have hmin : -(jsShl 1 (((12 : Nat) : Int) - 1)) = -2048 := by decide
  have hmax : jsShl 1 (((12 : Nat) : Int) - 1) - 1 = 2047 := by decide
  unfold validateImmediateRange
  dsimp only
  rw [if_neg]
  rw [hmin, hmax]
  show ¬(v < -2048 ∨ v > 2047)
  omega

theorem validate12_error (v : Int) (h : v < -2048 ∨ 2047 < v) :
    validateImmediateRange v 12 true (some 1) "immediate" =
      .error (.analyzer (outOfRangeMessage "immediate" v 12 true) (some 1)) := by
  have hmin : -(jsShl 1 (((12 : Nat) : Int) - 1)) = -2048 := by decide
  have hmax : jsShl 1 (((12 : Nat) : Int) - 1) - 1 = 2047 := by decide
  unfold validateImmediateRange
  dsimp only
  rw [if_pos]
  rw [hmin, hmax]
  show v < -2048 ∨ v > 2047
  omega

theorem parseImmediate_eq (token : String) (opts : ImmediateOpts) (v : Int)
    (h1 : jsTrim token ≠ "")
    (h2 : parseNumericLiteral (jsTrim token) opts.line opts.label = .ok v) :
    parseImmediate token opts =
      (validateImmediateRange v opts.bits opts.signed opts.line opts.label).map (fun _ => v) := by
  unfold parseImmediate
  rw [if_neg h1]
  rw [h2]
  show (validateImmediateRange v opts.bits opts.signed opts.line opts.label).bind _ = _
  cases hval : validateImmediateRange v opts.bits opts.signed opts.line opts.label with
  | ok u => cases u; rfl
  | error e => rfl

/-- C2: the spec says `li rd, imm` assembles to a single `addi` when the
immediate fits 12 signed bits and to the rounded `lui`+`addi` pair otherwise,
failing only when the lower half does not fit.  The code instead rejects
every `li`: `expandPseudo` validates the immediate against a 32-bit signed
range whose bounds are computed with JavaScript 32-bit shifts, where
`1 << 31` overflows to `-2^31`, so `max = -2^31 - 1 < min = 2^31` and the
range is empty.  First conjunct: every 32-bit signed validation fails;
second: the claim's own example `li x5, 100000` is rejected with the
out-of-range error instead of expanding to `lui`+`addi`. -/
theorem C2_li_always_out_of_range :
    (∀ v : Int, validateImmediateRange v 32 true (some 1) "immediate" =
        .error (.analyzer (outOfRangeMessage "immediate" v 32 true) (some 1))) ∧
    Full.assembleDetailed "li x5, 100000" =
      .error (.analyzer "Out of range immediate '100000' for 32-bit signed field" (some 1)) :=
  ⟨validate32_always_fails, by rfl⟩

/-- C6: `parseImmediate` on a 12-bit signed field accepts exactly the
integers in [-2048, 2047]: any token whose numeric literal parses to `v`
is accepted iff `-2048 ≤ v ≤ 2047` and otherwise rejected with the
out-of-range error citing the 12-bit signed field; in particular `2048`
and `-2049` fail while the boundary values `2047` and `-2048` succeed. -/
theorem C6_imm12_range :
    (∀ (token : String) (v : Int),
        jsTrim token ≠ "" →
        parseNumericLiteral (jsTrim token) (some 1) "immediate" = .ok v →
        (parseImmediate token { bits := 12, signed := true, line := some 1 } = .ok v ↔
          -2048 ≤ v ∧ v ≤ 2047) ∧
        (v < -2048 ∨ 2047 < v →
          parseImmediate token { bits := 12, signed := true, line := some 1 } =
            .error (.analyzer (outOfRangeMessage "immediate" v 12 true) (some 1)))) ∧
    parseImmediate "2048" { bits := 12, signed := true, line := some 1 } =
      .error (.analyzer "Out of range immediate '2048' for 12-bit signed field" (some 1)) ∧
    parseImmediate "-2049" { bits := 12, signed := true, line := some 1 } =
      .error (.analyzer "Out of range immediate '-2049' for 12-bit signed field" (some 1)) ∧
    parseImmediate "2047" { bits := 12, signed := true, line := some 1 } = .ok 2047 ∧
    parseImmediate "-2048" { bits := 12, signed := true, line := some 1 } = .ok (-2048) := by
  refine ⟨?_, by rfl, by rfl, by rfl, by rfl⟩
  intro token v h1 h2
  have heq := parseImmediate_eq token { bits := 12, signed := true, line := some 1 } v h1 h2
  constructor
  · constructor
    · intro hok
      by_cases hr : -2048 ≤ v ∧ v ≤ 2047
      · exact hr
      · exfalso
        rw [heq, validate12_error v (by omega)] at hok
        exact absurd hok (by simp [Except.map])
    · rintro ⟨ha, hb⟩
      rw [heq, validate12_ok v ha hb]
      rfl
  · intro hr
    rw [heq, validate12_error v hr]
    rfl

/-- C6 witness: the theorem instantiated at the concrete token `5`. -/
theorem C6_witness :
    parseImmediate "5" { bits := 12, signed := true, line := some 1 } = .ok 5 :=
  (C6_imm12_range.1 "5" 5 (by decide) (by rfl)).1.mpr (by omega)

theorem jsAnd_three (word : Nat) :
    jsAnd (word : Int) 3 = ((word % 4 : Nat) : Int) := by
  have h := jsAnd_mask (word : Int) 2 (by omega)
  norm_num at h
  rw [h]
  push_cast
  rfl

/-- C8: `disassemble` routes each machine word on its low two bits: a word
whose value mod 4 is not 3 goes to the compressed decoder, and a word
whose value mod 4 equals 3 goes to the standard 32-bit decoder; the two
conditions are mutually exclusive and exhaustive, so no word takes both
or neither path. -/
theorem C8_routing (mode : XLenMode) (detected : Nat) (base : NumberBase)
    (word line : Nat) :
    (word % 4 ≠ 3 →
      disassembleWord mode detected base word line =
        disassembleCompressedWord mode detected base word line) ∧
    (word % 4 = 3 →
      disassembleWord mode detected base word line =
        standardDecodeWord mode detected base word line) := by
  unfold disassembleWord
  rw [jsAnd_three]
  constructor
  · intro hne
    rw [if_pos]
    intro hc
    exact hne (by exact_mod_cast hc)
  · intro he
    rw [if_neg]
    simp [he]

theorem C8_witness :
    ((4370 : Nat) % 4 ≠ 3 ∧
      disassembleWord .auto 32 .hex 4370 1 =
        disassembleCompressedWord .auto 32 .hex 4370 1) ∧
    ((8323 : Nat) % 4 = 3 ∧
      disassembleWord .auto 32 .hex 8323 1 =
        standardDecodeWord .auto 32 .hex 8323 1) :=
  ⟨⟨by decide, (C8_routing .auto 32 .hex 4370 1).1 (by decide)⟩,
   ⟨by decide, (C8_routing .auto 32 .hex 8323 1).2 (by decide)⟩⟩

theorem tokenizeParts_nil (n : Nat) : tokenizeParts [] n = .ok [] := rfl

theorem tokenizeParts_cons (p : String) (rest : List String) (n : Nat) :
    tokenizeParts (p :: rest) n =
      Except.bind (parseMachineWord p n) (fun v =>
        Except.bind (tokenizeParts rest n) (fun others =>
          .ok ({ value := v, line := n } :: others))) := rfl

theorem tokenizeLines_cons_nonblank (idx : Nat) (s : String)
    (rest : List (Nat × String)) (hs : jsTrim (stripComment s) ≠ "") :
    tokenizeLines ((idx, s) :: rest) =
      Except.bind (tokenizeParts (lineParts (jsTrim (stripComment s))) (idx + 1))
        (fun toks =>
          Except.bind (tokenizeLines rest) (fun others => .ok (toks ++ others))) := by
  show (if jsTrim (stripComment s) = "" then tokenizeLines rest else _) = _
  rw [if_neg hs]
  rfl

theorem disasmLoop_cons (mode : XLenMode) (base : NumberBase) (d : Nat)
    (t : MachineWordToken) (rest : List MachineWordToken) :
    disasmLoop mode base d (t :: rest) =
      Except.bind (disassembleWord mode d base t.value t.line) (fun pr =>
        Except.bind (disasmLoop mode base pr.2 rest) (fun pr2 =>
          .ok (pr.1 :: pr2.1, pr2.2))) := rfl

theorem tokenizeParts_spec (parts : List String) (n : Nat) :
    ∀ (toks : List MachineWordToken), tokenizeParts parts n = .ok toks →
      toks.length = parts.length ∧
      (∀ t ∈ toks, t.line = n) ∧
      parts.mapM (fun p => parseMachineWord p n) = .ok (toks.map (fun t => t.value)) := by
  induction parts with
  | nil =>
      intro toks h
      rw [tokenizeParts_nil] at h
      cases h
      exact ⟨rfl, by simp, rfl⟩
  | cons p rest ih =>
      intro toks h
      rw [tokenizeParts_cons] at h
      cases hv : parseMachineWord p n with
      | error e => rw [hv] at h; cases h
      | ok v =>
          rw [hv] at h
          simp only [Except.bind] at h
          cases hr : tokenizeParts rest n with
          | error e => rw [hr] at h; cases h
          | ok others =>
              rw [hr] at h
              simp only [Except.bind] at h
              cases h
              obtain ⟨h1, h2, h3⟩ := ih others hr
              refine ⟨by simp [h1], ?_, ?_⟩
              · intro t ht
                rcases List.mem_cons.mp ht with rfl | ht
                · rfl
                · exact h2 t ht
              · rw [List.mapM_cons, hv, h3]
                rfl

theorem disasmLoop_length (mode : XLenMode) (base : NumberBase) :
    ∀ (toks : List MachineWordToken) (d : Nat) (lines : List String) (dfin : Nat),
      disasmLoop mode base d toks = .ok (lines, dfin) →
      lines.length = toks.length := by
  intro toks
  induction toks with
  | nil =>
      intro d lines dfin h
      cases h
      rfl
  | cons t rest ih =>
      intro d lines dfin h
      rw [disasmLoop_cons] at h
      cases hw : disassembleWord mode d base t.value t.line with
      | error e => rw [hw] at h; cases h
      | ok pr =>
          rw [hw] at h
          simp only [Except.bind] at h
          cases hr : disasmLoop mode base pr.2 rest with
          | error e => rw [hr] at h; cases h
          | ok pr2 =>
              rw [hr] at h
              simp only [Except.bind] at h
              cases h
              simp [ih pr.2 pr2.1 pr2.2 hr]

/-- C10: the tokenizer accepts several machine-word tokens on one source
line. (1) Parsing the separated parts of one line yields one token per
part, every token carries that line's number, and the token values are
exactly the parsed machine words of the parts in order; (2) a
comment-stripped non-blank source line at 0-based index `idx` is split
into its parts and every resulting token carries the 1-based number
`idx + 1`; (3) the disassembly loop emits exactly one output line per
token, in token order; (4) concretely, a two-line input whose first line
holds three tokens separated by spaces and a comma yields four tokens on
lines 1, 1, 1, 2 and four output instructions. -/
theorem C10_multi_token_lines :
    (∀ (parts : List String) (n : Nat) (toks : List MachineWordToken),
        tokenizeParts parts n = .ok toks →
        toks.length = parts.length ∧
        (∀ t ∈ toks, t.line = n) ∧
        parts.mapM (fun p => parseMachineWord p n) = .ok (toks.map (fun t => t.value))) ∧
    (∀ (idx : Nat) (s : String) (rest : List (Nat × String)),
        jsTrim (stripComment s) ≠ "" →
        tokenizeLines ((idx, s) :: rest) =
          Except.bind (tokenizeParts (lineParts (jsTrim (stripComment s))) (idx + 1))
            (fun toks =>
              Except.bind (tokenizeLines rest) (fun others => .ok (toks ++ others)))) ∧
    (∀ (mode : XLenMode) (base : NumberBase) (toks : List MachineWordToken)
        (d : Nat) (lines : List String) (dfin : Nat),
        disasmLoop mode base d toks = .ok (lines, dfin) →
        lines.length = toks.length) ∧
    tokenize "00100093 002081b3, 0x00302023\n0xfff1009b" =
      .ok [{ value := 1048723, line := 1 }, { value := 2130355, line := 1 },
           { value := 3153955, line := 1 }, { value := 4293984411, line := 2 }] ∧
    disassemble "00100093 002081b3, 0x00302023\n0xfff1009b" { numberBase := .dec } =
      .ok "addi x1, x0, 1\nadd x3, x1, x2\nsq x3, 0(x0)\naddiw x1, x2, -1" :=
  ⟨fun parts n => tokenizeParts_spec parts n,
   fun idx s rest hs => tokenizeLines_cons_nonblank idx s rest hs,
   fun mode base toks d lines dfin h => disasmLoop_length mode base toks d lines dfin h,
   by rfl,
   by rfl⟩

theorem C10_witness :
    (([{ value := 7, line := 5 }, { value := 8, line := 5 }] :
        List MachineWordToken).length = (["7", "8"] : List String).length ∧
      (∀ t ∈ ([{ value := 7, line := 5 }, { value := 8, line := 5 }] :
          List MachineWordToken), t.line = 5) ∧
      (["7", "8"] : List String).mapM (fun p => parseMachineWord p 5) =
        .ok [7, 8]) ∧
    (["addi x1, x0, 1"] : List String).length =
      [({ value := 1048723, line := 1 } : MachineWordToken)].length :=
  ⟨C10_multi_token_lines.1 ["7", "8"] 5
      [{ value := 7, line := 5 }, { value := 8, line := 5 }] (by rfl),
   C10_multi_token_lines.2.2.1 .auto .dec [{ value := 1048723, line := 1 }] 32
      ["addi x1, x0, 1"] 32 (by rfl)⟩


theorem except_bind_error {α β : Type} (x : Except JsError α) (f : α → Except JsError β)
    (e : JsError) (h : Except.bind x f = .error e) :
    x = .error e ∨ ∃ v, x = .ok v ∧ f v = .error e := by
  cases x with
  | error e2 =>
      left
      simp only [Except.bind] at h
      cases h
      rfl
  | ok v =>
      right
      exact ⟨v, rfl, by simpa only [Except.bind] using h⟩

theorem analyzerMessageLine (m : String) (n : Nat) :
    (JsError.analyzer m (some n)).message = "Line " ++ toString n ++ ": " ++ m := by
  have hid : ∀ s : String, toString s = s := fun s => rfl
  show toString "Line " ++ toString n ++ toString ": " ++ toString m ++ toString "" =
    "Line " ++ toString n ++ ": " ++ m
  rw [hid, hid, hid, hid, String.append_empty]

theorem parseNumericLiteral_line (token : String) (l : Option Nat) (label : String)
    (e : JsError) (h : parseNumericLiteral token l label = .error e) :
    ∃ m, e = .analyzer m l := by
  simp only [parseNumericLiteral] at h
  split at h
  · cases h
  · split at h
    · cases h
    · split at h
      · split at h <;> cases h
      · cases h; exact ⟨_, rfl⟩

theorem rangeCheck_line (token : String) (n : Nat) (y : Int) (e : JsError)
    (h : (if y < 0 ∨ y > 4294967295 then
            (Except.error (JsError.analyzer s!"Invalid machine word '{token}'" (some n)) :
              Res PUnit).bind (fun _ => (Except.pure (toUint32 y) : Res Nat))
          else (Except.pure PUnit.unit : Res PUnit).bind
            (fun _ => (Except.pure (toUint32 y) : Res Nat))) = .error e) :
    ∃ m, e = .analyzer m (some n) := by
  by_cases hc : y < 0 ∨ y > (4294967295 : Int)
  · rw [if_pos hc] at h
    simp only [Except.bind] at h
    cases h
    exact ⟨_, rfl⟩
  · rw [if_neg hc] at h
    simp only [Except.bind, Except.pure] at h
    cases h

theorem parseMachineWord_line (token : String) (n : Nat) (e : JsError)
    (h : parseMachineWord token n = .error e) : ∃ m, e = .analyzer m (some n) := by
  unfold parseMachineWord at h
  simp only [bind, pure, throw, throwThe, MonadExceptOf.throw] at h
  split at h
  · simp only [Except.pure, Except.bind] at h
    exact rangeCheck_line token n _ e h
  · split at h
    · simp only [Except.pure, Except.bind] at h
      exact rangeCheck_line token n _ e h
    · split at h
      · simp only [Except.pure, Except.bind] at h
        exact rangeCheck_line token n _ e h
      · rcases except_bind_error _ _ _ h with hV | ⟨v, hV, hF⟩
        · exact parseNumericLiteral_line _ _ _ _ hV
        · exact rangeCheck_line token n v e hF

theorem parseRegister_plain (token : String) (emb : Bool) (e : JsError)
    (h : parseRegister token emb = .error e) : ∃ m, e = .plain m := by
  simp only [parseRegister] at h
  split at h
  · cases h; exact ⟨_, rfl⟩
  · split at h
    · cases h
    · cases h; exact ⟨_, rfl⟩

theorem parseRegisterOperand_line (token role : String) (line : Nat) (e : JsError)
    (h : V1.parseRegisterOperand token role line = .error e) :
    ∃ m, e = .analyzer m (some line) := by
  unfold V1.parseRegisterOperand at h
  cases hp : parseRegister token false with
  | ok v => rw [hp] at h; cases h
  | error e2 =>
      rw [hp] at h
      obtain ⟨m, rfl⟩ := parseRegister_plain token false e2 hp
      cases h
      exact ⟨_, rfl⟩

/-- C9: analyzer errors carry the 1-based source line and a "Line N: "
message prefix. (1) The rendered message of an analyzer error with line
`n` is exactly "Line n: " followed by the raw message, and the error
exposes line `n`; (2) every failure of the assembler's register-operand
parser is an analyzer error carrying the line it was given; (3) every
failure of the disassembler's machine-word parser is an analyzer error
carrying the line it was given; (4) concretely, assembling
"addi wrong, x0, 1" fails with the analyzer error "Invalid rd register
'wrong'" at line 1, whose message is "Line 1: Invalid rd register
'wrong'" and contains "Line 1" as a substring. -/
theorem C9_line_in_errors :
    (∀ (m : String) (n : Nat),
        (JsError.analyzer m (some n)).message = "Line " ++ toString n ++ ": " ++ m ∧
        (JsError.analyzer m (some n)).line = some n) ∧
    (∀ (token role : String) (line : Nat) (e : JsError),
        V1.parseRegisterOperand token role line = .error e →
        ∃ m, e = .analyzer m (some line)) ∧
    (∀ (token : String) (n : Nat) (e : JsError),
        parseMachineWord token n = .error e →
        ∃ m, e = .analyzer m (some n)) ∧
    V1.assemble "addi wrong, x0, 1" =
      .error (.analyzer "Invalid rd register 'wrong'" (some 1)) ∧
    (JsError.analyzer "Invalid rd register 'wrong'" (some 1)).message =
      "Line 1: Invalid rd register 'wrong'" ∧
    (∃ pre post,
      (JsError.analyzer "Invalid rd register 'wrong'" (some 1)).message =
        pre ++ "Line 1" ++ post) :=
  ⟨fun m n => ⟨analyzerMessageLine m n, rfl⟩,
   fun token role line e h => parseRegisterOperand_line token role line e h,
   fun token n e h => parseMachineWord_line token n e h,
   by rfl, by rfl, ⟨"", ": Invalid rd register 'wrong'", by rfl⟩⟩

theorem C9_witness :
    (∃ m, (JsError.analyzer "Invalid rd register 'wrong'" (some 1) : JsError) =
      .analyzer m (some 1)) ∧
    (∃ m, (JsError.analyzer "Invalid machine word 'zz'" (some 7) : JsError) =
      .analyzer m (some 7)) :=
  ⟨C9_line_in_errors.2.1 "wrong" "rd" 1 _ (by rfl),
   C9_line_in_errors.2.2.1 "zz" 7 _ (by rfl)⟩


theorem hexDigitChar_hex (m : Nat) (hm : m < 16) :
    isLowerHexDigit (hexDigitChar m) = true := by
  interval_cases m <;> decide

theorem hexDigitsRevAux_hex :
    ∀ fuel n c, c ∈ hexDigitsRevAux fuel n → isLowerHexDigit c = true := by
  intro fuel
  induction fuel with
  | zero => intro n c hc; simp [hexDigitsRevAux] at hc
  | succ f ih =>
      intro n c hc
      unfold hexDigitsRevAux at hc
      by_cases hn : n = 0
      · simp [hn] at hc
      · rw [if_neg hn] at hc
        rcases List.mem_cons.mp hc with rfl | hc
        · exact hexDigitChar_hex _ (Nat.mod_lt _ (by norm_num))
        · exact ih _ _ hc

theorem hexDigitsRevAux_length_le :
    ∀ fuel k n, n < 16 ^ k → (hexDigitsRevAux fuel n).length ≤ k := by
  intro fuel
  induction fuel with
  | zero => intro k n h; simp [hexDigitsRevAux]
  | succ f ih =>
      intro k n h
      unfold hexDigitsRevAux
      by_cases hn : n = 0
      · simp [hn]
      · rw [if_neg hn]
        cases k with
        | zero => exact absurd (by omega : n = 0) hn
        | succ k2 =>
            simp only [List.length_cons]
            have hdiv : n / 16 < 16 ^ k2 := by
              apply Nat.div_lt_of_lt_mul
              rw [pow_succ] at h
              omega
            exact Nat.succ_le_succ (ih k2 (n / 16) hdiv)

theorem natToHexStr_toList (n : Nat) (hn : n < 4294967296) :
    (natToHexStr n).toList.length ≤ 8 ∧
    ∀ c ∈ (natToHexStr n).toList, isLowerHexDigit c = true := by
  unfold natToHexStr
  by_cases h0 : n = 0
  · rw [if_pos h0]
    exact ⟨by decide, by decide⟩
  · rw [if_neg h0]
    constructor
    · show (hexDigitsRev n).reverse.length ≤ 8
      rw [List.length_reverse]
      exact hexDigitsRevAux_length_le 12 8 n (by norm_num; omega)
    · intro c hc
      exact hexDigitsRevAux_hex 12 n c (List.mem_reverse.mp hc)

theorem formatHex_format (v : Int) :
    (formatHex v).toList.length = 10 ∧
    (formatHex v).toList.take 2 = ['0', 'x'] ∧
    ∀ c ∈ (formatHex v).toList.drop 2, isLowerHexDigit c = true := by
  obtain ⟨hlen, hchars⟩ := natToHexStr_toList (toUint32 v) (toUint32_lt v)
  have hform : (formatHex v).toList =
      '0' :: 'x' :: (List.replicate (8 - (natToHexStr (toUint32 v)).toList.length) '0' ++
        (natToHexStr (toUint32 v)).toList) := rfl
  rw [hform]
  refine ⟨?_, rfl, ?_⟩
  · simp only [List.length_cons, List.length_append, List.length_replicate]
    omega
  · intro c hc
    simp only [List.drop] at hc
    rcases List.mem_append.mp hc with hc | hc
    · rw [List.eq_of_mem_replicate hc]
      decide
    · exact hchars c hc

theorem assembleLines_nil : V1.assembleLines [] = .ok [] := rfl

theorem assembleLines_cons (p : Nat × String) (rest : List (Nat × String)) :
    V1.assembleLines (p :: rest) =
      if jsTrim (stripComment p.2) = "" then V1.assembleLines rest
      else
        Except.bind (parseLine (stripComment p.2) (p.1 + 1)) (fun mo =>
          Except.bind (V1.assembleInstruction mo.1 mo.2 (p.1 + 1)) (fun word =>
            Except.bind (V1.assembleLines rest) (fun others =>
              .ok (toUint32 word :: others)))) := rfl

theorem assembleLines_count :
    ∀ (enumLines : List (Nat × String)) (words : List Nat),
      V1.assembleLines enumLines = .ok words →
      words.length =
        (enumLines.filter (fun p => jsTrim (stripComment p.2) ≠ "")).length := by
  intro enumLines
  induction enumLines with
  | nil =>
      intro words h
      rw [assembleLines_nil] at h
      cases h
      rfl
  | cons p rest ih =>
      intro words h
      rw [assembleLines_cons] at h
      by_cases hb : jsTrim (stripComment p.2) = ""
      · rw [if_pos hb] at h
        rw [List.filter_cons_of_neg (by simp [hb])]
        exact ih words h
      · rw [if_neg hb] at h
        cases hp : parseLine (stripComment p.2) (p.1 + 1) with
        | error e => rw [hp] at h; cases h
        | ok mo =>
            rw [hp] at h
            simp only [Except.bind] at h
            cases hw : V1.assembleInstruction mo.1 mo.2 (p.1 + 1) with
            | error e => rw [hw] at h; cases h
            | ok word =>
                rw [hw] at h
                simp only [Except.bind] at h
                cases hr : V1.assembleLines rest with
                | error e => rw [hr] at h; cases h
                | ok others =>
                    rw [hr] at h
                    simp only [Except.bind] at h
                    cases h
                    rw [List.filter_cons_of_pos (by simp [hb])]
                    simp [ih others hr]

theorem assemble_is_formatHex_join (source : String) (words : List Nat)
    (h : V1.assembleCore source = .ok words) :
    V1.assemble source =
      .ok (String.intercalate "\n" (words.map (fun w => formatHex (w : Int)))) := by
  unfold V1.assemble
  simp only [bind, pure, h, Except.bind, Except.pure]

/-- C7: for sources the standalone assembler accepts, the output is the
newline-join of the hexadecimal renderings of the produced machine words.
(1) A successful `assemble` returns exactly the "\n"-join of
`formatHex` applied to the words of `assembleCore`, in order; (2) the
word list holds exactly one word per non-blank comment-stripped input
line, in input order; (3) `formatHex` always renders 10 characters:
"0x" followed by exactly 8 zero-padded lowercase hexadecimal digits;
(4) the three-line example program assembles to exactly
"0x00100093\n0x002081b3\n0x00302023". -/
theorem C7_hex_output :
    (∀ (source : String) (words : List Nat),
        V1.assembleCore source = .ok words →
        V1.assemble source =
          .ok (String.intercalate "\n" (words.map (fun w => formatHex (w : Int))))) ∧
    (∀ (enumLines : List (Nat × String)) (words : List Nat),
        V1.assembleLines enumLines = .ok words →
        words.length =
          (enumLines.filter (fun p => jsTrim (stripComment p.2) ≠ "")).length) ∧
    (∀ v : Int,
        (formatHex v).toList.length = 10 ∧
        (formatHex v).toList.take 2 = ['0', 'x'] ∧
        ∀ c ∈ (formatHex v).toList.drop 2, isLowerHexDigit c = true) ∧
    V1.assemble "addi x1, x0, 1\nadd x3, x1, x2\nsw x3, 0(x0)" =
      .ok "0x00100093\n0x002081b3\n0x00302023" :=
  ⟨fun source words h => assemble_is_formatHex_join source words h,
   fun enumLines words h => assembleLines_count enumLines words h,
   fun v => formatHex_format v,
   by rfl⟩

theorem C7_witness :
    V1.assemble "addi x1, x0, 1" =
      .ok (String.intercalate "\n" (([1048723] : List Nat).map
        (fun w => formatHex (w : Int)))) ∧
    ([1048723] : List Nat).length =
      (([(0, "addi x1, x0, 1"), (1, "")] : List (Nat × String)).filter
        (fun p => jsTrim (stripComment p.2) ≠ "")).length :=
  ⟨C7_hex_output.1 "addi x1, x0, 1" [1048723] (by rfl),
   C7_hex_output.2.1 [(0, "addi x1, x0, 1"), (1, "")] [1048723] (by rfl)⟩

theorem except_bind_ok {α β : Type} (x : Except JsError α) (f : α → Except JsError β)
    (b : β) (h : Except.bind x f = .ok b) : ∃ v, x = .ok v ∧ f v = .ok b := by
  cases x with
  | error e =>
      simp only [Except.bind] at h
      cases h
  | ok v => exact ⟨v, rfl, by simpa only [Except.bind] using h⟩

theorem ensureSupportedXlen_auto (detected : Nat) (spec : InstructionSpec) (line : Nat)
    (d2 : Nat) (h : Full.ensureSupportedXlen .auto detected spec line = .ok d2) :
    d2 = max detected (minXlenD spec) := by
  unfold Full.ensureSupportedXlen at h
  cases h
  split <;> omega

theorem ensureSupportedXlen_fixed (m : Nat) (detected : Nat) (spec : InstructionSpec)
    (line : Nat) (d2 : Nat)
    (h : Full.ensureSupportedXlen (.fixed m) detected spec line = .ok d2) :
    d2 = detected := by
  unfold Full.ensureSupportedXlen at h
  dsimp only at h
  split at h
  · cases h
  · cases h
    rfl

theorem assembleSingle_auto (detected : Nat) (emb : Bool) (spec : InstructionSpec)
    (operands : List String) (line : Nat) (w : Int) (d : Nat)
    (h : Full.assembleSingle .auto detected emb spec operands line = .ok (w, d)) :
    d = max detected (minXlenD spec) := by
  unfold Full.assembleSingle at h
  simp only [bind, pure] at h
  rcases except_bind_ok _ _ _ h with ⟨d2, hd2, h2⟩
  rcases except_bind_ok _ _ _ h2 with ⟨word, hw, h3⟩
  cases h3
  exact ensureSupportedXlen_auto detected spec line _ hd2

theorem assembleSingle_fixed (m : Nat) (detected : Nat) (emb : Bool)
    (spec : InstructionSpec) (operands : List String) (line : Nat) (w : Int) (d : Nat)
    (h : Full.assembleSingle (.fixed m) detected emb spec operands line = .ok (w, d)) :
    d = detected := by
  unfold Full.assembleSingle at h
  simp only [bind, pure] at h
  rcases except_bind_ok _ _ _ h with ⟨d2, hd2, h2⟩
  rcases except_bind_ok _ _ _ h2 with ⟨word, hw, h3⟩
  cases h3
  exact ensureSupportedXlen_fixed m detected spec line _ hd2

theorem assembleSingle_le (mode : XLenMode) (detected : Nat) (emb : Bool)
    (spec : InstructionSpec) (operands : List String) (line : Nat) (w : Int) (d : Nat)
    (h : Full.assembleSingle mode detected emb spec operands line = .ok (w, d)) :
    detected ≤ d := by
  cases mode with
  | auto =>
      rw [assembleSingle_auto detected emb spec operands line w d h]
      omega
  | fixed m =>
      rw [assembleSingle_fixed m detected emb spec operands line w d h]

theorem assembleExpanded_nil (mode : XLenMode) (d : Nat) (emb : Bool) (mn : String)
    (line : Nat) : Full.assembleExpanded mode d emb mn [] line = .ok ([], d) := rfl

theorem assembleExpanded_cons (mode : XLenMode) (d : Nat) (emb : Bool) (mn : String)
    (inst : String × List String) (rest : List (String × List String)) (line : Nat) :
    Full.assembleExpanded mode d emb mn (inst :: rest) line =
      match instructionsByName inst.1 with
      | none =>
          .error (.analyzer
            s!"Internal error expanding pseudo '{mn}' -> '{inst.1}'" (some line))
      | some innerSpec =>
          Except.bind (Full.assembleSingle mode d emb innerSpec inst.2 line) (fun pr =>
            Except.bind (Full.assembleExpanded mode pr.2 emb mn rest line) (fun pr2 =>
              .ok (toUint32 pr.1 :: pr2.1, pr2.2))) := rfl

theorem assembleExpanded_mono :
    ∀ (insts : List (String × List String)) (mode : XLenMode) (d : Nat) (emb : Bool)
      (mn : String) (line : Nat) (words : List Nat) (dfin : Nat),
      Full.assembleExpanded mode d emb mn insts line = .ok (words, dfin) → d ≤ dfin := by
  intro insts
  induction insts with
  | nil =>
      intro mode d emb mn line words dfin h
      rw [assembleExpanded_nil] at h
      cases h
      exact Nat.le_refl d
  | cons inst rest ih =>
      intro mode d emb mn line words dfin h
      rw [assembleExpanded_cons] at h
      cases hn : instructionsByName inst.1 with
      | none => rw [hn] at h; cases h
      | some innerSpec =>
          rw [hn] at h
          rcases except_bind_ok _ _ _ h with ⟨pr, hs, h2⟩
          rcases except_bind_ok _ _ _ h2 with ⟨pr2, hr, h3⟩
          cases h3
          calc d ≤ pr.2 :=
                assembleSingle_le mode d emb innerSpec inst.2 line pr.1 pr.2 (by rw [← hs])
            _ ≤ pr2.2 := ih mode pr.2 emb mn line pr2.1 pr2.2 (by rw [← hr])

theorem assembleExpanded_fixed :
    ∀ (insts : List (String × List String)) (m : Nat) (d : Nat) (emb : Bool)
      (mn : String) (line : Nat) (words : List Nat) (dfin : Nat),
      Full.assembleExpanded (.fixed m) d emb mn insts line = .ok (words, dfin) →
      dfin = d := by
  intro insts
  induction insts with
  | nil =>
      intro m d emb mn line words dfin h
      rw [assembleExpanded_nil] at h
      cases h
      rfl
  | cons inst rest ih =>
      intro m d emb mn line words dfin h
      rw [assembleExpanded_cons] at h
      cases hn : instructionsByName inst.1 with
      | none => rw [hn] at h; cases h
      | some innerSpec =>
          rw [hn] at h
          rcases except_bind_ok _ _ _ h with ⟨pr, hs, h2⟩
          rcases except_bind_ok _ _ _ h2 with ⟨pr2, hr, h3⟩
          cases h3
          have h5 : pr.2 = d :=
            assembleSingle_fixed m d emb innerSpec inst.2 line pr.1 pr.2 (by rw [← hs])
          rw [ih m pr.2 emb mn line pr2.1 pr2.2 (by rw [← hr]), h5]

theorem assembleInstructionOrPseudo_mono (mode : XLenMode) (detected : Nat) (emb : Bool)
    (mnemonic : String) (operands : List String) (line : Nat) (produced : List Nat)
    (d2 : Nat)
    (h : Full.assembleInstructionOrPseudo mode detected emb mnemonic operands line =
      .ok (produced, d2)) : detected ≤ d2 := by
  unfold Full.assembleInstructionOrPseudo at h
  cases hn : instructionsByName mnemonic with
  | some spec =>
      rw [hn] at h
      simp only [bind, pure] at h
      rcases except_bind_ok _ _ _ h with ⟨pr, hs, h2⟩
      cases h2
      exact assembleSingle_le mode detected emb spec operands line pr.1 pr.2 (by rw [← hs])
  | none =>
      rw [hn] at h
      simp only [bind, pure, throw, throwThe, MonadExceptOf.throw] at h
      rcases except_bind_ok _ _ _ h with ⟨expanded, hx, h2⟩
      cases expanded with
      | none => simp only at h2; cases h2
      | some insts =>
          simp only at h2
          exact assembleExpanded_mono insts mode detected emb mnemonic line produced d2 h2

theorem assembleInstructionOrPseudo_fixed (m : Nat) (detected : Nat) (emb : Bool)
    (mnemonic : String) (operands : List String) (line : Nat) (produced : List Nat)
    (d2 : Nat)
    (h : Full.assembleInstructionOrPseudo (.fixed m) detected emb mnemonic operands line =
      .ok (produced, d2)) : d2 = detected := by
  unfold Full.assembleInstructionOrPseudo at h
  cases hn : instructionsByName mnemonic with
  | some spec =>
      rw [hn] at h
      simp only [bind, pure] at h
      rcases except_bind_ok _ _ _ h with ⟨pr, hs, h2⟩
      cases h2
      exact assembleSingle_fixed m detected emb spec operands line pr.1 pr.2 (by rw [← hs])
  | none =>
      rw [hn] at h
      simp only [bind, pure, throw, throwThe, MonadExceptOf.throw] at h
      rcases except_bind_ok _ _ _ h with ⟨expanded, hx, h2⟩
      cases expanded with
      | none => simp only at h2; cases h2
      | some insts =>
          simp only at h2
          exact assembleExpanded_fixed insts m detected emb mnemonic line produced d2 h2

theorem asmLoop_nil (mode : XLenMode) (emb : Bool) (d : Nat) :
    Full.asmLoop mode emb d [] = .ok ([], d) := rfl

theorem asmLoop_cons (mode : XLenMode) (emb : Bool) (d : Nat) (p : Nat × String)
    (rest : List (Nat × String)) :
    Full.asmLoop mode emb d (p :: rest) =
      if jsTrim (stripComment p.2) = "" then Full.asmLoop mode emb d rest
      else
        Except.bind (parseLine (stripComment p.2) (p.1 + 1)) (fun mo =>
          Except.bind (Full.assembleInstructionOrPseudo mode d emb mo.1 mo.2 (p.1 + 1))
            (fun pr =>
              Except.bind (Full.asmLoop mode emb pr.2 rest) (fun pr2 =>
                .ok (pr.1 ++ pr2.1, pr2.2)))) := rfl

theorem asmLoop_mono (mode : XLenMode) (emb : Bool) :
    ∀ (enumLines : List (Nat × String)) (d : Nat) (words : List Nat) (dfin : Nat),
      Full.asmLoop mode emb d enumLines = .ok (words, dfin) → d ≤ dfin := by
  intro enumLines
  induction enumLines with
  | nil =>
      intro d words dfin h
      cases h
      exact Nat.le_refl d
  | cons p rest ih =>
      intro d words dfin h
      rw [asmLoop_cons] at h
      by_cases hb : jsTrim (stripComment p.2) = ""
      · rw [if_pos hb] at h
        exact ih d words dfin h
      · rw [if_neg hb] at h
        rcases except_bind_ok _ _ _ h with ⟨mo, hm, h2⟩
        rcases except_bind_ok _ _ _ h2 with ⟨pr, hs, h3⟩
        rcases except_bind_ok _ _ _ h3 with ⟨pr2, hr, h4⟩
        cases h4
        calc d ≤ pr.2 :=
              assembleInstructionOrPseudo_mono mode d emb mo.1 mo.2 (p.1 + 1) pr.1 pr.2
                (by rw [← hs])
          _ ≤ pr2.2 := ih pr.2 pr2.1 pr2.2 (by rw [← hr])

theorem asmLoop_fixed_detected (m : Nat) (emb : Bool) :
    ∀ (enumLines : List (Nat × String)) (d : Nat) (words : List Nat) (dfin : Nat),
      Full.asmLoop (.fixed m) emb d enumLines = .ok (words, dfin) → dfin = d := by
  intro enumLines
  induction enumLines with
  | nil =>
      intro d words dfin h
      cases h
      rfl
  | cons p rest ih =>
      intro d words dfin h
      rw [asmLoop_cons] at h
      by_cases hb : jsTrim (stripComment p.2) = ""
      · rw [if_pos hb] at h
        exact ih d words dfin h
      · rw [if_neg hb] at h
        rcases except_bind_ok _ _ _ h with ⟨mo, hm, h2⟩
        rcases except_bind_ok _ _ _ h2 with ⟨pr, hs, h3⟩
        rcases except_bind_ok _ _ _ h3 with ⟨pr2, hr, h4⟩
        cases h4
        have h5 : pr.2 = d := by
          have := assembleInstructionOrPseudo_fixed m d emb mo.1 mo.2 (p.1 + 1) pr.1 pr.2
            (by rw [← hs])
          exact this
        rw [ih pr.2 pr2.1 pr2.2 (by rw [← hr]), h5]

theorem assembleCore_fixed (m : Nat) (emb : Bool) (source : String)
    (words : List Nat) (dfin : Nat)
    (h : Full.assembleCore (.fixed m) emb source = .ok (words, dfin)) : dfin = m := by
  unfold Full.assembleCore at h
  simp only [bind, pure] at h
  rcases except_bind_ok _ _ _ h with ⟨pr, hl, h2⟩
  cases h2
  rfl

theorem recordInstruction_le (mode : XLenMode) (detected : Nat) (spec : InstructionSpec) :
    detected ≤ recordInstruction mode detected spec := by
  cases mode <;> simp only [recordInstruction] <;> try omega
  split <;> omega

theorem recordInstruction_auto (detected : Nat) (spec : InstructionSpec) :
    recordInstruction .auto detected spec = max detected (minXlenD spec) := by
  simp only [recordInstruction]
  split <;> omega

theorem disassembleWord_detected (mode : XLenMode) (detected : Nat) (base : NumberBase)
    (w l : Nat) (s : String) (d : Nat)
    (h : disassembleWord mode detected base w l = .ok (s, d)) :
    ∃ spec, (if jsAnd (w : Int) 3 ≠ 3 then selectCompressedSpec mode w l
        else selectSpec mode w l) = .ok spec ∧
      d = recordInstruction mode detected spec := by
  unfold disassembleWord at h
  by_cases hr : jsAnd (w : Int) 3 ≠ 3
  · rw [if_pos hr] at h
    rw [if_pos hr]
    unfold disassembleCompressedWord at h
    simp only [bind, pure] at h
    rcases except_bind_ok _ _ _ h with ⟨spec, hs, h2⟩
    rcases except_bind_ok _ _ _ h2 with ⟨text, ht, h3⟩
    cases h3
    exact ⟨spec, hs, rfl⟩
  · rw [if_neg hr] at h
    rw [if_neg hr]
    unfold standardDecodeWord at h
    simp only [bind, pure] at h
    rcases except_bind_ok _ _ _ h with ⟨spec, hs, h2⟩
    rcases except_bind_ok _ _ _ h2 with ⟨text, ht, h3⟩
    cases h3
    exact ⟨spec, hs, rfl⟩

theorem disasmLoop_detected_mono (mode : XLenMode) (base : NumberBase) :
    ∀ (toks : List MachineWordToken) (d : Nat) (lines : List String) (dfin : Nat),
      disasmLoop mode base d toks = .ok (lines, dfin) → d ≤ dfin := by
  intro toks
  induction toks with
  | nil =>
      intro d lines dfin h
      cases h
      exact Nat.le_refl d
  | cons t rest ih =>
      intro d lines dfin h
      rw [disasmLoop_cons] at h
      rcases except_bind_ok _ _ _ h with ⟨pr, hw, h2⟩
      rcases except_bind_ok _ _ _ h2 with ⟨pr2, hl, h3⟩
      cases h3
      obtain ⟨spec, -, hd⟩ :=
        disassembleWord_detected mode d base t.value t.line pr.1 pr.2
          (by rw [← hw])
      calc d ≤ pr.2 := hd ▸ recordInstruction_le mode d spec
        _ ≤ pr2.2 := ih pr.2 pr2.1 pr2.2 (by rw [← hl])

theorem disasmLoop_fixed_detected (m : Nat) (base : NumberBase) :
    ∀ (toks : List MachineWordToken) (d : Nat) (lines : List String) (dfin : Nat),
      disasmLoop (.fixed m) base d toks = .ok (lines, dfin) → dfin = d := by
  intro toks
  induction toks with
  | nil =>
      intro d lines dfin h
      cases h
      rfl
  | cons t rest ih =>
      intro d lines dfin h
      rw [disasmLoop_cons] at h
      rcases except_bind_ok _ _ _ h with ⟨pr, hw, h2⟩
      rcases except_bind_ok _ _ _ h2 with ⟨pr2, hl, h3⟩
      cases h3
      obtain ⟨spec, -, hd⟩ :=
        disassembleWord_detected (.fixed m) d base t.value t.line pr.1 pr.2
          (by rw [← hw])
      have h5 : pr.2 = d := hd
      rw [ih pr.2 pr2.1 pr2.2 (by rw [← hl]), h5]

theorem disasmLoop_auto_fold (base : NumberBase) :
    ∀ (toks : List MachineWordToken) (d : Nat) (lines : List String) (dfin : Nat),
      disasmLoop .auto base d toks = .ok (lines, dfin) →
      dfin = toks.foldl (fun acc t =>
        match (if jsAnd (t.value : Int) 3 ≠ 3 then selectCompressedSpec .auto t.value t.line
            else selectSpec .auto t.value t.line) with
        | .ok spec => max acc (minXlenD spec)
        | .error _ => acc) d := by
  intro toks
  induction toks with
  | nil =>
      intro d lines dfin h
      cases h
      rfl
  | cons t rest ih =>
      intro d lines dfin h
      rw [disasmLoop_cons] at h
      rcases except_bind_ok _ _ _ h with ⟨pr, hw, h2⟩
      rcases except_bind_ok _ _ _ h2 with ⟨pr2, hl, h3⟩
      cases h3
      obtain ⟨spec, hsel, hd⟩ :=
        disassembleWord_detected .auto d base t.value t.line pr.1 pr.2
          (by rw [← hw])
      rw [List.foldl_cons, hsel]
      rw [ih pr.2 pr2.1 pr2.2 (by rw [← hl]), hd, recordInstruction_auto]

theorem disassembleTokens_fixed (m : Nat) (base : NumberBase)
    (toks : List MachineWordToken) (lines : List String) (dfin : Nat)
    (h : disassembleTokens (.fixed m) base toks = .ok (lines, dfin)) : dfin = m := by
  unfold disassembleTokens at h
  simp only [bind, pure] at h
  rcases except_bind_ok _ _ _ h with ⟨pr, hl, h2⟩
  cases h2
  rfl

theorem disassembleTokens_auto_fold (base : NumberBase)
    (toks : List MachineWordToken) (lines : List String) (dfin : Nat)
    (h : disassembleTokens .auto base toks = .ok (lines, dfin)) :
    dfin = toks.foldl (fun acc t =>
      match (if jsAnd (t.value : Int) 3 ≠ 3 then selectCompressedSpec .auto t.value t.line
          else selectSpec .auto t.value t.line) with
      | .ok spec => max acc (minXlenD spec)
      | .error _ => acc) 32 := by
  unfold disassembleTokens at h
  simp only [bind, pure] at h
  rcases except_bind_ok _ _ _ h with ⟨pr, hl, h2⟩
  cases h2
  exact disasmLoop_auto_fold base toks 32 pr.1 pr.2 (by rw [← hl])

/-- C5: the detected-XLEN accumulator. (1) In auto mode the disassembler's
final detectedXlen is the left fold, starting from 32, of max with the
minXlen (default 32) of the spec selected for each token — i.e. the
maximum minXlen over the instruction specs actually used, and 32 when no
used spec requires more; (2) the disassembler's running accumulator never
decreases while processing; (3) in fixed mode the disassembler always
reports the fixed XLEN; (4) each auto-mode assembly step raises the
accumulator to exactly max of its previous value and the spec's minXlen;
(5) the assembler's running accumulator never decreases; (6) in fixed
mode the assembler always reports the fixed XLEN. -/
theorem C5_detected_xlen_accumulation :
    (∀ (base : NumberBase) (tokens : List MachineWordToken) (lines : List String)
        (dfin : Nat),
        disassembleTokens .auto base tokens = .ok (lines, dfin) →
        dfin = tokens.foldl (fun acc t =>
          match (if jsAnd (t.value : Int) 3 ≠ 3 then selectCompressedSpec .auto t.value t.line
              else selectSpec .auto t.value t.line) with
          | .ok spec => max acc (minXlenD spec)
          | .error _ => acc) 32) ∧
    (∀ (mode : XLenMode) (base : NumberBase) (tokens : List MachineWordToken) (d : Nat)
        (lines : List String) (dfin : Nat),
        disasmLoop mode base d tokens = .ok (lines, dfin) → d ≤ dfin) ∧
    (∀ (m : Nat) (base : NumberBase) (tokens : List MachineWordToken)
        (lines : List String) (dfin : Nat),
        disassembleTokens (.fixed m) base tokens = .ok (lines, dfin) → dfin = m) ∧
    (∀ (detected : Nat) (emb : Bool) (spec : InstructionSpec) (operands : List String)
        (line : Nat) (w : Int) (d : Nat),
        Full.assembleSingle .auto detected emb spec operands line = .ok (w, d) →
        d = max detected (minXlenD spec)) ∧
    (∀ (mode : XLenMode) (emb : Bool) (enumLines : List (Nat × String)) (d : Nat)
        (words : List Nat) (dfin : Nat),
        Full.asmLoop mode emb d enumLines = .ok (words, dfin) → d ≤ dfin) ∧
    (∀ (m : Nat) (emb : Bool) (source : String) (words : List Nat) (dfin : Nat),
        Full.assembleCore (.fixed m) emb source = .ok (words, dfin) → dfin = m) :=
  ⟨fun base tokens lines dfin h => disassembleTokens_auto_fold base tokens lines dfin h,
   fun mode base tokens d lines dfin h =>
     disasmLoop_detected_mono mode base tokens d lines dfin h,
   fun m base tokens lines dfin h => disassembleTokens_fixed m base tokens lines dfin h,
   fun detected emb spec operands line w d h =>
     assembleSingle_auto detected emb spec operands line w d h,
   fun mode emb enumLines d words dfin h => asmLoop_mono mode emb enumLines d words dfin h,
   fun m emb source words dfin h => assembleCore_fixed m emb source words dfin h⟩

theorem C5_witness :
    (32 : Nat) = ([({ value := 1048723, line := 1 } : MachineWordToken)].foldl
      (fun acc t =>
        match (if jsAnd (t.value : Int) 3 ≠ 3 then selectCompressedSpec .auto t.value t.line
            else selectSpec .auto t.value t.line) with
        | .ok spec => max acc (minXlenD spec)
        | .error _ => acc) 32) ∧
    (64 : Nat) = 64 :=
  ⟨C5_detected_xlen_accumulation.1 .dec [{ value := 1048723, line := 1 }]
      ["addi x1, x0, 1"] 32 (by rfl),
   C5_detected_xlen_accumulation.2.2.2.2.2 64 false "addi x1, x0, 1" [1048723] 64 (by rfl)⟩

theorem mem_insertByXlenDesc (x y : InstructionSpec) :
    ∀ (l : List InstructionSpec), x ∈ insertByXlenDesc y l → x = y ∨ x ∈ l := by
  intro l
  induction l with
  | nil =>
      intro h
      simp [insertByXlenDesc] at h
      exact Or.inl h
  | cons z zs ih =>
      intro h
      unfold insertByXlenDesc at h
      split at h
      · rcases List.mem_cons.mp h with rfl | h2
        · exact Or.inl rfl
        · exact Or.inr h2
      · rcases List.mem_cons.mp h with rfl | h2
        · exact Or.inr (List.mem_cons_self x zs)
        · rcases ih h2 with h3 | h3
          · exact Or.inl h3
          · exact Or.inr (List.mem_cons_of_mem z h3)

theorem mem_sortByXlenDesc_aux (x : InstructionSpec) :
    ∀ (l acc : List InstructionSpec),
      x ∈ l.foldl (fun acc y => insertByXlenDesc y acc) acc → x ∈ acc ∨ x ∈ l := by
  intro l
  induction l with
  | nil => intro acc h; exact Or.inl h
  | cons z zs ih =>
      intro acc h
      simp only [List.foldl_cons] at h
      rcases ih (insertByXlenDesc z acc) h with h2 | h2
      · rcases mem_insertByXlenDesc x z acc h2 with h3 | h3
        · exact Or.inr (h3 ▸ List.mem_cons_self z zs)
        · exact Or.inl h3
      · exact Or.inr (List.mem_cons_of_mem z h2)

theorem mem_sortByXlenDesc (x : InstructionSpec) (l : List InstructionSpec)
    (h : x ∈ sortByXlenDesc l) : x ∈ l := by
  unfold sortByXlenDesc at h
  rcases mem_sortByXlenDesc_aux x l [] h with h2 | h2
  · cases h2
  · exact h2

theorem selectSpec_sound (mode : XLenMode) (w l : Nat) (spec : InstructionSpec)
    (h : selectSpec mode w l = .ok spec) :
    spec ∈ instructionsByOpcode (toUint32 (jsAnd (w : Int) 127)) ∧
    isInstructionAllowed mode spec = true ∧
    matchesSpec spec w = true := by
  unfold selectSpec at h
  dsimp only at h
  split at h
  · cases h
  · split at h
    · cases mode with
      | auto => cases h
      | fixed m => cases h
    · cases hf : (sortByXlenDesc
          ((instructionsByOpcode (toUint32 (jsAnd (w : Int) 127))).filter
            (isInstructionAllowed mode))).find? (fun c => matchesSpec c w) with
      | none => rw [hf] at h; cases h
      | some c =>
          rw [hf] at h
          cases h
          have hmem := List.mem_of_find?_eq_some hf
          have hmatch := List.find?_some hf
          have hmem2 := mem_sortByXlenDesc _ _ hmem
          exact ⟨List.mem_of_mem_filter hmem2, List.of_mem_filter hmem2, hmatch⟩

/-- C3 (amended): the matcher does not fail on ambiguity; it deterministically
returns the first matching candidate of the stable descending-minXlen sort
of the legal candidates. (1) Soundness: a returned spec always belongs to
the word's opcode group, is legal at the active XLEN, and matches the
word's fields; (2) for the ambiguous word 0x00002083 (both `lw` and `lq`
match) at XLEN 128 the matcher silently returns the `lq` spec. -/
theorem C3_matcher_selection :
    (∀ (mode : XLenMode) (w l : Nat) (spec : InstructionSpec),
        selectSpec mode w l = .ok spec →
        spec ∈ instructionsByOpcode (toUint32 (jsAnd (w : Int) 127)) ∧
        isInstructionAllowed mode spec = true ∧
        matchesSpec spec w = true) ∧
    (∃ spec, selectSpec (.fixed 128) 8323 1 = .ok spec ∧ spec.name = "lq") :=
  ⟨fun mode w l spec h => selectSpec_sound mode w l spec h,
   ⟨_, by rfl, by rfl⟩⟩

theorem C3_lw_lq_ambiguity :
    ((instructionsByOpcode 3).filter
        (fun s => isInstructionAllowed (.fixed 128) s && matchesSpec s 8323)).map
      (fun s => s.name) = ["lw", "lq"] ∧
    disassembleWord (.fixed 128) 128 .dec 8323 1 = .ok ("lq x1, 0(x0)", 128) :=
  ⟨by rfl, by rfl⟩

theorem C3_witness :
    ∃ spec, spec ∈ instructionsByOpcode (toUint32 (jsAnd ((8323 : Nat) : Int) 127)) ∧
      isInstructionAllowed (.fixed 128) spec = true ∧ matchesSpec spec 8323 = true :=
  ⟨_, C3_matcher_selection.1 (.fixed 128) 8323 1 _ (by rfl)⟩

theorem assembleSingle_xlen32_error (detected : Nat) (emb : Bool)
    (spec : InstructionSpec) (operands : List String) (line : Nat)
    (hx : minXlenD spec > 32) :
    Full.assembleSingle (.fixed 32) detected emb spec operands line =
      .error (.analyzer
        (s!"Instruction '{spec.name}' requires XLEN " ++ "â‰¥" ++
          s!" {minXlenD spec}, but current mode is XLEN={(32 : Nat)}")
        (some line)) := by
  unfold Full.assembleSingle Full.ensureSupportedXlen
  simp only [bind]
  rw [if_pos hx]
  simp only [Except.bind]

/-- C4 (amended): RV64-only instructions at XLEN fixed to 32. (1) Assembling
any spec whose minimum XLEN exceeds 32 always fails with the
XLEN-requirement error naming the spec and its requirement, producing no
word; (2) concretely, assembling "addw x1, x2, x3" at XLEN 32 fails
naming XLEN 64; (3) disassembling the `addw` encoding 0x0030813b at XLEN
32 fails naming XLEN 64. (The decode side is not universally safe: see
the counterexample.) -/
theorem C4_rv64_only_at_32 :
    (∀ (detected : Nat) (emb : Bool) (spec : InstructionSpec)
        (operands : List String) (line : Nat),
        minXlenD spec > 32 →
        Full.assembleSingle (.fixed 32) detected emb spec operands line =
          .error (.analyzer
            (s!"Instruction '{spec.name}' requires XLEN " ++ "â‰¥" ++
              s!" {minXlenD spec}, but current mode is XLEN={(32 : Nat)}")
            (some line))) ∧
    Full.assembleCore (.fixed 32) false "addw x1, x2, x3" =
      .error (.analyzer
        "Instruction 'addw' requires XLEN â‰¥ 64, but current mode is XLEN=32"
        (some 1)) ∧
    disassembleWord (.fixed 32) 32 .dec 3211451 1 =
      .error (.analyzer
        "Instruction requires XLEN ≥ 64, but current mode is XLEN=32"
        (some 1)) :=
  ⟨fun detected emb spec operands line hx =>
      assembleSingle_xlen32_error detected emb spec operands line hx,
   by rfl, by rfl⟩

theorem C4_counterexample :
    ∃ spec, instructionsByName "fcvt.l.d" = some spec ∧
      minXlenD spec = 64 ∧ matchesSpec spec 3254853843 = true ∧
      disassembleWord (.fixed 32) 32 .dec 3254853843 1 =
        .ok ("feq.s x1, f2, f0", 32) :=
  ⟨_, rfl, by rfl, by rfl, by rfl⟩

theorem C4_witness :
    ∃ spec, instructionsByName "addw" = some spec ∧
      Full.assembleSingle (.fixed 32) 32 false spec ["x1", "x2", "x3"] 1 =
        .error (.analyzer
          (s!"Instruction '{spec.name}' requires XLEN " ++ "â‰¥" ++
            s!" {minXlenD spec}, but current mode is XLEN={(32 : Nat)}")
          (some 1)) := by
  refine ⟨_, rfl, ?_⟩
  exact C4_rv64_only_at_32.1 32 false _ ["x1", "x2", "x3"] 1 (by decide)

set_option maxRecDepth 10000 in
theorem c1_word_shape_aux (iv rdv rs1v : Nat) (hiv : iv < 4096) (hrd : rdv < 32)
    (hrs : rs1v < 32) :
    toUint32 (jsOr (jsOr (jsOr (jsOr
        (jsShl ((iv : Nat) : Int) 20)
        (jsShl ((rs1v : Nat) : Int) 15))
        0)
        (jsShl ((rdv : Nat) : Int) 7))
        19) =
      iv * 1048576 + rs1v * 32768 + rdv * 128 + 19 := by
  have sImm : toUint32 (jsShl ((iv : Nat) : Int) 20) = iv * 1048576 := by
    have h := toUint32_jsShl ((iv : Nat) : Int) 20 (by omega)
    rw [toUint32_natCast iv (by omega)] at h
    rw [Nat.shiftLeft_eq] at h
    rw [show ((20 : Nat) : Int) = (20 : Int) from by norm_num] at h
    rw [h]
    apply Nat.mod_eq_of_lt
    norm_num
    omega
  have sRs : toUint32 (jsShl ((rs1v : Nat) : Int) 15) = rs1v * 32768 := by
    have h := toUint32_jsShl ((rs1v : Nat) : Int) 15 (by omega)
    rw [toUint32_natCast rs1v (by omega)] at h
    rw [Nat.shiftLeft_eq] at h
    rw [show ((15 : Nat) : Int) = (15 : Int) from by norm_num] at h
    rw [h]
    apply Nat.mod_eq_of_lt
    norm_num
    omega
  have sRd : toUint32 (jsShl ((rdv : Nat) : Int) 7) = rdv * 128 := by
    have h := toUint32_jsShl ((rdv : Nat) : Int) 7 (by omega)
    rw [toUint32_natCast rdv (by omega)] at h
    rw [Nat.shiftLeft_eq] at h
    rw [show ((7 : Nat) : Int) = (7 : Int) from by norm_num] at h
    rw [h]
    apply Nat.mod_eq_of_lt
    norm_num
    omega
  rw [toUint32_jsOr, toUint32_jsOr, toUint32_jsOr, toUint32_jsOr]
  rw [sImm, sRs, sRd]
  rw [show toUint32 (0 : Int) = 0 from rfl, show toUint32 (19 : Int) = 19 from rfl]
  rw [Nat.or_zero]
  rw [lor_eq_add_of_lt (iv * 1048576) (rs1v * 32768) 20 (by omega) (by omega)]
  rw [lor_eq_add_of_lt (iv * 1048576 + rs1v * 32768) (rdv * 128) 12 (by omega) (by omega)]
  rw [lor_eq_add_of_lt (iv * 1048576 + rs1v * 32768 + rdv * 128) 19 7 (by omega) (by omega)]

set_option maxRecDepth 10000 in
theorem c1_word_shape (rdv rs1v : Nat) (imm : Int) (hrd : rdv < 32) (hrs : rs1v < 32)
    (h1 : -2048 ≤ imm) (h2 : imm ≤ 2047) :
    toUint32 (jsOr (jsOr (jsOr (jsOr
        (jsShl (jsAnd imm (jsShl 1 ((12 : Nat) : Int) - 1)) 20)
        (jsShl (jsAnd ((rs1v : Nat) : Int) 31) 15))
        (jsShl (jsAnd (((0 : Nat) : Nat) : Int) 7) 12))
        (jsShl (jsAnd ((rdv : Nat) : Int) 31) 7))
        (jsAnd (((19 : Nat) : Nat) : Int) 127)) =
      (imm % 4096).toNat * 1048576 + rs1v * 32768 + rdv * 128 + 19 := by
  have hmask : jsShl 1 ((12 : Nat) : Int) - 1 = 4095 := by decide
  have hiv0 : 0 ≤ imm % 4096 := Int.emod_nonneg imm (by norm_num)
  have hiv1 : imm % 4096 < 4096 := Int.emod_lt_of_pos imm (by norm_num)
  have hivc : ((imm % 4096).toNat : Int) = imm % 4096 := Int.toNat_of_nonneg hiv0
  have himm : jsAnd imm (jsShl 1 ((12 : Nat) : Int) - 1) = ((imm % 4096).toNat : Int) := by
    rw [hmask]
    have := jsAnd_mask imm 12 (by omega)
    norm_num at this
    rw [this, hivc]
  have hrs1 : jsAnd ((rs1v : Nat) : Int) 31 = ((rs1v : Nat) : Int) := by
    have := jsAnd_mask ((rs1v : Nat) : Int) 5 (by omega)
    norm_num at this
    rw [this]
    omega
  have hrd1 : jsAnd ((rdv : Nat) : Int) 31 = ((rdv : Nat) : Int) := by
    have := jsAnd_mask ((rdv : Nat) : Int) 5 (by omega)
    norm_num at this
    rw [this]
    omega
  have hz : jsShl (jsAnd (((0 : Nat) : Nat) : Int) 7) 12 = 0 := by decide
  have h19 : jsAnd (((19 : Nat) : Nat) : Int) 127 = 19 := by decide
  rw [himm, hrs1, hrd1, hz, h19]
  exact c1_word_shape_aux (imm % 4096).toNat rdv rs1v (by omega) hrd hrs


set_option maxRecDepth 10000 in
theorem c1_addi_select (iv rdv rs1v : Nat) (hiv : iv < 4096) (hrd : rdv < 32)
    (hrs : rs1v < 32) (spec : InstructionSpec)
    (hA : instructionsByName "addi" = some spec) :
    selectSpec .auto (iv * 1048576 + rs1v * 32768 + rdv * 128 + 19) 1 = .ok spec := by
  have main : ∀ W : Nat, W = iv * 1048576 + rs1v * 32768 + rdv * 128 + 19 →
      selectSpec .auto W 1 = .ok spec := by
    intro W hW
    have hWlt : W < 4294967296 := by omega
    have hopc : jsAnd ((W : Nat) : Int) 127 = (19 : Int) := by
      have h := jsAnd_mask ((W : Nat) : Int) 7 (by omega)
      norm_num at h
      rw [h]
      have hc : ((W : Nat) : Int) % 128 = ((W % 128 : Nat) : Int) := by push_cast; rfl
      rw [hc, show W % 128 = 19 from by omega]
      norm_num
    have hf3 : spec.funct3 = some 0 := by
      have h : (instructionsByName "addi").map (fun s => s.funct3) = some (some 0) := rfl
      rw [hA] at h
      simpa using h
    have hf7 : spec.funct7 = none := by
      have h : (instructionsByName "addi").map (fun s => s.funct7) = some none := rfl
      rw [hA] at h
      simpa using h
    have hfmt : spec.format = "I" := by
      have h : (instructionsByName "addi").map (fun s => s.format) = some "I" := rfl
      rw [hA] at h
      simpa using h
    have hfx : spec.fixedImmediate = none := by
      have h : (instructionsByName "addi").map (fun s => s.fixedImmediate) = some none := rfl
      rw [hA] at h
      simpa using h
    have hfun3W : jsAnd (jsShr ((W : Nat) : Int) 12) 7 = ((0 : Nat) : Int) := by
      have h := jsShr_natCast_mask W hWlt 12 3 (by omega) (by omega) (by omega)
      norm_num at h
      rw [h]
      omega
    have hmatch : matchesSpec spec W = true := by
      unfold matchesSpec
      rw [hfun3W, hf3, hfmt, hf7, hfx]
      norm_num
    have hhead : sortByXlenDesc ((instructionsByOpcode 19).filter (isInstructionAllowed .auto)) =
        spec :: (sortByXlenDesc ((instructionsByOpcode 19).filter
          (isInstructionAllowed .auto))).tail := by
      have h : some (sortByXlenDesc ((instructionsByOpcode 19).filter
            (isInstructionAllowed .auto))) =
          (instructionsByName "addi").map (fun s =>
            s :: (sortByXlenDesc ((instructionsByOpcode 19).filter
              (isInstructionAllowed .auto))).tail) := rfl
      rw [hA] at h
      simpa using h
    unfold selectSpec
    dsimp only
    rw [hopc, show toUint32 (19 : Int) = 19 from rfl]
    rw [if_neg (show ¬(instructionsByOpcode 19 = []) from by decide)]
    rw [hhead]
    rw [if_neg (by simp)]
    rw [@List.find?_cons_of_pos InstructionSpec (fun c => matchesSpec c W) spec _ hmatch]
  exact main _ rfl

set_option maxRecDepth 10000 in
theorem c1_addi_decode (iv rdv rs1v : Nat) (hiv : iv < 4096) (hrd : rdv < 32)
    (hrs : rs1v < 32) (spec : InstructionSpec)
    (hA : instructionsByName "addi" = some spec) :
    standardDecodeWord .auto 32 .dec (iv * 1048576 + rs1v * 32768 + rdv * 128 + 19) 1 =
      .ok (s!"{spec.name} {formatRegister ((rdv : Nat) : Int)}, {formatRegister ((rs1v : Nat) : Int)}, {formatNumber (signExtend ((iv : Nat) : Int) ((12 : Nat) : Int)) .dec}", 32) := by
  have main : ∀ W : Nat, W = iv * 1048576 + rs1v * 32768 + rdv * 128 + 19 →
      standardDecodeWord .auto 32 .dec W 1 =
        .ok (s!"{spec.name} {formatRegister ((rdv : Nat) : Int)}, {formatRegister ((rs1v : Nat) : Int)}, {formatNumber (signExtend ((iv : Nat) : Int) ((12 : Nat) : Int)) .dec}", 32) := by
    intro W hW
    subst hW
    have hWlt : iv * 1048576 + rs1v * 32768 + rdv * 128 + 19 < 4294967296 := by omega
    have hpat : spec.operandPattern = "rd_rs1_imm12" := by
      have h : (instructionsByName "addi").map (fun s => s.operandPattern) =
          some "rd_rs1_imm12" := rfl
      rw [hA] at h
      simpa using h
    have him : spec.immBits = none := by
      have h : (instructionsByName "addi").map (fun s => s.immBits) = some none := rfl
      rw [hA] at h
      simpa using h
    have hun : spec.unsignedImmediate = none := by
      have h : (instructionsByName "addi").map (fun s => s.unsignedImmediate) =
          some none := rfl
      rw [hA] at h
      simpa using h
    have hfx : spec.fixedImmediate = none := by
      have h : (instructionsByName "addi").map (fun s => s.fixedImmediate) = some none := rfl
      rw [hA] at h
      simpa using h
    have hmin : spec.minXlen = none := by
      have h : (instructionsByName "addi").map (fun s => s.minXlen) = some none := rfl
      rw [hA] at h
      simpa using h
    have hext_rd : jsAnd (jsShr (((iv * 1048576 + rs1v * 32768 + rdv * 128 + 19 : Nat)) : Int) 7) 31 = ((rdv : Nat) : Int) := by
      have h := jsShr_natCast_mask (iv * 1048576 + rs1v * 32768 + rdv * 128 + 19) hWlt 7 5 (by omega) (by omega) (by omega)
      norm_num at h
      push_cast
      rw [h]
      omega
    have hext_rs1 : jsAnd (jsShr (((iv * 1048576 + rs1v * 32768 + rdv * 128 + 19 : Nat)) : Int) 15) 31 = ((rs1v : Nat) : Int) := by
      have h := jsShr_natCast_mask (iv * 1048576 + rs1v * 32768 + rdv * 128 + 19) hWlt 15 5 (by omega) (by omega) (by omega)
      norm_num at h
      push_cast
      rw [h]
      omega
    have hext_imm : jsAnd (jsShr (((iv * 1048576 + rs1v * 32768 + rdv * 128 + 19 : Nat)) : Int) 20) 4095 = ((iv : Nat) : Int) := by
      have h := jsShr_natCast_mask (iv * 1048576 + rs1v * 32768 + rdv * 128 + 19) hWlt 20 12 (by omega) (by omega) (by omega)
      norm_num at h
      push_cast
      rw [h]
      omega
    have hstr : decodeIType .dec spec (iv * 1048576 + rs1v * 32768 + rdv * 128 + 19) =
        s!"{spec.name} {formatRegister ((rdv : Nat) : Int)}, {formatRegister ((rs1v : Nat) : Int)}, {formatNumber (signExtend ((iv : Nat) : Int) ((12 : Nat) : Int)) .dec}" := by
      unfold decodeIType
      rw [hext_rd, hext_rs1, hext_imm]
      simp only [him, hun, hfx, Option.isSome_none, Option.getD_none, Option.getD_some,
        Bool.false_eq_true, false_and, if_false]
    have hrec : recordInstruction .auto 32 spec = 32 := by
      unfold recordInstruction minXlenD
      rw [hmin]
      simp
    have hdec : decodeOperands .dec spec (iv * 1048576 + rs1v * 32768 + rdv * 128 + 19) 1 = .ok (decodeIType .dec spec (iv * 1048576 + rs1v * 32768 + rdv * 128 + 19)) := by
      unfold decodeOperands
      rw [hpat]
      rw [if_neg (by decide), if_neg (by decide), if_pos rfl]
    unfold standardDecodeWord
    simp only [bind, pure]
    rw [c1_addi_select iv rdv rs1v hiv hrd hrs spec hA]
    simp only [Except.bind]
    rw [hdec]
    simp only [Except.bind, Except.pure]
    rw [hstr, hrec]
  exact main _ rfl

set_option maxRecDepth 10000 in
theorem c1_addi_general :
    ∀ (rd rs1 : Fin 32) (imm : Int) (spec : InstructionSpec),
      instructionsByName "addi" = some spec →
      -2048 ≤ imm → imm ≤ 2047 →
      disassembleWord .auto 32 .dec
        (toUint32 (jsOr (jsOr (jsOr (jsOr
          (jsShl (jsAnd imm (jsShl 1 ((spec.immBits.getD 12 : Nat) : Int) - 1)) 20)
          (jsShl (jsAnd ((rs1 : Nat) : Int) 31) 15))
          (jsShl (jsAnd ((spec.funct3.getD 0 : Nat) : Int) 7) 12))
          (jsShl (jsAnd ((rd : Nat) : Int) 31) 7))
          (jsAnd ((spec.opcode : Nat) : Int) 127))) 1 =
      .ok (s!"{spec.name} {formatRegister ((rd : Nat) : Int)}, {formatRegister ((rs1 : Nat) : Int)}, {formatNumber imm .dec}", 32) := by
  intro rd rs1 imm spec hA h1 h2
  have himB : spec.immBits = none := by
    have h : (instructionsByName "addi").map (fun s => s.immBits) = some none := rfl
    rw [hA] at h
    simpa using h
  have hf3 : spec.funct3 = some 0 := by
    have h : (instructionsByName "addi").map (fun s => s.funct3) = some (some 0) := rfl
    rw [hA] at h
    simpa using h
  have hopcf : spec.opcode = 19 := by
    have h : (instructionsByName "addi").map (fun s => s.opcode) = some 19 := rfl
    rw [hA] at h
    simpa using h
  rw [himB, hf3, hopcf]
  simp only [Option.getD_none, Option.getD_some]
  rw [c1_word_shape (rd : Nat) (rs1 : Nat) imm rd.isLt rs1.isLt h1 h2]
  have hiv4 : (imm % 4096).toNat < 4096 := by omega
  unfold disassembleWord
  rw [jsAnd_three]
  rw [if_neg (by omega)]
  rw [c1_addi_decode ((imm % 4096).toNat) (rd : Nat) (rs1 : Nat) hiv4 rd.isLt rs1.isLt
    spec hA]
  have hse : signExtend ((((imm % 4096).toNat : Nat)) : Int) ((12 : Nat) : Int) = imm := by
    have hcast : ((((imm % 4096).toNat : Nat)) : Int) = imm % 4096 :=
      Int.toNat_of_nonneg (Int.emod_nonneg imm (by norm_num))
    have h12 : ((12 : Nat) : Int) = (12 : Int) := by norm_num
    rw [h12, hcast]
    rw [signExtend_twelve (imm % 4096) (Int.emod_nonneg imm (by norm_num))
      (Int.emod_lt_of_pos imm (by norm_num))]
    split <;> omega
  rw [hse]

set_option maxRecDepth 10000 in
/-- C1: round-trip of assembly and disassembly. The claim fails in general
(see the counterexample: `lw` comes back as `lq`); what holds: (1) for
every `addi x<rd>, x<rs1>, <imm>` instance with a 12-bit signed
immediate, the word packed by the assembler's I-type formula (using the
`addi` spec's table fields) disassembles back to exactly the same
mnemonic, registers and immediate value; (2) the spec's concrete example
holds: assembling "addi x1, x0, 1" yields "0x00100093", and
disassembling "0x00100093" (decimal immediate base) yields
"addi x1, x0, 1". -/
theorem C1_addi_roundtrip :
    (∀ (rd rs1 : Fin 32) (imm : Int) (spec : InstructionSpec),
      instructionsByName "addi" = some spec →
      -2048 ≤ imm → imm ≤ 2047 →
      disassembleWord .auto 32 .dec
        (toUint32 (jsOr (jsOr (jsOr (jsOr
          (jsShl (jsAnd imm (jsShl 1 ((spec.immBits.getD 12 : Nat) : Int) - 1)) 20)
          (jsShl (jsAnd ((rs1 : Nat) : Int) 31) 15))
          (jsShl (jsAnd ((spec.funct3.getD 0 : Nat) : Int) 7) 12))
          (jsShl (jsAnd ((rd : Nat) : Int) 31) 7))
          (jsAnd ((spec.opcode : Nat) : Int) 127))) 1 =
      .ok (s!"{spec.name} {formatRegister ((rd : Nat) : Int)}, {formatRegister ((rs1 : Nat) : Int)}, {formatNumber imm .dec}", 32)) ∧
    Full.assemble "addi x1, x0, 1" = .ok "0x00100093" ∧
    disassemble "0x00100093" { numberBase := .dec } = .ok "addi x1, x0, 1" :=
  ⟨c1_addi_general, by rfl, by rfl⟩

theorem C1_lw_comes_back_as_lq :
    Full.assembleCore (.fixed 128) false "lw x1, 0(x0)" = .ok ([8323], 128) ∧
    disassembleWord (.fixed 128) 128 .dec 8323 1 = .ok ("lq x1, 0(x0)", 128) ∧
    ("lq x1, 0(x0)" : String) ≠ "lw x1, 0(x0)" :=
  ⟨by rfl, by rfl, by decide⟩

set_option maxRecDepth 10000 in
theorem C1_witness :
    disassembleWord .auto 32 .dec 1048723 1 = .ok ("addi x1, x0, 1", 32) := by
  have h := C1_addi_roundtrip.1 1 0 1 _ rfl (by norm_num) (by norm_num)
  exact h

end Riscv
